import Mathlib

/-!
# Serial peripheral bus of the PSX core: controllers and the pad bus

A shallow embedding of `core/negcon.cpp`, `core/namco_guncon.cpp` and
`core/pad.cpp`.  Machine integers are natural numbers; a `u8` or `u16` cast is
an explicit remainder.  Member functions take the object as their first
argument and return the object after the call.  Declarations that live in
headers or translation units outside the translated files are parameters.
-/

/-! ## Integer helpers (common/types.h) -/

/-- Modelled from the spec: `Truncate8` of `common/types.h`, a header that is
not among the translated files; the conversion of a value to `u8`. -/
def Truncate8 (value : Nat) : Nat := value % 256

/-- Modelled from the spec: `Truncate16` of `common/types.h`; the conversion
of a value to `u16`. -/
def Truncate16 (value : Nat) : Nat := value % 65536

/-- Modelled from the spec: `ZeroExtend32` of `common/types.h`; the conversion
of an unsigned value to `u32`. -/
def ZeroExtend32 (value : Nat) : Nat := value % 4294967296

/-- The outcome of `bool Transfer(const u8 data_in, u8* data_out)`: the device
after the call, the byte stored through `data_out`, and the returned flag. -/
structure TransferResult (σ : Type) where
  dev : σ
  data_out : Nat
  ack : Bool

/-! ## NeGcon (core/negcon.cpp) -/

namespace NeGcon

/-- The enumeration `NeGcon::Axis`, the index of `m_axis_state`; its four
enumerators are the ones named in `negcon.cpp`. -/
inductive Axis where
  | Steering | I | II | L
  deriving DecidableEq, Repr

/-- The enumeration `NeGcon::TransferState`; its enumerators are the case
labels of `NeGcon::Transfer`, in order. -/
inductive TransferState where
  | Idle | Ready | IDMSB | ButtonsLSB | ButtonsMSB
  | AnalogSteering | AnalogI | AnalogII | AnalogL
  deriving DecidableEq, Repr

end NeGcon

/-- The members of `NeGcon` read or written by the translated functions. -/
structure NeGcon where
  m_axis_state : NeGcon.Axis → Nat
  m_button_state : Nat
  m_transfer_state : NeGcon.TransferState

namespace NeGcon

/-- The constant `ID` of `NeGcon::Transfer`. -/
def ID : Nat := 0x5A23

/-- The member ranges fixed by the C++ types: `u8` axis latches and a `u16`
button register. -/
def InRange (d : NeGcon) : Prop :=
  d.m_axis_state Axis.Steering < 256 ∧ d.m_axis_state Axis.I < 256 ∧
    d.m_axis_state Axis.II < 256 ∧ d.m_axis_state Axis.L < 256 ∧ d.m_button_state < 65536

instance (d : NeGcon) : Decidable d.InRange := by
  unfold InRange; infer_instance

/-- Translation of `NeGcon::ResetTransferState`. -/
def ResetTransferState (d : NeGcon) : NeGcon :=
  { d with m_transfer_state := TransferState.Idle }

/-- Translation of `NeGcon::Reset`. -/
def Reset (d : NeGcon) : NeGcon :=
  { d with m_transfer_state := TransferState.Idle }

/-- Translation of `NeGcon::Transfer`. -/
def Transfer (d : NeGcon) (data_in : Nat) : TransferResult NeGcon :=
  match d.m_transfer_state with
  | TransferState.Idle =>
    if data_in = 0x01 then
      ⟨{ d with m_transfer_state := TransferState.Ready }, 0xFF, true⟩
    else
      ⟨d, 0xFF, false⟩
  | TransferState.Ready =>
    if data_in = 0x42 then
      ⟨{ d with m_transfer_state := TransferState.IDMSB }, Truncate8 ID, true⟩
    else
      ⟨d, 0xFF, false⟩
  | TransferState.IDMSB =>
    ⟨{ d with m_transfer_state := TransferState.ButtonsLSB }, Truncate8 (ID >>> 8), true⟩
  | TransferState.ButtonsLSB =>
    ⟨{ d with m_transfer_state := TransferState.ButtonsMSB }, Truncate8 d.m_button_state, true⟩
  | TransferState.ButtonsMSB =>
    ⟨{ d with m_transfer_state := TransferState.AnalogSteering },
      Truncate8 (d.m_button_state >>> 8), true⟩
  | TransferState.AnalogSteering =>
    ⟨{ d with m_transfer_state := TransferState.AnalogI },
      Truncate8 (d.m_axis_state Axis.Steering), true⟩
  | TransferState.AnalogI =>
    ⟨{ d with m_transfer_state := TransferState.AnalogII },
      Truncate8 (d.m_axis_state Axis.I), true⟩
  | TransferState.AnalogII =>
    ⟨{ d with m_transfer_state := TransferState.AnalogL },
      Truncate8 (d.m_axis_state Axis.II), true⟩
  | TransferState.AnalogL =>
    ⟨{ d with m_transfer_state := TransferState.Idle },
      Truncate8 (d.m_axis_state Axis.L), false⟩

/-- A sequence of `Transfer` calls, one per input byte: the device after the
last call and the `(data_out, ack)` pair of every call in order. -/
def Transfers : NeGcon → List Nat → NeGcon × List (Nat × Bool)
  | d, [] => (d, [])
  | d, b :: bs =>
    let r := Transfer d b
    let rest := Transfers r.dev bs
    (rest.1, (r.data_out, r.ack) :: rest.2)

end NeGcon

/-! ## NamcoGunCon (core/namco_guncon.cpp) -/

/-- What `NamcoGunCon::UpdatePosition` obtains from the host display and the
GPU at the time of the call.  `ConvertScreenCoordinatesToBeamTicksAndLines`
stands for the GPU function applied with the device's scale settings: `none`
is its `false` result, `some (tick, line)` its `true` result with the two
output values.  `BeamTicksToPositionX` stands for the floating-point quotient
of the tick count by the CRTC-frequency divider. -/
structure PointerSource where
  GetMousePositionX : Int
  GetMousePositionY : Int
  ConvertScreenCoordinatesToBeamTicksAndLines : Int → Int → Option (Nat × Nat)
  BeamTicksToPositionX : Nat → Nat

namespace NamcoGunCon

/-- Modelled from the spec: the enumeration `NamcoGunCon::Button` of
`namco_guncon.h`, of which the translated file names `Trigger`,
`ShootOffscreen` and `Count`.  The three regular buttons index the three
entries of the bit table of `SetButtonState` in order, the trigger first;
"shoot offscreen" is the input modifier that occupies no bit of its own. -/
inductive Button where
  | Trigger | A | B | ShootOffscreen
  deriving DecidableEq, Repr

/-- The enumeration `NamcoGunCon::TransferState`; its enumerators are the case
labels of `NamcoGunCon::Transfer`, in order. -/
inductive TransferState where
  | Idle | Ready | IDMSB | ButtonsLSB | ButtonsMSB | XLSB | XMSB | YLSB | YMSB
  deriving DecidableEq, Repr

end NamcoGunCon

/-- The members of `NamcoGunCon` read or written by the translated functions. -/
structure NamcoGunCon where
  m_button_state : Nat
  m_position_x : Nat
  m_position_y : Nat
  m_shoot_offscreen : Bool
  m_transfer_state : NamcoGunCon.TransferState
  deriving DecidableEq, Repr

namespace NamcoGunCon

/-- The constant `ID` of `NamcoGunCon::Transfer`. -/
def ID : Nat := 0x5A63

/-- The table `indices` of `SetButtonState`, applied to a button's ordinal.
The table has three entries; the value given for `ShootOffscreen` is never
consulted, since `SetButtonState` returns before the lookup for that button. -/
def indices : Button → Nat
  | Button.Trigger => 13
  | Button.A => 3
  | Button.B => 14
  | Button.ShootOffscreen => 0

/-- The statement `m_button_state &= ~(u16(1) << index)` on a `u16`. -/
def clearButtonBit (button_state index : Nat) : Nat :=
  button_state &&& (0xFFFF ^^^ (1 <<< index))

/-- The statement `m_button_state |= u16(1) << index`. -/
def setButtonBit (button_state index : Nat) : Nat :=
  button_state ||| (1 <<< index)

/-- The tail of `SetButtonState(Button, bool)` after the `ShootOffscreen`
test: the table lookup and the bit update. -/
def SetButtonBit (d : NamcoGunCon) (button : Button) (pressed : Bool) : NamcoGunCon :=
  if pressed then
    { d with m_button_state := clearButtonBit d.m_button_state (indices button) }
  else
    { d with m_button_state := setButtonBit d.m_button_state (indices button) }

/-- Translation of `NamcoGunCon::SetButtonState(Button button, bool pressed)`; the recursive
call with `Button::Trigger` runs the tail of the function. -/
def SetButtonState (d : NamcoGunCon) (button : Button) (pressed : Bool) : NamcoGunCon :=
  if button = Button.ShootOffscreen then
    if d.m_shoot_offscreen ≠ pressed then
      SetButtonBit { d with m_shoot_offscreen := pressed } Button.Trigger pressed
    else
      d
  else
    SetButtonBit d button pressed

/-- Translation of `NamcoGunCon::ResetTransferState`. -/
def ResetTransferState (d : NamcoGunCon) : NamcoGunCon :=
  { d with m_transfer_state := TransferState.Idle }

/-- Translation of `NamcoGunCon::Reset`. -/
def Reset (d : NamcoGunCon) : NamcoGunCon :=
  { d with m_transfer_state := TransferState.Idle }

/-- Translation of `NamcoGunCon::UpdatePosition`; the three tests of the `if` are taken in
the source's short-circuit order. -/
def UpdatePosition (d : NamcoGunCon) (g : PointerSource) : NamcoGunCon :=
  let mouse_x := g.GetMousePositionX
  let mouse_y := g.GetMousePositionY
  if mouse_x < 0 ∨ mouse_y < 0 then
    { d with m_position_x := 0x01, m_position_y := 0x0A }
  else
    match g.ConvertScreenCoordinatesToBeamTicksAndLines mouse_x mouse_y with
    | none => { d with m_position_x := 0x01, m_position_y := 0x0A }
    | some (tick, line) =>
      if d.m_shoot_offscreen then
        { d with m_position_x := 0x01, m_position_y := 0x0A }
      else
        { d with m_position_x := Truncate16 (g.BeamTicksToPositionX tick),
                 m_position_y := Truncate16 line }

/-- Translation of `NamcoGunCon::Transfer`. -/
def Transfer (d : NamcoGunCon) (g : PointerSource) (data_in : Nat) :
    TransferResult NamcoGunCon :=
  match d.m_transfer_state with
  | TransferState.Idle =>
    if data_in = 0x01 then
      ⟨{ d with m_transfer_state := TransferState.Ready }, 0xFF, true⟩
    else
      ⟨d, 0xFF, false⟩
  | TransferState.Ready =>
    if data_in = 0x42 then
      ⟨{ d with m_transfer_state := TransferState.IDMSB }, Truncate8 ID, true⟩
    else
      ⟨d, 0xFF, false⟩
  | TransferState.IDMSB =>
    ⟨{ d with m_transfer_state := TransferState.ButtonsLSB }, Truncate8 (ID >>> 8), true⟩
  | TransferState.ButtonsLSB =>
    ⟨{ d with m_transfer_state := TransferState.ButtonsMSB }, Truncate8 d.m_button_state, true⟩
  | TransferState.ButtonsMSB =>
    ⟨{ d with m_transfer_state := TransferState.XLSB },
      Truncate8 (d.m_button_state >>> 8), true⟩
  | TransferState.XLSB =>
    let d1 := UpdatePosition d g
    ⟨{ d1 with m_transfer_state := TransferState.XMSB }, Truncate8 d1.m_position_x, true⟩
  | TransferState.XMSB =>
    ⟨{ d with m_transfer_state := TransferState.YLSB },
      Truncate8 (d.m_position_x >>> 8), true⟩
  | TransferState.YLSB =>
    ⟨{ d with m_transfer_state := TransferState.YMSB }, Truncate8 d.m_position_y, true⟩
  | TransferState.YMSB =>
    ⟨{ d with m_transfer_state := TransferState.Idle },
      Truncate8 (d.m_position_y >>> 8), false⟩

/-- A sequence of `Transfer` calls, one per input byte, each with the pointer
source as it is at that call: the device after the last call and the
`(data_out, ack)` pair of every call in order. -/
def Transfers : NamcoGunCon → List (PointerSource × Nat) → NamcoGunCon × List (Nat × Bool)
  | d, [] => (d, [])
  | d, (g, b) :: bs =>
    let r := Transfer d g b
    let rest := Transfers r.dev bs
    (rest.1, (r.data_out, r.ack) :: rest.2)

end NamcoGunCon

/-! ## Timing event of the bus (timing_event.h) -/

/-- Modelled from the spec: the scheduler handle held in `m_transfer_event`
(`timing_event.cpp` is not among the translated files).  The spec gives it a
period that can be rescheduled and a deactivation; the handle is therefore a
scheduled flag together with the period last set. -/
structure TimingEvent where
  m_active : Bool
  m_period : Nat
  deriving DecidableEq, Repr

namespace TimingEvent

/-- Modelled from the spec: `SetPeriodAndSchedule(ticks)` of the absent
scheduler, "reschedule it with a new period": the event is scheduled with
the given period. -/
def SetPeriodAndSchedule (_e : TimingEvent) (ticks : Nat) : TimingEvent :=
  { m_active := true, m_period := ticks }

/-- Modelled from the spec: `Deactivate()` of the absent scheduler: the event
is no longer scheduled; its period is kept. -/
def Deactivate (e : TimingEvent) : TimingEvent :=
  { e with m_active := false }

end TimingEvent

/-! ## One-bit fields of the register unions (common/bitfield.h) -/

namespace BitField

/-- Modelled from the spec: reading a one-bit `BitField` member of a register
union (`bitfield.h` is not among the translated files): the bit of the
backing value at the field's index. -/
def GetValue (data index : Nat) : Bool := data.testBit index

/-- Modelled from the spec: assigning a `bool` to a one-bit `BitField`
member: the bit at the field's index becomes the value, the other bits of the
backing value stay. -/
def SetValue (data index : Nat) (value : Bool) : Nat :=
  if value then data ||| (1 <<< index) else data ^^^ (data &&& (1 <<< index))

/-- Modelled from the spec: reading a one-bit `BitField` member of integer
type (the slot index of the control register). -/
def GetIndex (data index : Nat) : Nat := (data >>> index) % 2

end BitField

/-! ## Devices attached to the bus -/

/-- The operations the bus invokes on a device whose implementation is not
among the translated files (a memory card, or a controller other than the two
above), over a device state `σ`. -/
structure DeviceOps (σ : Type) where
  Transfer : σ → Nat → TransferResult σ
  ResetTransferState : σ → σ
  Reset : σ → σ

/-- The controllers a slot of `m_controllers` can own: the two translated
variants, or another variant with state `C`. -/
inductive Controller (C : Type) where
  | NeGcon (d : NeGcon)
  | NamcoGunCon (d : NamcoGunCon)
  | Other (d : C)

namespace Controller

/-- The virtual call `controller->Transfer(data_in, &data_out)`. -/
def Transfer {C : Type} (ops : DeviceOps C) (g : PointerSource) :
    Controller C → Nat → TransferResult (Controller C)
  | Controller.NeGcon d, data_in =>
    let r := d.Transfer data_in
    ⟨Controller.NeGcon r.dev, r.data_out, r.ack⟩
  | Controller.NamcoGunCon d, data_in =>
    let r := d.Transfer g data_in
    ⟨Controller.NamcoGunCon r.dev, r.data_out, r.ack⟩
  | Controller.Other d, data_in =>
    let r := ops.Transfer d data_in
    ⟨Controller.Other r.dev, r.data_out, r.ack⟩

/-- The virtual call `controller->ResetTransferState()`. -/
def ResetTransferState {C : Type} (ops : DeviceOps C) : Controller C → Controller C
  | Controller.NeGcon d => Controller.NeGcon d.ResetTransferState
  | Controller.NamcoGunCon d => Controller.NamcoGunCon d.ResetTransferState
  | Controller.Other d => Controller.Other (ops.ResetTransferState d)

/-- The virtual call `controller->Reset()`. -/
def Reset {C : Type} (ops : DeviceOps C) : Controller C → Controller C
  | Controller.NeGcon d => Controller.NeGcon d.Reset
  | Controller.NamcoGunCon d => Controller.NamcoGunCon d.Reset
  | Controller.Other d => Controller.Other (ops.Reset d)

end Controller

/-- The outcome of `Multitap::Transfer`: the multitap after the call, the
controller and memory-card slots of the bus after the call (the multitap
relays to them), the byte stored through `data_out`, and the returned flag. -/
structure MultitapResult (C M T : Type) where
  tap : T
  controllers : Nat → Option (Controller C)
  memory_cards : Nat → Option M
  data_out : Nat
  ack : Bool

/-! ## Pad (core/pad.cpp) -/

namespace Pad

/-- The enumeration `Pad::State`: the three bus states. -/
inductive State where
  | Idle | Transmitting | WaitingForACK
  deriving DecidableEq, Repr

/-- The enumeration `Pad::ActiveDevice`; its enumerators are the case labels
of the dispatch in `Pad::DoTransfer`. -/
inductive ActiveDevice where
  | None | Controller | MemoryCard | Multitap
  deriving DecidableEq, Repr

/-- Modelled from the spec: the constant `NUM_CONTROLLER_AND_CARD_PORTS` of
`types.h`: two physical ports, each fanned out to four logical ports. -/
def NUM_CONTROLLER_AND_CARD_PORTS : Nat := 8

/-- Modelled from the spec: the constant `NUM_MULTITAPS` of `types.h`: one
multitap unit for each of the two physical ports. -/
def NUM_MULTITAPS : Nat := 2

/-- The declarations `pad.cpp` takes from files that are not among the
translated ones, as parameters: the bit index of every field of the control
and status registers used (`pad.h`), the two tick counts (`pad.h`), and the
operations of the other controllers, of the memory cards and of the multitaps,
over their states `C`, `M` and `T`. -/
structure Decls (C M T : Type) where
  CTRL_TXEN : Nat
  CTRL_SELECT : Nat
  CTRL_RXEN : Nat
  CTRL_ACK : Nat
  CTRL_RESET : Nat
  CTRL_ACKINTEN : Nat
  CTRL_SLOT : Nat
  STAT_TXRDY : Nat
  STAT_RXFIFONEMPTY : Nat
  STAT_TXDONE : Nat
  STAT_ACKINPUT : Nat
  STAT_INTR : Nat
  GetTransferTicks : Nat → Nat
  GetACKTicks : Bool → Nat
  controller : DeviceOps C
  memory_card : DeviceOps M
  multitap_IsEnabled : T → Bool
  multitap_IsReadingMemoryCard : T → Bool
  multitap_Transfer :
    T → (Nat → Option (Controller C)) → (Nat → Option M) → Nat → MultitapResult C M T
  multitap_ResetTransferState : T → T
  multitap_Reset : T → T

/-- The fields of one register are distinct bits inside the register's width
(16 bits for the control register, 32 for the status register). -/
def Decls.Valid {C M T : Type} (K : Decls C M T) : Prop :=
  [K.CTRL_TXEN, K.CTRL_SELECT, K.CTRL_RXEN, K.CTRL_ACK, K.CTRL_RESET, K.CTRL_ACKINTEN,
      K.CTRL_SLOT].Nodup ∧
    (∀ i ∈ [K.CTRL_TXEN, K.CTRL_SELECT, K.CTRL_RXEN, K.CTRL_ACK, K.CTRL_RESET,
      K.CTRL_ACKINTEN, K.CTRL_SLOT], i < 16) ∧
    [K.STAT_TXRDY, K.STAT_RXFIFONEMPTY, K.STAT_TXDONE, K.STAT_ACKINPUT, K.STAT_INTR].Nodup ∧
    (∀ i ∈ [K.STAT_TXRDY, K.STAT_RXFIFONEMPTY, K.STAT_TXDONE, K.STAT_ACKINPUT,
      K.STAT_INTR], i < 32)

instance {C M T : Type} (K : Decls C M T) : Decidable K.Valid := by
  unfold Decls.Valid; infer_instance

end Pad

/-- The members of `Pad`, together with the number of requests raised so far
on interrupt line 7 of the interrupt controller. -/
structure Pad (C M T : Type) where
  m_controllers : Nat → Option (Controller C)
  m_memory_cards : Nat → Option M
  m_multitaps : Nat → T
  m_transfer_event : TimingEvent
  m_state : Pad.State
  m_JOY_CTRL : Nat
  m_JOY_STAT : Nat
  m_JOY_MODE : Nat
  m_JOY_BAUD : Nat
  m_active_device : Pad.ActiveDevice
  m_receive_buffer : Nat
  m_transmit_buffer : Nat
  m_transmit_value : Nat
  m_receive_buffer_full : Bool
  m_transmit_buffer_full : Bool
  irq7_requests : Nat

namespace Pad

variable {C M T : Type}

/-- Modelled from the spec: `IsTransmitting()` of `pad.h`, "a transfer is
active": the bus state is not Idle. -/
def IsTransmitting (s : Pad C M T) : Bool :=
  s.m_state != State.Idle

/-- Modelled from the spec: `CanTransfer()` of `pad.h`, the preconditions for
a new transfer: a byte is queued in the transmit buffer and the control
register asserts device-select and transmit-enable. -/
def CanTransfer (K : Decls C M T) (s : Pad C M T) : Bool :=
  s.m_transmit_buffer_full && BitField.GetValue s.m_JOY_CTRL K.CTRL_SELECT &&
    BitField.GetValue s.m_JOY_CTRL K.CTRL_TXEN

/-- Translation of `Pad::UpdateJoyStat`. -/
def UpdateJoyStat (K : Decls C M T) (s : Pad C M T) : Pad C M T :=
  let stat1 := BitField.SetValue s.m_JOY_STAT K.STAT_RXFIFONEMPTY s.m_receive_buffer_full
  let stat2 := BitField.SetValue stat1 K.STAT_TXDONE
    (!s.m_transmit_buffer_full && s.m_state != State.Transmitting)
  let stat3 := BitField.SetValue stat2 K.STAT_TXRDY (!s.m_transmit_buffer_full)
  { s with m_JOY_STAT := stat3 }

/-- Translation of `Pad::EndTransfer`. -/
def EndTransfer (s : Pad C M T) : Pad C M T :=
  { s with m_state := State.Idle, m_transfer_event := s.m_transfer_event.Deactivate }

/-- Translation of `Pad::ResetDeviceTransferState`. -/
def ResetDeviceTransferState (K : Decls C M T) (s : Pad C M T) : Pad C M T :=
  { s with
    m_controllers := fun i =>
      if i < NUM_CONTROLLER_AND_CARD_PORTS then
        (s.m_controllers i).map (Controller.ResetTransferState K.controller)
      else s.m_controllers i
    m_memory_cards := fun i =>
      if i < NUM_CONTROLLER_AND_CARD_PORTS then
        (s.m_memory_cards i).map K.memory_card.ResetTransferState
      else s.m_memory_cards i
    m_multitaps := fun i =>
      if i < NUM_MULTITAPS then K.multitap_ResetTransferState (s.m_multitaps i)
      else s.m_multitaps i
    m_active_device := ActiveDevice.None }

/-- Translation of `Pad::SoftReset`. -/
def SoftReset (K : Decls C M T) (s : Pad C M T) : Pad C M T :=
  let s1 := if IsTransmitting s then EndTransfer s else s
  let s2 : Pad C M T :=
    { s1 with
      m_JOY_CTRL := 0
      m_JOY_STAT := 0
      m_JOY_MODE := 0
      m_receive_buffer := 0
      m_receive_buffer_full := false
      m_transmit_buffer := 0
      m_transmit_buffer_full := false }
  UpdateJoyStat K (ResetDeviceTransferState K s2)

/-- Translation of `Pad::BeginTransfer`. -/
def BeginTransfer (K : Decls C M T) (s : Pad C M T) : Pad C M T :=
  { s with
    m_JOY_CTRL := BitField.SetValue s.m_JOY_CTRL K.CTRL_RXEN true
    m_transmit_value := s.m_transmit_buffer
    m_transmit_buffer_full := false
    m_state := State.Transmitting
    m_transfer_event := s.m_transfer_event.SetPeriodAndSchedule (K.GetTransferTicks s.m_JOY_BAUD) }

/-- The statement `if (!memory_card || (ack = memory_card->Transfer(...)) ==
false) ... else m_active_device = ActiveDevice::MemoryCard;` of
`Pad::DoTransfer`, reached with `data_in` as given: the bus afterwards with
the values of `data_in` and `ack`. -/
def DoTransfer.tryMemoryCard (K : Decls C M T) (device_index data_out : Nat)
    (memory_card : Option M) (s : Pad C M T) (data_in : Nat) : Pad C M T × Nat × Bool :=
  match memory_card with
  | none => (s, data_in, false)
  | some m =>
    let r := K.memory_card.Transfer m data_out
    let s1 : Pad C M T :=
      { s with m_memory_cards := Function.update s.m_memory_cards device_index (some r.dev) }
    if r.ack then ({ s1 with m_active_device := ActiveDevice.MemoryCard }, r.data_out, true)
    else (s1, r.data_out, false)

/-- The `switch (m_active_device)` of `Pad::DoTransfer`: the bus afterwards
with the values of `data_in` and `ack`. -/
def DoTransfer.dispatch (K : Decls C M T) (g : PointerSource) (device_index data_out : Nat)
    (controller : Option (Controller C)) (memory_card : Option M) (s : Pad C M T) :
    Pad C M T × Nat × Bool :=
  let slot := BitField.GetIndex s.m_JOY_CTRL K.CTRL_SLOT
  match s.m_active_device with
  | ActiveDevice.None =>
    if K.multitap_IsEnabled (s.m_multitaps slot) then
      let r := K.multitap_Transfer (s.m_multitaps slot) s.m_controllers s.m_memory_cards data_out
      let s1 : Pad C M T :=
        { s with
          m_multitaps := Function.update s.m_multitaps slot r.tap
          m_controllers := r.controllers
          m_memory_cards := r.memory_cards }
      if r.ack then ({ s1 with m_active_device := ActiveDevice.Multitap }, r.data_out, true)
      else (s1, r.data_out, false)
    else
      match controller with
      | none => DoTransfer.tryMemoryCard K device_index data_out memory_card s 0xFF
      | some c =>
        let r := Controller.Transfer K.controller g c data_out
        let s1 : Pad C M T :=
          { s with m_controllers := Function.update s.m_controllers device_index (some r.dev) }
        if r.ack then ({ s1 with m_active_device := ActiveDevice.Controller }, r.data_out, true)
        else DoTransfer.tryMemoryCard K device_index data_out memory_card s1 r.data_out
  | ActiveDevice.Controller =>
    match controller with
    | none => (s, 0xFF, false)
    | some c =>
      let r := Controller.Transfer K.controller g c data_out
      ({ s with m_controllers := Function.update s.m_controllers device_index (some r.dev) },
        r.data_out, r.ack)
  | ActiveDevice.MemoryCard =>
    match memory_card with
    | none => (s, 0xFF, false)
    | some m =>
      let r := K.memory_card.Transfer m data_out
      ({ s with m_memory_cards := Function.update s.m_memory_cards device_index (some r.dev) },
        r.data_out, r.ack)
  | ActiveDevice.Multitap =>
    if K.multitap_IsEnabled (s.m_multitaps slot) then
      let r := K.multitap_Transfer (s.m_multitaps slot) s.m_controllers s.m_memory_cards data_out
      ({ s with
          m_multitaps := Function.update s.m_multitaps slot r.tap
          m_controllers := r.controllers
          m_memory_cards := r.memory_cards },
        r.data_out, r.ack)
    else (s, 0xFF, false)

/-- Translation of `Pad::DoTransfer`. -/
def DoTransfer (K : Decls C M T) (g : PointerSource) (s : Pad C M T) : Pad C M T :=
  let device_index :=
    if K.multitap_IsEnabled (s.m_multitaps 0) then 4
    else BitField.GetIndex s.m_JOY_CTRL K.CTRL_SLOT
  let controller := s.m_controllers device_index
  let memory_card := s.m_memory_cards device_index
  let s1 : Pad C M T := { s with m_JOY_CTRL := BitField.SetValue s.m_JOY_CTRL K.CTRL_RXEN true }
  let data_out := s1.m_transmit_value
  let r := DoTransfer.dispatch K g device_index data_out controller memory_card s1
  let s2 := r.1
  let data_in := r.2.1
  let ack := r.2.2
  let s3 : Pad C M T := { s2 with m_receive_buffer := data_in, m_receive_buffer_full := true }
  let s4 : Pad C M T :=
    if !ack then
      EndTransfer { s3 with m_active_device := ActiveDevice.None }
    else
      let memcard_transfer :=
        s3.m_active_device == ActiveDevice.MemoryCard ||
          (s3.m_active_device == ActiveDevice.Multitap &&
            K.multitap_IsReadingMemoryCard
              (s3.m_multitaps (BitField.GetIndex s3.m_JOY_CTRL K.CTRL_SLOT)))
      let ack_timer := K.GetACKTicks memcard_transfer
      { s3 with
        m_state := State.WaitingForACK
        m_transfer_event := s3.m_transfer_event.SetPeriodAndSchedule ack_timer }
  UpdateJoyStat K s4

/-- Translation of `Pad::DoACK`. -/
def DoACK (K : Decls C M T) (s : Pad C M T) : Pad C M T :=
  let s1 : Pad C M T :=
    { s with m_JOY_STAT := BitField.SetValue s.m_JOY_STAT K.STAT_ACKINPUT true }
  let s2 : Pad C M T :=
    if BitField.GetValue s1.m_JOY_CTRL K.CTRL_ACKINTEN then
      { s1 with
        m_JOY_STAT := BitField.SetValue s1.m_JOY_STAT K.STAT_INTR true
        irq7_requests := s1.irq7_requests + 1 }
    else s1
  let s3 := UpdateJoyStat K (EndTransfer s2)
  if CanTransfer K s3 then BeginTransfer K s3 else s3

/-- Translation of `Pad::TransferEvent`. -/
def TransferEvent (K : Decls C M T) (g : PointerSource) (s : Pad C M T) : Pad C M T :=
  if s.m_state = State.Transmitting then DoTransfer K g s else DoACK K s

/-- Modelled from the spec: `m_transfer_event->InvokeEarly()` of the absent
scheduler, "force-advance the scheduled event now if due or overdue".  The
flag `due` says whether the scheduler finds the event due at this call; the
event's callback is `TransferEvent`. -/
def InvokeEarly (K : Decls C M T) (g : PointerSource) (due : Bool) (s : Pad C M T) :
    Pad C M T :=
  if s.m_transfer_event.m_active && due then TransferEvent K g s else s

/-- Translation of `Pad::ReadRegister`: the bus after the read and the value returned. -/
def ReadRegister (K : Decls C M T) (g : PointerSource) (due : Bool) (s : Pad C M T)
    (offset : Nat) : Pad C M T × Nat :=
  if offset = 0x00 then
    let s1 := if IsTransmitting s then InvokeEarly K g due s else s
    let value := if s1.m_receive_buffer_full then s1.m_receive_buffer else 0xFF
    let s2 := UpdateJoyStat K { s1 with m_receive_buffer_full := false }
    (s2, ZeroExtend32 value ||| ZeroExtend32 (ZeroExtend32 value <<< 8) |||
      ZeroExtend32 (ZeroExtend32 value <<< 16) ||| ZeroExtend32 (ZeroExtend32 value <<< 24))
  else if offset = 0x04 then
    let s1 := if IsTransmitting s then InvokeEarly K g due s else s
    let bits := s1.m_JOY_STAT
    ({ s1 with m_JOY_STAT := BitField.SetValue s1.m_JOY_STAT K.STAT_ACKINPUT false }, bits)
  else if offset = 0x08 then
    (s, ZeroExtend32 s.m_JOY_MODE)
  else if offset = 0x0A then
    (s, ZeroExtend32 s.m_JOY_CTRL)
  else if offset = 0x0E then
    (s, ZeroExtend32 s.m_JOY_BAUD)
  else
    (s, 0xFFFFFFFF)

/-- Translation of `Pad::WriteRegister`. -/
def WriteRegister (K : Decls C M T) (s : Pad C M T) (offset value : Nat) : Pad C M T :=
  if offset = 0x00 then
    let s1 : Pad C M T :=
      { s with m_transmit_buffer := Truncate8 value, m_transmit_buffer_full := true }
    if !IsTransmitting s1 && CanTransfer K s1 then BeginTransfer K s1 else s1
  else if offset = 0x0A then
    let s1 : Pad C M T := { s with m_JOY_CTRL := Truncate16 value }
    let s2 := if BitField.GetValue s1.m_JOY_CTRL K.CTRL_RESET then SoftReset K s1 else s1
    let s3 : Pad C M T :=
      if BitField.GetValue s2.m_JOY_CTRL K.CTRL_ACK then
        { s2 with m_JOY_STAT := BitField.SetValue s2.m_JOY_STAT K.STAT_INTR false }
      else s2
    let s4 :=
      if !BitField.GetValue s3.m_JOY_CTRL K.CTRL_SELECT then ResetDeviceTransferState K s3
      else s3
    let s5 :=
      if !BitField.GetValue s4.m_JOY_CTRL K.CTRL_SELECT ||
          !BitField.GetValue s4.m_JOY_CTRL K.CTRL_TXEN then
        if IsTransmitting s4 then EndTransfer s4 else s4
      else
        if !IsTransmitting s4 && CanTransfer K s4 then BeginTransfer K s4 else s4
    UpdateJoyStat K s5
  else if offset = 0x08 then
    { s with m_JOY_MODE := Truncate16 value }
  else if offset = 0x0E then
    { s with m_JOY_BAUD := Truncate16 value }
  else
    s

/-- The part of `Pad::DoTransfer` from its first statement to the end of the
`switch`: the bus after the dispatch with the values of `data_in` and `ack`.
`DoTransfer` continues from these three values. -/
def DoTransfer.exchange (K : Decls C M T) (g : PointerSource) (s : Pad C M T) :
    Pad C M T × Nat × Bool :=
  let device_index :=
    if K.multitap_IsEnabled (s.m_multitaps 0) then 4
    else BitField.GetIndex s.m_JOY_CTRL K.CTRL_SLOT
  let controller := s.m_controllers device_index
  let memory_card := s.m_memory_cards device_index
  let s1 : Pad C M T := { s with m_JOY_CTRL := BitField.SetValue s.m_JOY_CTRL K.CTRL_RXEN true }
  let data_out := s1.m_transmit_value
  DoTransfer.dispatch K g device_index data_out controller memory_card s1

/-- Modelled from the spec: `GetACKTicks` of `pad.h`, a header that is not
among the translated files.  The spec gives the two delays no values; it
says the acknowledgement delay "is longer for memory-card-class transfers
than for controller-class transfers".  The parameter `GetACKTicks` follows
the spec when its value for the memory-card category exceeds its value for
the controller category. -/
def Decls.ACKTicksAsSpecified (K : Decls C M T) : Prop :=
  K.GetACKTicks false < K.GetACKTicks true

instance (K : Decls C M T) : Decidable K.ACKTicksAsSpecified := by
  unfold Decls.ACKTicksAsSpecified; infer_instance

end Pad

/-! ## Buttons of the twist controller (core/negcon.cpp) -/

namespace NeGcon

/-- Modelled from the spec: the enumerator `Button::Count` of `negcon.h`, the
number of entries of the bit table of `SetButtonState`: the logical buttons
are the codes 0 to 7. -/
def ButtonCount : Nat := 8

/-- The table `indices` of `NeGcon::SetButtonState`, "mapping of Button to index
of corresponding bit in m_button_state". -/
def indices : List Nat := [3, 4, 5, 6, 7, 11, 12, 13]

/-- Translation of `NeGcon::SetButtonState(Button button, bool pressed)`, the
button being given by its ordinal `static_cast<u8>(button)`. -/
def SetButtonStateOrdinal (d : NeGcon) (button : Nat) (pressed : Bool) : NeGcon :=
  if pressed then
    { d with m_button_state := d.m_button_state &&& (0xFFFF ^^^ (1 <<< indices.getD button 0)) }
  else
    { d with m_button_state := d.m_button_state ||| (1 <<< indices.getD button 0) }

/-- Translation of `NeGcon::SetButtonState(s32 button_code, bool pressed)`. -/
def SetButtonState (d : NeGcon) (button_code : Int) (pressed : Bool) : NeGcon :=
  if button_code < 0 ∨ button_code ≥ (ButtonCount : Int) then d
  else SetButtonStateOrdinal d button_code.toNat pressed

end NeGcon

/-! ## Initialization and the operations that drive the bus -/

namespace TimingEvent

/-- Modelled from the spec: `Activate()` of the absent scheduler: the event is
scheduled with the period it has. -/
def Activate (e : TimingEvent) : TimingEvent :=
  { e with m_active := true }

end TimingEvent

namespace Pad

variable {C M T : Type}

/-- Translation of `Pad::Reset`. -/
def Reset (K : Decls C M T) (s : Pad C M T) : Pad C M T :=
  let s1 := SoftReset K s
  { s1 with
    m_controllers := fun i =>
      if i < NUM_CONTROLLER_AND_CARD_PORTS then
        (s1.m_controllers i).map (Controller.Reset K.controller)
      else s1.m_controllers i
    m_memory_cards := fun i =>
      if i < NUM_CONTROLLER_AND_CARD_PORTS then (s1.m_memory_cards i).map K.memory_card.Reset
      else s1.m_memory_cards i
    m_multitaps := fun i =>
      if i < NUM_MULTITAPS then K.multitap_Reset (s1.m_multitaps i) else s1.m_multitaps i }

/-- Translation of `Pad::Initialize`, applied to the bus as constructed: the
timing event is created with period 1 and not activated (the last argument of
`CreateTimingEvent` is `false`), then the bus is reset. -/
def Initialize (K : Decls C M T) (s : Pad C M T) : Pad C M T :=
  Reset K { s with m_transfer_event := { m_active := false, m_period := 1 } }

/-- The operations on an initialized bus: a register read, a register write,
a soft reset, and the firing of the timing event (a transfer tick when the
bus is Transmitting, an acknowledge tick otherwise). -/
inductive Op where
  | ReadRegister (g : PointerSource) (due : Bool) (offset : Nat)
  | WriteRegister (offset value : Nat)
  | SoftReset
  | TransferEvent (g : PointerSource)

/-- The bus after one operation. -/
def Op.apply (K : Decls C M T) : Op → Pad C M T → Pad C M T
  | Op.ReadRegister g due offset, s => (Pad.ReadRegister K g due s offset).1
  | Op.WriteRegister offset value, s => Pad.WriteRegister K s offset value
  | Op.SoftReset, s => Pad.SoftReset K s
  | Op.TransferEvent g, s => Pad.TransferEvent K g s

/-- The bus after a sequence of operations, first to last. -/
def run (K : Decls C M T) (s : Pad C M T) (ops : List Op) : Pad C M T :=
  ops.foldl (fun s op => op.apply K s) s

/-- The timing event is scheduled if and only if the bus state is not Idle. -/
def EventMatchesState (s : Pad C M T) : Prop :=
  s.m_transfer_event.m_active = true ↔ s.m_state ≠ State.Idle

instance (s : Pad C M T) : Decidable s.EventMatchesState := by
  unfold EventMatchesState; infer_instance

end Pad

/-! ## State serialization (common/state_wrapper.h) -/

namespace StateWrapper

/-- The enumeration `StateWrapper::Mode`. -/
inductive Mode where
  | Read | Write
  deriving DecidableEq, Repr

/-- The two marker strings `pad.cpp` passes to `DoMarker`: "Controller" and
"MemoryCard". -/
inductive Marker where
  | Controller | MemoryCard
  deriving DecidableEq, Repr

/-- One item of serialized data: the value of one member passed to `Do`, or a
marker passed to `DoMarker`. -/
inductive Token where
  | value (n : Nat)
  | marker (m : Marker)
  deriving DecidableEq, Repr

end StateWrapper

/-- Modelled from the spec: the `StateWrapper` of `common/state_wrapper.h`, a
file that is not among the translated ones: "a versioned read/write cursor
used to persist and restore" the state.  In write mode `m_stream` holds the
items written so far, in order; in read mode it holds the items not yet
read.  `m_error` is the stream error the cursor reports. -/
structure StateWrapper where
  m_mode : StateWrapper.Mode
  m_version : Nat
  m_stream : List StateWrapper.Token
  m_error : Bool
  deriving DecidableEq, Repr

namespace StateWrapper

/-- Modelled from the spec: `IsReading()`. -/
def IsReading (sw : StateWrapper) : Bool := sw.m_mode = Mode.Read

/-- Modelled from the spec: `IsWriting()`. -/
def IsWriting (sw : StateWrapper) : Bool := sw.m_mode = Mode.Write

/-- Modelled from the spec: `GetVersion()`, the format version of the data. -/
def GetVersion (sw : StateWrapper) : Nat := sw.m_version

/-- Modelled from the spec: `HasError()`. -/
def HasError (sw : StateWrapper) : Bool := sw.m_error

/-- Modelled from the spec: `Do(&member)` for a member of integer, boolean or
enumeration type, given by its numeric value: the cursor after the call and
the member after the call.  Writing appends the value and leaves the member;
reading takes the next value into the member.  A read that does not find a
value ("truncated/corrupt data") raises the error and clears the member, and
a cursor in error transfers nothing. -/
def Do (sw : StateWrapper) (member : Nat) : StateWrapper × Nat :=
  match sw.m_mode with
  | Mode.Write =>
    if sw.m_error then (sw, member)
    else ({ sw with m_stream := sw.m_stream ++ [Token.value member] }, member)
  | Mode.Read =>
    if sw.m_error then (sw, 0)
    else
      match sw.m_stream with
      | Token.value n :: rest => ({ sw with m_stream := rest }, n)
      | _ => ({ sw with m_error := true }, 0)

/-- Modelled from the spec: `Do(&member)` for a `bool` member. -/
def DoBool (sw : StateWrapper) (member : Bool) : StateWrapper × Bool :=
  ((sw.Do member.toNat).1, (sw.Do member.toNat).2 != 0)

/-- Modelled from the spec: `DoMarker(marker)`: the cursor after the call and
the value returned.  Writing appends the marker and returns true; reading
returns true when the next item is that marker and takes it, and otherwise
raises the error and returns false. -/
def DoMarker (sw : StateWrapper) (marker : Marker) : StateWrapper × Bool :=
  if sw.m_error then (sw, false)
  else
    match sw.m_mode with
    | Mode.Write => ({ sw with m_stream := sw.m_stream ++ [Token.marker marker] }, true)
    | Mode.Read =>
      match sw.m_stream with
      | Token.marker m :: rest =>
        if m = marker then ({ sw with m_stream := rest }, true)
        else ({ sw with m_error := true }, false)
      | _ => ({ sw with m_error := true }, false)

/-- The cursor `after` a device serializer has run on the cursor `sw`: the
mode and the format version of a cursor are fixed when it is created, so the
serializer can only have moved the stream position or raised the error. -/
def resume (sw after : StateWrapper) : StateWrapper :=
  { after with m_mode := sw.m_mode, m_version := sw.m_version }

/-- Modelled from the spec: what the bus expects of the serializer `DoState`
of a device whose implementation is not among the translated files ("write
and read all device states").  In write mode it appends a payload and leaves
the device as it is; in read mode, on a cursor that starts with the payload
written for a device `x` of the same kind as the device `y` it is called on
(`same x y`), it takes exactly that payload; both calls return true. -/
def RoundTrips {σ : Type} (DoState : σ → StateWrapper → Bool × StateWrapper × σ)
    (same : σ → σ → Prop) : Prop :=
  ∀ x : σ, ∃ payload : List Token,
    (∀ sw : StateWrapper, sw.m_mode = Mode.Write → sw.m_error = false →
      DoState x sw = (true, { sw with m_stream := sw.m_stream ++ payload }, x)) ∧
    (∀ (y : σ) (sw : StateWrapper) (rest : List Token), same x y →
      sw.m_mode = Mode.Read → sw.m_error = false → sw.m_stream = payload ++ rest →
      ∃ y' : σ, DoState y sw = (true, { sw with m_stream := rest }, y'))

/-- A cursor in write mode with nothing written yet, for the format version
given. -/
def forWriting (version : Nat) : StateWrapper :=
  { m_mode := Mode.Write, m_version := version, m_stream := [], m_error := false }

/-- A cursor in read mode at the start of the data given. -/
def forReading (version : Nat) (data : List Token) : StateWrapper :=
  { m_mode := Mode.Read, m_version := version, m_stream := data, m_error := false }

end StateWrapper

/-! ## Serialization of the controllers -/

/-- Modelled from the spec: the enumeration `ControllerType` of `types.h`,
the "device type discriminator tag" of a slot: `None` for an empty slot, the
two translated variants, and the kinds of the other variants by number. -/
inductive ControllerType where
  | None | NeGcon | NamcoGunCon
  | Other (kind : Nat)
  deriving DecidableEq, Repr

namespace ControllerType

/-- The numeric value of a controller type, as `Do` stores it; `None` is 0. -/
def toValue : ControllerType → Nat
  | ControllerType.None => 0
  | ControllerType.NeGcon => 1
  | ControllerType.NamcoGunCon => 2
  | ControllerType.Other kind => kind + 3

/-- The controller type with a given numeric value. -/
def ofValue : Nat → ControllerType
  | 0 => ControllerType.None
  | 1 => ControllerType.NeGcon
  | 2 => ControllerType.NamcoGunCon
  | kind + 3 => ControllerType.Other kind

end ControllerType

/-- Modelled from the spec: the base-class function `Controller::DoState` of
`controller.cpp`, which the two translated variants call first: the base
class has no state of its own and reports failure when the cursor is in
error ("restoration must stop and report failure"). -/
def Controller.DoStateBase (sw : StateWrapper) : Bool := !sw.HasError

namespace NeGcon

/-- The numeric value of a transfer state, in the order of the enumerators. -/
def TransferState.toValue : TransferState → Nat
  | TransferState.Idle => 0
  | TransferState.Ready => 1
  | TransferState.IDMSB => 2
  | TransferState.ButtonsLSB => 3
  | TransferState.ButtonsMSB => 4
  | TransferState.AnalogSteering => 5
  | TransferState.AnalogI => 6
  | TransferState.AnalogII => 7
  | TransferState.AnalogL => 8

/-- The transfer state with a given numeric value; a value that is no
enumerator is taken as Idle. -/
def TransferState.ofValue : Nat → TransferState
  | 1 => TransferState.Ready
  | 2 => TransferState.IDMSB
  | 3 => TransferState.ButtonsLSB
  | 4 => TransferState.ButtonsMSB
  | 5 => TransferState.AnalogSteering
  | 6 => TransferState.AnalogI
  | 7 => TransferState.AnalogII
  | 8 => TransferState.AnalogL
  | _ => TransferState.Idle

/-- Translation of `NeGcon::DoState`: the value returned, the cursor after the
call and the device after the call. -/
def DoState (d : NeGcon) (sw : StateWrapper) (apply_input_state : Bool) :
    Bool × StateWrapper × NeGcon :=
  if !Controller.DoStateBase sw then (false, sw, d)
  else
    let button_state := sw.Do d.m_button_state
    let d1 : NeGcon :=
      if apply_input_state then { d with m_button_state := button_state.2 } else d
    let transfer_state := button_state.1.Do d1.m_transfer_state.toValue
    (true, transfer_state.1,
      { d1 with m_transfer_state := TransferState.ofValue transfer_state.2 })

end NeGcon

namespace NamcoGunCon

/-- The numeric value of a transfer state, in the order of the enumerators. -/
def TransferState.toValue : TransferState → Nat
  | TransferState.Idle => 0
  | TransferState.Ready => 1
  | TransferState.IDMSB => 2
  | TransferState.ButtonsLSB => 3
  | TransferState.ButtonsMSB => 4
  | TransferState.XLSB => 5
  | TransferState.XMSB => 6
  | TransferState.YLSB => 7
  | TransferState.YMSB => 8

/-- The transfer state with a given numeric value; a value that is no
enumerator is taken as Idle. -/
def TransferState.ofValue : Nat → TransferState
  | 1 => TransferState.Ready
  | 2 => TransferState.IDMSB
  | 3 => TransferState.ButtonsLSB
  | 4 => TransferState.ButtonsMSB
  | 5 => TransferState.XLSB
  | 6 => TransferState.XMSB
  | 7 => TransferState.YLSB
  | 8 => TransferState.YMSB
  | _ => TransferState.Idle

/-- Translation of `NamcoGunCon::DoState`: the value returned, the cursor after
the call and the device after the call. -/
def DoState (d : NamcoGunCon) (sw : StateWrapper) (apply_input_state : Bool) :
    Bool × StateWrapper × NamcoGunCon :=
  if !Controller.DoStateBase sw then (false, sw, d)
  else
    let button_state := sw.Do d.m_button_state
    let position_x := button_state.1.Do d.m_position_x
    let position_y := position_x.1.Do d.m_position_y
    let d1 : NamcoGunCon :=
      if apply_input_state then
        { d with m_button_state := button_state.2, m_position_x := position_x.2,
                 m_position_y := position_y.2 }
      else d
    let transfer_state := position_y.1.Do d1.m_transfer_state.toValue
    (true, transfer_state.1,
      { d1 with m_transfer_state := TransferState.ofValue transfer_state.2 })

end NamcoGunCon

namespace Pad

/-- The declarations the serialization functions of `pad.cpp` take from files
that are not among the translated ones, as parameters: the type tag and the
serializer of the other controllers, `Controller::Create`, `MemoryCard::Create`
and the serializers of the memory cards and of the multitaps. -/
structure StateDecls (C M T : Type) where
  controller_GetType : C → Nat
  controller_DoState : C → StateWrapper → Bool → Bool × StateWrapper × C
  Controller_Create : ControllerType → Nat → Option (Controller C)
  MemoryCard_Create : M
  memory_card_DoState : M → StateWrapper → Bool × StateWrapper × M
  multitap_DoState : T → StateWrapper → Bool × StateWrapper × T

end Pad

namespace Controller

/-- The virtual call `controller->GetType()`. -/
def GetType {C M T : Type} (D : Pad.StateDecls C M T) : Controller C → ControllerType
  | Controller.NeGcon _ => ControllerType.NeGcon
  | Controller.NamcoGunCon _ => ControllerType.NamcoGunCon
  | Controller.Other d => ControllerType.Other (D.controller_GetType d)

/-- The virtual call `controller->DoState(sw, apply_input_state)`. -/
def DoState {C M T : Type} (D : Pad.StateDecls C M T) :
    Controller C → StateWrapper → Bool → Bool × StateWrapper × Controller C
  | Controller.NeGcon d, sw, apply_input_state =>
    ((d.DoState sw apply_input_state).1, (d.DoState sw apply_input_state).2.1,
      Controller.NeGcon (d.DoState sw apply_input_state).2.2)
  | Controller.NamcoGunCon d, sw, apply_input_state =>
    ((d.DoState sw apply_input_state).1, (d.DoState sw apply_input_state).2.1,
      Controller.NamcoGunCon (d.DoState sw apply_input_state).2.2)
  | Controller.Other d, sw, apply_input_state =>
    ((D.controller_DoState d sw apply_input_state).1,
      sw.resume (D.controller_DoState d sw apply_input_state).2.1,
      Controller.Other (D.controller_DoState d sw apply_input_state).2.2)

end Controller

/-! ## Serialization of the bus (core/pad.cpp) -/

namespace Pad

variable {C M T : Type}

/-- The numeric value of a bus state, in the order of the enumerators. -/
def State.toValue : State → Nat
  | State.Idle => 0
  | State.Transmitting => 1
  | State.WaitingForACK => 2

/-- The bus state with a given numeric value; a value that is no enumerator
is taken as Idle. -/
def State.ofValue : Nat → State
  | 1 => State.Transmitting
  | 2 => State.WaitingForACK
  | _ => State.Idle

/-- The type of the controller in a slot, `ControllerType::None` when the slot
is empty: the expression `m_controllers[i] ? m_controllers[i]->GetType() :
ControllerType::None`. -/
def controllerTypeOf (D : StateDecls C M T) (controller : Option (Controller C)) :
    ControllerType :=
  match controller with
  | some c => Controller.GetType D c
  | none => ControllerType.None

/-- The last statements of `Pad::DoStateController`, reached when the
controller of the slot is absent or of another type than the persisted one:
a dummy of the persisted type takes the payload. -/
def DoStateController.dummy (D : StateDecls C M T) (sw : StateWrapper) (s : Pad C M T)
    (i : Nat) (state_controller_type : ControllerType) : Bool × StateWrapper × Pad C M T :=
  match D.Controller_Create state_controller_type i with
  | some dummy => ((Controller.DoState D dummy sw false).1,
      (Controller.DoState D dummy sw false).2.1, s)
  | none => (true, sw, s)

/-- Translation of `Pad::DoStateController`: the value returned, the cursor
after the call and the bus after the call. -/
def DoStateController (K : Decls C M T) (D : StateDecls C M T) (sw : StateWrapper)
    (s : Pad C M T) (i : Nat) : Bool × StateWrapper × Pad C M T :=
  let controller_type := controllerTypeOf D (s.m_controllers i)
  let tag := sw.Do controller_type.toValue
  let state_controller_type := ControllerType.ofValue tag.2
  let reset := (s.m_controllers i).map (Controller.Reset K.controller)
  let s1 : Pad C M T :=
    if controller_type ≠ state_controller_type then
      { s with m_controllers := Function.update s.m_controllers i reset }
    else s
  if state_controller_type = ControllerType.None then (true, tag.1, s1)
  else
    let marker := tag.1.DoMarker StateWrapper.Marker.Controller
    if !marker.2 then (false, marker.1, s1)
    else
      match s1.m_controllers i with
      | some controller =>
        if Controller.GetType D controller = state_controller_type then
          let r := Controller.DoState D controller marker.1 false
          (r.1, r.2.1, { s1 with m_controllers := Function.update s1.m_controllers i (some r.2.2) })
        else DoStateController.dummy D marker.1 s1 i state_controller_type
      | none => DoStateController.dummy D marker.1 s1 i state_controller_type

/-- Translation of `Pad::DoStateMemcard`: the value returned, the cursor after
the call and the bus after the call.  The local `card_from_state` is
default-constructed and never assigned, so the block under
`if (card_from_state)` is not entered; `card_ptr` is the card of the slot
after a missing card has been created. -/
def DoStateMemcard (D : StateDecls C M T) (sw : StateWrapper) (s : Pad C M T) (i : Nat) :
    Bool × StateWrapper × Pad C M T :=
  let present := sw.DoBool (s.m_memory_cards i).isSome
  let card_present_in_state := present.2
  let s1 : Pad C M T :=
    if card_present_in_state && !(s.m_memory_cards i).isSome then
      { s with m_memory_cards := Function.update s.m_memory_cards i (some D.MemoryCard_Create) }
    else s
  let finish (sw2 : StateWrapper) (s2 : Pad C M T) : Bool × StateWrapper × Pad C M T :=
    if sw2.IsWriting then (true, sw2, s2)
    else if !card_present_in_state && (s2.m_memory_cards i).isSome then
      (true, sw2, { s2 with m_memory_cards := Function.update s2.m_memory_cards i none })
    else (true, sw2, s2)
  if card_present_in_state then
    let marker := present.1.DoMarker StateWrapper.Marker.MemoryCard
    if !marker.2 then (false, marker.1, s1)
    else
      match s1.m_memory_cards i with
      | some card =>
        let r := D.memory_card_DoState card marker.1
        let s2 : Pad C M T :=
          { s1 with m_memory_cards := Function.update s1.m_memory_cards i (some r.2.2) }
        if !r.1 then (false, marker.1.resume r.2.1, s2)
        else finish (marker.1.resume r.2.1) s2
      | none => (false, marker.1, s1)
  else finish present.1 s1

/-- The first loop of `Pad::DoState`, from slot `i` for `n` slots: the value
`false` when the function has returned false inside the loop, the cursor and
the bus. -/
def DoState.slots (K : Decls C M T) (D : StateDecls C M T) :
    Nat → Nat → StateWrapper → Pad C M T → Bool × StateWrapper × Pad C M T
  | _, 0, sw, s => (true, sw, s)
  | i, n + 1, sw, s =>
    if sw.GetVersion < 50 ∧ i ≥ 2 then
      let reset := (s.m_controllers i).map (Controller.Reset K.controller)
      DoState.slots K D (i + 1) n sw
        { s with
          m_controllers := Function.update s.m_controllers i reset
          m_memory_cards := Function.update s.m_memory_cards i none }
    else
      let rc := DoStateController K D sw s i
      if !rc.1 then rc
      else
        let rm := DoStateMemcard D rc.2.1 rc.2.2 i
        if !rm.1 then rm
        else DoState.slots K D (i + 1) n rm.2.1 rm.2.2

/-- The loop over the multitaps of `Pad::DoState`, from multitap `i` for `n`
multitaps. -/
def DoState.multitaps (D : StateDecls C M T) :
    Nat → Nat → StateWrapper → Pad C M T → Bool × StateWrapper × Pad C M T
  | _, 0, sw, s => (true, sw, s)
  | i, n + 1, sw, s =>
    let r := D.multitap_DoState (s.m_multitaps i) sw
    let s1 : Pad C M T := { s with m_multitaps := Function.update s.m_multitaps i r.2.2 }
    if !r.1 then (false, sw.resume r.2.1, s1)
    else DoState.multitaps D (i + 1) n (sw.resume r.2.1) s1

/-- The nine calls `sw.Do(&m_state)` to `sw.Do(&m_transmit_buffer_full)` of
`Pad::DoState`. -/
def DoState.registers (sw : StateWrapper) (s : Pad C M T) : StateWrapper × Pad C M T :=
  let r1 := sw.Do s.m_state.toValue
  let r2 := r1.1.Do s.m_JOY_CTRL
  let r3 := r2.1.Do s.m_JOY_STAT
  let r4 := r3.1.Do s.m_JOY_MODE
  let r5 := r4.1.Do s.m_JOY_BAUD
  let r6 := r5.1.Do s.m_receive_buffer
  let r7 := r6.1.Do s.m_transmit_buffer
  let r8 := r7.1.DoBool s.m_receive_buffer_full
  let r9 := r8.1.DoBool s.m_transmit_buffer_full
  (r9.1,
    { s with
      m_state := State.ofValue r1.2
      m_JOY_CTRL := r2.2
      m_JOY_STAT := r3.2
      m_JOY_MODE := r4.2
      m_JOY_BAUD := r5.2
      m_receive_buffer := r6.2
      m_transmit_buffer := r7.2
      m_receive_buffer_full := r8.2
      m_transmit_buffer_full := r9.2 })

/-- Translation of `Pad::DoState`: the value returned, the cursor after the
call and the bus after the call. -/
def DoState (K : Decls C M T) (D : StateDecls C M T) (sw : StateWrapper) (s : Pad C M T) :
    Bool × StateWrapper × Pad C M T :=
  let r1 := DoState.slots K D 0 NUM_CONTROLLER_AND_CARD_PORTS sw s
  if !r1.1 then r1
  else
    let r2 :=
      if r1.2.1.GetVersion ≥ 50 then DoState.multitaps D 0 NUM_MULTITAPS r1.2.1 r1.2.2
      else (true, r1.2.1, r1.2.2)
    if !r2.1 then r2
    else
      let r3 := DoState.registers r2.2.1 r2.2.2
      let s4 : Pad C M T :=
        if r3.1.IsReading && IsTransmitting r3.2 then
          { r3.2 with m_transfer_event := r3.2.m_transfer_event.Activate }
        else r3.2
      (!r3.1.HasError, r3.1, s4)

/-- The members of the bus that `Pad::DoState` passes to `sw.Do` are equal in
two buses. -/
def SameRegisters (s s2 : Pad C M T) : Prop :=
  s2.m_state = s.m_state ∧ s2.m_JOY_CTRL = s.m_JOY_CTRL ∧ s2.m_JOY_STAT = s.m_JOY_STAT ∧
    s2.m_JOY_MODE = s.m_JOY_MODE ∧ s2.m_JOY_BAUD = s.m_JOY_BAUD ∧
    s2.m_receive_buffer = s.m_receive_buffer ∧ s2.m_transmit_buffer = s.m_transmit_buffer ∧
    s2.m_receive_buffer_full = s.m_receive_buffer_full ∧
    s2.m_transmit_buffer_full = s.m_transmit_buffer_full

instance (s s2 : Pad C M T) : Decidable (SameRegisters s s2) := by
  unfold SameRegisters; infer_instance

end Pad

namespace Pad

variable {C M T : Type}

/-- The three derived flags of the status register agree with the latches as
`Pad::UpdateJoyStat` assigns them: RXFIFONEMPTY is the receive-full flag,
TXRDY the negation of the transmit-full flag, and TXDONE says that the
transmit buffer is not full and the bus is not Transmitting. -/
def StatMatchesLatches (K : Decls C M T) (s : Pad C M T) : Prop :=
  BitField.GetValue s.m_JOY_STAT K.STAT_RXFIFONEMPTY = s.m_receive_buffer_full ∧
    BitField.GetValue s.m_JOY_STAT K.STAT_TXRDY = (!s.m_transmit_buffer_full) ∧
    BitField.GetValue s.m_JOY_STAT K.STAT_TXDONE
      = (!s.m_transmit_buffer_full && s.m_state != State.Transmitting)

instance (K : Decls C M T) (s : Pad C M T) : Decidable (StatMatchesLatches K s) := by
  unfold StatMatchesLatches; infer_instance

end Pad

/-! ## Alignment helpers (common/align.h) -/

namespace Common

/-- The unsigned integer types that can stand for the template parameter `T`
of the three functions: `u8`, `u16`, `u32` and `u64`. -/
inductive UnsignedType where
  | u8 | u16 | u32 | u64
  deriving DecidableEq, Repr

namespace UnsignedType

/-- The number of value bits of the type. -/
def bits : UnsignedType → Nat
  | u8 => 8
  | u16 => 16
  | u32 => 32
  | u64 => 64

/-- The conversion `static_cast<T>(x)` to the unsigned type: reduction modulo
`2 ^ bits`.  It is also the conversion of the returned expression to the
return type `T`. -/
def cast (T : UnsignedType) (x : Nat) : Nat := x % 2 ^ T.bits

/-- The value of a sum or product of operands of type `T` whose exact value
is `x`.  Operands of type `u8` and `u16` are promoted to `int`; the sums and
products of the three functions stay below `2 ^ 17` there, so they are exact.
Operands of type `u32` and `u64` keep their type and the result wraps. -/
def arith (T : UnsignedType) (x : Nat) : Nat :=
  match T with
  | u8 => x
  | u16 => x
  | u32 => x % 2 ^ 32
  | u64 => x % 2 ^ 64

/-- The expression `static_cast<T>(~x)` for `x` of type `T`: every value bit
inverted. -/
def complement (T : UnsignedType) (x : Nat) : Nat := 2 ^ T.bits - 1 - x

end UnsignedType

/-- The expression `alignment - 1` on the `unsigned int` parameter
`alignment` (32 bits): it wraps to `0xFFFFFFFF` for `alignment = 0`. -/
def alignmentMinusOne (alignment : Nat) : Nat := (alignment + 0xFFFFFFFF) % 2 ^ 32

/-- Translation of `Common::AlignUp<T>`; `none` when the divisor
`static_cast<T>(alignment)` is zero, where the division is undefined. -/
def AlignUp (T : UnsignedType) (value alignment : Nat) : Option Nat :=
  if T.cast alignment = 0 then none
  else
    some (T.cast (T.arith
      (T.arith (value + T.cast (alignmentMinusOne alignment)) / T.cast alignment
        * T.cast alignment)))

/-- Translation of `Common::IsAlignedPow2<T>`. -/
def IsAlignedPow2 (T : UnsignedType) (value alignment : Nat) : Bool :=
  (value &&& T.cast (alignmentMinusOne alignment)) == 0

/-- Translation of `Common::AlignUpPow2<T>`. -/
def AlignUpPow2 (T : UnsignedType) (value alignment : Nat) : Nat :=
  T.cast (T.arith (value + T.cast (alignmentMinusOne alignment)) &&&
    T.complement (T.cast (alignmentMinusOne alignment)))

end Common

/-! ## Concrete instances used to evaluate the definitions -/

/-- A twist controller as constructed by `NeGcon::NeGcon`: every axis latch
zero except the steering latch at its centre, all buttons released. -/
def NeGcon.fresh : NeGcon :=
  { m_axis_state := fun a => if a = NeGcon.Axis.Steering then 0x80 else 0x00
    m_button_state := 0xFFFF
    m_transfer_state := NeGcon.TransferState.Idle }

/-- A light gun with all buttons released and no position latched. -/
def NamcoGunCon.fresh : NamcoGunCon :=
  { m_button_state := 0xFFFF
    m_position_x := 0
    m_position_y := 0
    m_shoot_offscreen := false
    m_transfer_state := NamcoGunCon.TransferState.Idle }

/-- The fresh twist controller after it has accepted the select byte 0x01. -/
def NeGcon.selected : NeGcon :=
  { NeGcon.fresh with m_transfer_state := NeGcon.TransferState.Ready }

/-- The fresh light gun after it has accepted the select byte 0x01. -/
def NamcoGunCon.selected : NamcoGunCon :=
  { NamcoGunCon.fresh with m_transfer_state := NamcoGunCon.TransferState.Ready }

/-- A pointer at screen position (100, 50) that the GPU maps to beam tick
`8 * x` on line `y + 16`, with one X unit for every 7 ticks. -/
def PointerSource.onScreen : PointerSource :=
  { GetMousePositionX := 100
    GetMousePositionY := 50
    ConvertScreenCoordinatesToBeamTicksAndLines := fun x y => some (8 * x.toNat, y.toNat + 16)
    BeamTicksToPositionX := fun tick => tick / 7 }

/-- A pointer left of the window. -/
def PointerSource.offScreen : PointerSource :=
  { GetMousePositionX := -1
    GetMousePositionY := 50
    ConvertScreenCoordinatesToBeamTicksAndLines := fun _ _ => none
    BeamTicksToPositionX := fun tick => tick / 7 }

/-- A device without state that never answers: it returns 0xFF without
acknowledgement. -/
def DeviceOps.absent : DeviceOps Unit :=
  { Transfer := fun _ _ => ⟨(), 0xFF, false⟩
    ResetTransferState := fun _ => ()
    Reset := fun _ => () }

/-- One valid assignment of the parameters of the bus: the control fields at
bits 0 (TXEN), 1 (SELECT), 2 (RXEN), 4 (ACK), 6 (RESET), 12 (ACKINTEN) and
13 (SLOT), the status fields at bits 0 (TXRDY), 1 (RXFIFONEMPTY), 2 (TXDONE),
7 (ACKINPUT) and 9 (INTR), sample tick counts, no memory cards or other
controllers that answer, and multitaps that are disabled. -/
def Pad.Decls.sample : Pad.Decls Unit Unit Unit :=
  { CTRL_TXEN := 0
    CTRL_SELECT := 1
    CTRL_RXEN := 2
    CTRL_ACK := 4
    CTRL_RESET := 6
    CTRL_ACKINTEN := 12
    CTRL_SLOT := 13
    STAT_TXRDY := 0
    STAT_RXFIFONEMPTY := 1
    STAT_TXDONE := 2
    STAT_ACKINPUT := 7
    STAT_INTR := 9
    GetTransferTicks := fun baud => baud * 8
    GetACKTicks := fun memory_card => if memory_card then 2 else 1
    controller := DeviceOps.absent
    memory_card := DeviceOps.absent
    multitap_IsEnabled := fun _ => false
    multitap_IsReadingMemoryCard := fun _ => false
    multitap_Transfer := fun t cs ms _ => ⟨t, cs, ms, 0xFF, false⟩
    multitap_ResetTransferState := fun _ => ()
    multitap_Reset := fun _ => () }

/-- An idle bus with a fresh twist controller in slot 0 and a fresh light gun
in slot 1, all registers zero, whose receive buffer still holds the byte 0x5A
of an exchange that software has already read, and whose status register has
the ack-received bit (bit 7) and the three derived bits set as
`UpdateJoyStat` leaves them for empty buffers (bits 0 and 2). -/
def Pad.sample : Pad Unit Unit Unit :=
  { m_controllers := fun i =>
      if i = 0 then some (Controller.NeGcon NeGcon.fresh)
      else if i = 1 then some (Controller.NamcoGunCon NamcoGunCon.fresh)
      else none
    m_memory_cards := fun _ => none
    m_multitaps := fun _ => ()
    m_transfer_event := { m_active := false, m_period := 0 }
    m_state := Pad.State.Idle
    m_JOY_CTRL := 0
    m_JOY_STAT := 0x85
    m_JOY_MODE := 0
    m_JOY_BAUD := 0x88
    m_active_device := Pad.ActiveDevice.None
    m_receive_buffer := 0x5A
    m_transmit_buffer := 0
    m_transmit_value := 0
    m_receive_buffer_full := false
    m_transmit_buffer_full := false
    irq7_requests := 0 }

/-- The sample parameters with multitaps whose state is their enabled flag;
an enabled multitap relays to nothing and returns 0xFF without
acknowledgement. -/
def Pad.Decls.sampleTap : Pad.Decls Unit Unit Bool :=
  { CTRL_TXEN := 0
    CTRL_SELECT := 1
    CTRL_RXEN := 2
    CTRL_ACK := 4
    CTRL_RESET := 6
    CTRL_ACKINTEN := 12
    CTRL_SLOT := 13
    STAT_TXRDY := 0
    STAT_RXFIFONEMPTY := 1
    STAT_TXDONE := 2
    STAT_ACKINPUT := 7
    STAT_INTR := 9
    GetTransferTicks := fun baud => baud * 8
    GetACKTicks := fun memory_card => if memory_card then 2 else 1
    controller := DeviceOps.absent
    memory_card := DeviceOps.absent
    multitap_IsEnabled := fun t => t
    multitap_IsReadingMemoryCard := fun _ => false
    multitap_Transfer := fun t cs ms _ => ⟨t, cs, ms, 0xFF, false⟩
    multitap_ResetTransferState := fun t => t
    multitap_Reset := fun t => t }

/-- A bus in the Transmitting state that is about to send the select byte
0x01 to port 1 (control register 0x2003: SLOT, SELECT and TXEN): a fresh
twist controller sits at index 1, nothing at index 4, and the multitap of
port 0 is enabled or not as the argument says; the multitap of port 1 is
disabled. -/
def Pad.sampleTap (tap0 : Bool) : Pad Unit Unit Bool :=
  { m_controllers := fun i => if i = 1 then some (Controller.NeGcon NeGcon.fresh) else none
    m_memory_cards := fun _ => none
    m_multitaps := fun i => if i = 0 then tap0 else false
    m_transfer_event := { m_active := true, m_period := 0x440 }
    m_state := Pad.State.Transmitting
    m_JOY_CTRL := 0x2003
    m_JOY_STAT := 0x01
    m_JOY_MODE := 0
    m_JOY_BAUD := 0x88
    m_active_device := Pad.ActiveDevice.None
    m_receive_buffer := 0
    m_transmit_buffer := 0
    m_transmit_value := 0x01
    m_receive_buffer_full := false
    m_transmit_buffer_full := false
    irq7_requests := 0 }

/-- A memory card without state that acknowledges the byte 0x81 with 0xFF and
no other byte. -/
def DeviceOps.selectable : DeviceOps Unit :=
  { Transfer := fun _ data_in => ⟨(), 0xFF, data_in == 0x81⟩
    ResetTransferState := fun _ => ()
    Reset := fun _ => () }

/-- The parameters `Pad.Decls.sampleTap` with memory cards that acknowledge
the byte 0x81 and with a `GetACKTicks` that returns 170 for the memory-card
category and 450 for the controller category. -/
def Pad.Decls.sampleCard : Pad.Decls Unit Unit Bool :=
  { Pad.Decls.sampleTap with
    GetACKTicks := fun memory_card => if memory_card then 170 else 450
    memory_card := DeviceOps.selectable }

/-- The bus `Pad.sampleTap false` with a memory card next to the twist
controller at index 1, about to send the byte 0x81. -/
def Pad.sampleCard : Pad Unit Unit Bool :=
  { Pad.sampleTap false with
    m_memory_cards := fun i => if i = 1 then some () else none
    m_transmit_value := 0x81 }

/-- Sample serialization parameters for devices without state: their
serializers transfer nothing and report the cursor's error, no controller of
another kind can be created, and the twist controller and the light gun are
created fresh. -/
def Pad.StateDecls.sample : Pad.StateDecls Unit Unit Unit :=
  { controller_GetType := fun _ => 0
    controller_DoState := fun c sw _ => (!sw.HasError, sw, c)
    Controller_Create := fun t _ =>
      match t with
      | ControllerType.NeGcon => some (Controller.NeGcon NeGcon.fresh)
      | ControllerType.NamcoGunCon => some (Controller.NamcoGunCon NamcoGunCon.fresh)
      | _ => none
    MemoryCard_Create := ()
    memory_card_DoState := fun m sw => (!sw.HasError, sw, m)
    multitap_DoState := fun t sw => (!sw.HasError, sw, t) }

/-- A bus in the middle of a packet for the twist controller of slot 0: the
select byte 0x01 has been answered, the class byte 0x42 is in flight (state
Transmitting with the timing event scheduled) and the controller is the
active device. -/
def Pad.sampleInFlight : Pad Unit Unit Unit :=
  { Pad.sample with
    m_controllers := fun i =>
      if i = 0 then some (Controller.NeGcon NeGcon.selected)
      else if i = 1 then some (Controller.NamcoGunCon NamcoGunCon.fresh)
      else none
    m_transfer_event := { m_active := true, m_period := 0x440 }
    m_state := Pad.State.Transmitting
    m_JOY_CTRL := 0x1007
    m_JOY_STAT := 0x02
    m_active_device := Pad.ActiveDevice.Controller
    m_receive_buffer := 0xFF
    m_receive_buffer_full := true
    m_transmit_value := 0x42 }

/-- Serialized data of a format version below 50 for the sample bus: slot 0
(type tag of the twist controller, marker, button state, transfer state
Ready, no memory card), slot 1 (type tag of the light gun, marker, button
state, position, transfer state Idle, no memory card), then the nine
register values of a bus in WaitingForACK. -/
def Pad.sampleOldData : List StateWrapper.Token :=
  [StateWrapper.Token.value 1, StateWrapper.Token.marker StateWrapper.Marker.Controller,
   StateWrapper.Token.value 0xFFFF, StateWrapper.Token.value 1, StateWrapper.Token.value 0,
   StateWrapper.Token.value 2, StateWrapper.Token.marker StateWrapper.Marker.Controller,
   StateWrapper.Token.value 0xFFFF, StateWrapper.Token.value 0, StateWrapper.Token.value 0,
   StateWrapper.Token.value 0, StateWrapper.Token.value 0,
   StateWrapper.Token.value 2, StateWrapper.Token.value 0x1007, StateWrapper.Token.value 2,
   StateWrapper.Token.value 0, StateWrapper.Token.value 0x88, StateWrapper.Token.value 0xFF,
   StateWrapper.Token.value 0, StateWrapper.Token.value 1, StateWrapper.Token.value 0]

/-! ## Packet exchange of the two controllers -/

theorem NeGcon.fresh_inRange : NeGcon.fresh.InRange := by decide

/-- C1: a twist controller in the Idle transfer state, with its members in
the range of their C++ types, answers nine consecutive `Transfer` calls whose
first two input bytes are 0x01 and 0x42 (the other seven arbitrary) with the
bytes 0xFF, 0x23, 0x5A, button register low byte, button register high byte,
steering latch, I latch, II latch, L latch; the first eight calls are
acknowledged, the ninth is not, and the device afterwards is the device
before (in particular Idle). -/
theorem NeGcon.twist_packet (d : NeGcon) (b3 b4 b5 b6 b7 b8 b9 : Nat)
    (hidle : d.m_transfer_state = NeGcon.TransferState.Idle) (hr : d.InRange) :
    NeGcon.Transfers d [0x01, 0x42, b3, b4, b5, b6, b7, b8, b9] =
      (d, [(0xFF, true), (0x23, true), (0x5A, true),
        (d.m_button_state % 256, true), (d.m_button_state / 256, true),
        (d.m_axis_state NeGcon.Axis.Steering, true), (d.m_axis_state NeGcon.Axis.I, true),
        (d.m_axis_state NeGcon.Axis.II, true), (d.m_axis_state NeGcon.Axis.L, false)]) := by
  obtain ⟨ax, bs, ts⟩ := d
  obtain ⟨h1, h2, h3, h4, hbs⟩ := hr
  simp only at hidle h1 h2 h3 h4 hbs
  subst hidle
  have hhi : (bs >>> 8) % 256 = bs / 256 := by
    rw [Nat.shiftRight_eq_div_pow]; omega
  simp [NeGcon.Transfers, NeGcon.Transfer, Truncate8, NeGcon.ID, hhi,
    Nat.mod_eq_of_lt h1, Nat.mod_eq_of_lt h2, Nat.mod_eq_of_lt h3, Nat.mod_eq_of_lt h4]

/-- Witness of C1: the packet of a freshly constructed twist controller. -/
theorem NeGcon.twist_packet_witness :
    NeGcon.fresh.m_transfer_state = NeGcon.TransferState.Idle ∧ NeGcon.fresh.InRange ∧
    NeGcon.Transfers NeGcon.fresh [0x01, 0x42, 0, 0, 0, 0, 0, 0, 0] =
      (NeGcon.fresh, [(0xFF, true), (0x23, true), (0x5A, true), (0xFF, true), (0xFF, true),
        (0x80, true), (0x00, true), (0x00, true), (0x00, false)]) :=
  ⟨rfl, NeGcon.fresh_inRange,
    NeGcon.twist_packet NeGcon.fresh 0 0 0 0 0 0 0 rfl NeGcon.fresh_inRange⟩


theorem NamcoGunCon.UpdatePosition_transfer_state (d : NamcoGunCon) (g : PointerSource) :
    (NamcoGunCon.UpdatePosition d g).m_transfer_state = d.m_transfer_state := by
  unfold NamcoGunCon.UpdatePosition
  simp only
  split_ifs <;> first | rfl | (split <;> rfl)

theorem NamcoGunCon.UpdatePosition_button_state (d : NamcoGunCon) (g : PointerSource) :
    (NamcoGunCon.UpdatePosition d g).m_button_state = d.m_button_state := by
  unfold NamcoGunCon.UpdatePosition
  simp only
  split_ifs <;> first | rfl | (split <;> rfl)

theorem NamcoGunCon.UpdatePosition_shoot_offscreen (d : NamcoGunCon) (g : PointerSource) :
    (NamcoGunCon.UpdatePosition d g).m_shoot_offscreen = d.m_shoot_offscreen := by
  unfold NamcoGunCon.UpdatePosition
  simp only
  split_ifs <;> first | rfl | (split <;> rfl)

theorem NamcoGunCon.UpdatePosition_position_lt (d : NamcoGunCon) (g : PointerSource) :
    (NamcoGunCon.UpdatePosition d g).m_position_x < 65536 ∧
      (NamcoGunCon.UpdatePosition d g).m_position_y < 65536 := by
  unfold NamcoGunCon.UpdatePosition
  simp only
  split_ifs <;> (try split) <;> simp only [Truncate16] <;> constructor <;> omega

theorem NamcoGunCon.UpdatePosition_with_transfer_state (d : NamcoGunCon) (g : PointerSource)
    (t : NamcoGunCon.TransferState) :
    NamcoGunCon.UpdatePosition { d with m_transfer_state := t } g =
      { NamcoGunCon.UpdatePosition d g with m_transfer_state := t } := by
  unfold NamcoGunCon.UpdatePosition
  simp only
  split_ifs <;> first | rfl | (split <;> rfl)

/-- C2: a light gun in the Idle transfer state answers nine consecutive
`Transfer` calls whose first two input bytes are 0x01 and 0x42 with the bytes
0xFF, 0x63, 0x5A, button register low byte, button register high byte, then
the low and high byte of position X and the low and high byte of position Y,
the position being the one `UpdatePosition` latches at the sixth call; the
first eight calls are acknowledged, the ninth is not, and the device
afterwards is in the Idle state with that position latched. -/
theorem NamcoGunCon.gun_packet (d : NamcoGunCon)
    (g1 g2 g3 g4 g5 g6 g7 g8 g9 : PointerSource) (b3 b4 b5 b6 b7 b8 b9 : Nat)
    (hidle : d.m_transfer_state = NamcoGunCon.TransferState.Idle) :
    NamcoGunCon.Transfers d [(g1, 0x01), (g2, 0x42), (g3, b3), (g4, b4), (g5, b5), (g6, b6),
        (g7, b7), (g8, b8), (g9, b9)] =
      (NamcoGunCon.UpdatePosition d g6,
        [(0xFF, true), (0x63, true), (0x5A, true),
         (d.m_button_state % 256, true), (d.m_button_state / 256 % 256, true),
         ((NamcoGunCon.UpdatePosition d g6).m_position_x % 256, true),
         ((NamcoGunCon.UpdatePosition d g6).m_position_x / 256, true),
         ((NamcoGunCon.UpdatePosition d g6).m_position_y % 256, true),
         ((NamcoGunCon.UpdatePosition d g6).m_position_y / 256, false)]) ∧
    (NamcoGunCon.UpdatePosition d g6).m_transfer_state = NamcoGunCon.TransferState.Idle := by
  have hst := NamcoGunCon.UpdatePosition_with_transfer_state d g6
  have hlt := NamcoGunCon.UpdatePosition_position_lt d g6
  have hts := NamcoGunCon.UpdatePosition_transfer_state d g6
  have hbs := NamcoGunCon.UpdatePosition_button_state d g6
  have hso := NamcoGunCon.UpdatePosition_shoot_offscreen d g6
  generalize NamcoGunCon.UpdatePosition d g6 = u at hst hlt hts hbs hso ⊢
  obtain ⟨bs, px, py, so, ts⟩ := d
  obtain ⟨ubs, upx, upy, uso, uts⟩ := u
  simp only at hidle hlt hts hbs hso
  subst hidle hts hbs hso
  obtain ⟨hx, hy⟩ := hlt
  have hsh : ∀ n : Nat, n >>> 8 = n / 256 := fun n => by
    rw [Nat.shiftRight_eq_div_pow]
  have hxh : upx / 256 % 256 = upx / 256 := by omega
  have hyh : upy / 256 % 256 = upy / 256 := by omega
  simp [NamcoGunCon.Transfers, NamcoGunCon.Transfer, hst, Truncate8, NamcoGunCon.ID, hsh,
    hxh, hyh]

/-- Witness of C2: the packet of a light gun pointed at the screen. -/
theorem NamcoGunCon.gun_packet_witness :
    NamcoGunCon.fresh.m_transfer_state = NamcoGunCon.TransferState.Idle ∧
    (NamcoGunCon.Transfers NamcoGunCon.fresh
        [(PointerSource.onScreen, 0x01), (PointerSource.onScreen, 0x42),
         (PointerSource.onScreen, 0), (PointerSource.onScreen, 0), (PointerSource.onScreen, 0),
         (PointerSource.onScreen, 0), (PointerSource.offScreen, 0),
         (PointerSource.offScreen, 0), (PointerSource.offScreen, 0)]).2 =
      [(0xFF, true), (0x63, true), (0x5A, true), (0xFF, true), (0xFF, true),
       (114, true), (0, true), (66, true), (0, false)] :=
  ⟨rfl, by
    rw [(NamcoGunCon.gun_packet NamcoGunCon.fresh PointerSource.onScreen
      PointerSource.onScreen PointerSource.onScreen PointerSource.onScreen
      PointerSource.onScreen PointerSource.onScreen PointerSource.offScreen
      PointerSource.offScreen PointerSource.offScreen 0 0 0 0 0 0 0 rfl).1]
    decide⟩

/-! ## Position latch and buttons of the light gun -/

/-- C3: when the pointer X or Y coordinate is negative, or the conversion to
beam ticks and lines reports a point outside the active display, or the
shoot-offscreen latch is set, `UpdatePosition` latches X = 0x0001 and
Y = 0x000A, and the four `Transfer` calls from the X-low state then give the
bytes 0x01, 0x00, 0x0A, 0x00.  In every other case the conversion gave a tick
and a line, Y is that line as a 16-bit value (the line itself when it is
below 65536) and X is the 16-bit value derived from the tick. -/
theorem NamcoGunCon.UpdatePosition_cases (d : NamcoGunCon) (g : PointerSource) :
    ((g.GetMousePositionX < 0 ∨ g.GetMousePositionY < 0 ∨
        g.ConvertScreenCoordinatesToBeamTicksAndLines g.GetMousePositionX g.GetMousePositionY
          = none ∨ d.m_shoot_offscreen = true) →
      (NamcoGunCon.UpdatePosition d g).m_position_x = 0x0001 ∧
      (NamcoGunCon.UpdatePosition d g).m_position_y = 0x000A ∧
      ∀ (g2 g3 g4 : PointerSource) (b1 b2 b3 b4 : Nat),
        d.m_transfer_state = NamcoGunCon.TransferState.XLSB →
        (NamcoGunCon.Transfers d [(g, b1), (g2, b2), (g3, b3), (g4, b4)]).2 =
          [(0x01, true), (0x00, true), (0x0A, true), (0x00, false)]) ∧
    (¬ (g.GetMousePositionX < 0 ∨ g.GetMousePositionY < 0 ∨
        g.ConvertScreenCoordinatesToBeamTicksAndLines g.GetMousePositionX g.GetMousePositionY
          = none ∨ d.m_shoot_offscreen = true) →
      ∃ tick line : Nat,
        g.ConvertScreenCoordinatesToBeamTicksAndLines g.GetMousePositionX g.GetMousePositionY
          = some (tick, line) ∧
        (NamcoGunCon.UpdatePosition d g).m_position_y = Truncate16 line ∧
        (line < 65536 → (NamcoGunCon.UpdatePosition d g).m_position_y = line) ∧
        (NamcoGunCon.UpdatePosition d g).m_position_x =
          Truncate16 (g.BeamTicksToPositionX tick)) := by
  constructor
  · intro h
    have hx : (NamcoGunCon.UpdatePosition d g).m_position_x = 0x0001 ∧
        (NamcoGunCon.UpdatePosition d g).m_position_y = 0x000A := by
      unfold NamcoGunCon.UpdatePosition
      simp only
      by_cases hm : g.GetMousePositionX < 0 ∨ g.GetMousePositionY < 0
      · rw [if_pos hm]; exact ⟨rfl, rfl⟩
      · rw [if_neg hm]
        rcases h with h | h | h | h
        · exact absurd (Or.inl h) hm
        · exact absurd (Or.inr h) hm
        · rw [h]; exact ⟨rfl, rfl⟩
        · split
          · exact ⟨rfl, rfl⟩
          · rw [if_pos h]; exact ⟨rfl, rfl⟩
    refine ⟨hx.1, hx.2, ?_⟩
    intro g2 g3 g4 b1 b2 b3 b4 hst
    have hw := NamcoGunCon.UpdatePosition_with_transfer_state d g
    generalize NamcoGunCon.UpdatePosition d g = u at hx hw
    obtain ⟨bs, px, py, so, ts⟩ := d
    obtain ⟨ubs, upx, upy, uso, uts⟩ := u
    simp only at hst hx hw
    obtain ⟨hx1, hx2⟩ := hx
    subst hst hx1 hx2
    have hu : NamcoGunCon.UpdatePosition
        { m_button_state := bs, m_position_x := px, m_position_y := py,
          m_shoot_offscreen := so, m_transfer_state := NamcoGunCon.TransferState.XLSB } g =
        { m_button_state := ubs, m_position_x := 1, m_position_y := 10,
          m_shoot_offscreen := uso, m_transfer_state := NamcoGunCon.TransferState.XLSB } :=
      hw NamcoGunCon.TransferState.XLSB
    simp [NamcoGunCon.Transfers, NamcoGunCon.Transfer, hu, Truncate8]
  · intro h
    simp only [not_or] at h
    obtain ⟨h1, h2, h3, h4⟩ := h
    have hm : ¬ (g.GetMousePositionX < 0 ∨ g.GetMousePositionY < 0) := fun hh =>
      hh.elim h1 h2
    cases hc : g.ConvertScreenCoordinatesToBeamTicksAndLines g.GetMousePositionX
        g.GetMousePositionY with
    | none => exact absurd hc h3
    | some tl =>
      obtain ⟨tick, line⟩ := tl
      have hu : NamcoGunCon.UpdatePosition d g =
          { d with m_position_x := Truncate16 (g.BeamTicksToPositionX tick),
                   m_position_y := Truncate16 line } := by
        unfold NamcoGunCon.UpdatePosition
        simp only
        rw [if_neg hm, hc]
        simp only
        rw [if_neg h4]
      refine ⟨tick, line, rfl, ?_, ?_, ?_⟩
      · rw [hu]
      · intro hl
        rw [hu]
        exact Nat.mod_eq_of_lt hl
      · rw [hu]

/-- Witness of C3: a pointer left of the window gives the sentinel bytes, a
pointer on the screen gives the converted line. -/
theorem NamcoGunCon.UpdatePosition_cases_witness :
    (NamcoGunCon.Transfers
        { NamcoGunCon.fresh with m_transfer_state := NamcoGunCon.TransferState.XLSB }
        [(PointerSource.offScreen, 0), (PointerSource.onScreen, 0), (PointerSource.onScreen, 0),
         (PointerSource.onScreen, 0)]).2 =
      [(0x01, true), (0x00, true), (0x0A, true), (0x00, false)] ∧
    (NamcoGunCon.UpdatePosition NamcoGunCon.fresh PointerSource.onScreen).m_position_y = 66 :=
  ⟨((NamcoGunCon.UpdatePosition_cases
      { NamcoGunCon.fresh with m_transfer_state := NamcoGunCon.TransferState.XLSB }
      PointerSource.offScreen).1 (Or.inl (by decide))).2.2
      PointerSource.onScreen PointerSource.onScreen PointerSource.onScreen 0 0 0 0 rfl,
   by
    obtain ⟨tick, line, hc, _, hy, _⟩ :=
      (NamcoGunCon.UpdatePosition_cases NamcoGunCon.fresh PointerSource.onScreen).2
        (by decide)
    have hl : line = 66 := by
      have h2 : (some (tick, line) : Option (Nat × Nat)) = some (800, 66) := by
        rw [← hc]; rfl
      injection h2 with h3
      injection h3
    subst hl
    exact hy (by decide)⟩

theorem NamcoGunCon.testBit_clearButtonBit (b i j : Nat) (hi : i < 16) (hj : j < 16) :
    (NamcoGunCon.clearButtonBit b i).testBit j = (b.testBit j && decide (j ≠ i)) := by
  unfold NamcoGunCon.clearButtonBit
  have h1 : (0xFFFF : Nat) = 2 ^ 16 - 1 := by norm_num
  rw [Nat.testBit_and, Nat.testBit_xor, h1, Nat.testBit_two_pow_sub_one, Nat.one_shiftLeft,
    Nat.testBit_two_pow]
  by_cases hij : j = i
  · subst hij; simp [hj]
  · have hji : ¬ i = j := fun h => hij h.symm
    simp [hj, hij, hji]

theorem NamcoGunCon.testBit_setButtonBit (b i j : Nat) :
    (NamcoGunCon.setButtonBit b i).testBit j = (b.testBit j || decide (j = i)) := by
  unfold NamcoGunCon.setButtonBit
  rw [Nat.testBit_or, Nat.one_shiftLeft, Nat.testBit_two_pow]
  by_cases hij : j = i
  · subst hij; simp
  · have hji : ¬ i = j := fun h => hij h.symm
    simp [hij, hji]

/-- C4: `SetButtonState(ShootOffscreen, p)` changes nothing when the
shoot-offscreen latch already equals `p`.  When the latch differs it becomes
`p`, the button register becomes the one `SetButtonState(Trigger, p)` gives
(bit 13 is the negation of `p`, every other bit of the 16-bit register is
unchanged), and the position latches and the transfer state are unchanged.
Applying it twice in a row gives the same device as applying it once. -/
theorem NamcoGunCon.SetButtonState_ShootOffscreen (d : NamcoGunCon) (p : Bool) :
    (d.m_shoot_offscreen = p →
      NamcoGunCon.SetButtonState d NamcoGunCon.Button.ShootOffscreen p = d) ∧
    (d.m_shoot_offscreen ≠ p →
      (NamcoGunCon.SetButtonState d NamcoGunCon.Button.ShootOffscreen p).m_shoot_offscreen = p ∧
      (NamcoGunCon.SetButtonState d NamcoGunCon.Button.ShootOffscreen p).m_button_state =
        (NamcoGunCon.SetButtonState d NamcoGunCon.Button.Trigger p).m_button_state ∧
      (NamcoGunCon.SetButtonState d NamcoGunCon.Button.ShootOffscreen p).m_button_state.testBit 13
        = !p ∧
      (∀ j : Nat, j < 16 → j ≠ 13 →
        (NamcoGunCon.SetButtonState d NamcoGunCon.Button.ShootOffscreen p).m_button_state.testBit j
          = d.m_button_state.testBit j) ∧
      (NamcoGunCon.SetButtonState d NamcoGunCon.Button.ShootOffscreen p).m_position_x =
        d.m_position_x ∧
      (NamcoGunCon.SetButtonState d NamcoGunCon.Button.ShootOffscreen p).m_position_y =
        d.m_position_y ∧
      (NamcoGunCon.SetButtonState d NamcoGunCon.Button.ShootOffscreen p).m_transfer_state =
        d.m_transfer_state) ∧
    NamcoGunCon.SetButtonState
        (NamcoGunCon.SetButtonState d NamcoGunCon.Button.ShootOffscreen p)
        NamcoGunCon.Button.ShootOffscreen p =
      NamcoGunCon.SetButtonState d NamcoGunCon.Button.ShootOffscreen p := by
  obtain ⟨bs, px, py, so, ts⟩ := d
  refine ⟨?_, ?_, ?_⟩
  · intro h
    simp only at h
    simp [NamcoGunCon.SetButtonState, h]
  · intro h
    simp only [ne_eq] at h
    cases p
    · simp only [NamcoGunCon.SetButtonState, NamcoGunCon.SetButtonBit,
        NamcoGunCon.indices, ne_eq, h, not_false_eq_true, if_true, if_false,
        Bool.false_eq_true, reduceCtorEq, true_and, Bool.not_false]
      refine ⟨?_, ?_, trivial⟩
      · rw [NamcoGunCon.testBit_setButtonBit]; simp
      · intro j _ hj
        rw [NamcoGunCon.testBit_setButtonBit]; simp [hj]
    · simp only [NamcoGunCon.SetButtonState, NamcoGunCon.SetButtonBit,
        NamcoGunCon.indices, ne_eq, h, not_false_eq_true, if_true, if_false,
        reduceCtorEq, true_and, Bool.not_true]
      refine ⟨?_, ?_, trivial⟩
      · rw [NamcoGunCon.testBit_clearButtonBit _ _ _ (by decide) (by decide)]; simp
      · intro j hj16 hj
        rw [NamcoGunCon.testBit_clearButtonBit _ _ _ (by decide) hj16]; simp [hj]
  · by_cases h : so = p
    · simp [NamcoGunCon.SetButtonState, h]
    · cases p <;> simp [NamcoGunCon.SetButtonState, NamcoGunCon.SetButtonBit, h]

/-- Witness of C4: pressing shoot-offscreen on a fresh light gun presses the
trigger (bit 13 clear), and pressing it again changes nothing. -/
theorem NamcoGunCon.SetButtonState_ShootOffscreen_witness :
    NamcoGunCon.fresh.m_shoot_offscreen ≠ true ∧
    (NamcoGunCon.SetButtonState NamcoGunCon.fresh NamcoGunCon.Button.ShootOffscreen
      true).m_button_state.testBit 13 = false ∧
    NamcoGunCon.SetButtonState NamcoGunCon.fresh NamcoGunCon.Button.ShootOffscreen true =
      { NamcoGunCon.fresh with m_shoot_offscreen := true, m_button_state := 0xDFFF } ∧
    NamcoGunCon.SetButtonState
      { NamcoGunCon.fresh with m_shoot_offscreen := true, m_button_state := 0xDFFF }
      NamcoGunCon.Button.ShootOffscreen true =
      { NamcoGunCon.fresh with m_shoot_offscreen := true, m_button_state := 0xDFFF } :=
  ⟨by decide,
   ((NamcoGunCon.SetButtonState_ShootOffscreen NamcoGunCon.fresh true).2.1 (by decide)).2.2.1,
   by decide,
   (NamcoGunCon.SetButtonState_ShootOffscreen
      { NamcoGunCon.fresh with m_shoot_offscreen := true, m_button_state := 0xDFFF }
      true).1 rfl⟩

/-! ## Handshake of the two controllers -/

/-- Counterexample to C5 as stated: a twist controller and a light gun that
have accepted 0x01 and then receive 0x00 do not acknowledge, yet stay in the
Ready transfer state, and both acknowledge a following 0x42 with the low byte
of their identifier although no new 0x01 was sent. -/
theorem Transfer_Ready_mismatch_counterexample :
    (NeGcon.Transfer NeGcon.selected 0x00).ack = false ∧
    (NeGcon.Transfer NeGcon.selected 0x00).dev.m_transfer_state
      = NeGcon.TransferState.Ready ∧
    (NeGcon.Transfer NeGcon.selected 0x00).dev.m_transfer_state
      ≠ NeGcon.TransferState.Idle ∧
    (NeGcon.Transfer (NeGcon.Transfer NeGcon.selected 0x00).dev 0x42).ack = true ∧
    (NamcoGunCon.Transfer NamcoGunCon.selected PointerSource.onScreen 0x00).ack = false ∧
    (NamcoGunCon.Transfer NamcoGunCon.selected PointerSource.onScreen 0x00).dev.m_transfer_state
      ≠ NamcoGunCon.TransferState.Idle ∧
    (NamcoGunCon.Transfer
      (NamcoGunCon.Transfer NamcoGunCon.selected PointerSource.onScreen 0x00).dev
      PointerSource.onScreen 0x42).ack = true := by
  refine ⟨rfl, rfl, by decide, rfl, rfl, by decide, rfl⟩

/-- C5 (amended): a twist controller or a light gun in the Ready transfer
state that receives any byte other than 0x42 returns 0xFF without
acknowledgement and is left exactly as it was, still Ready, so a following
0x42 is acknowledged with the low byte of the identifier.  The device is in
the Idle state only after `ResetTransferState`, and a 0x42 sent then is not
acknowledged. -/
theorem Transfer_Ready_mismatch (d : NeGcon) (e : NamcoGunCon) (g g2 : PointerSource)
    (b : Nat) (hd : d.m_transfer_state = NeGcon.TransferState.Ready)
    (he : e.m_transfer_state = NamcoGunCon.TransferState.Ready) (hb : b ≠ 0x42) :
    (NeGcon.Transfer d b).ack = false ∧ (NeGcon.Transfer d b).data_out = 0xFF ∧
    (NeGcon.Transfer d b).dev = d ∧
    (NeGcon.Transfer (NeGcon.Transfer d b).dev 0x42).ack = true ∧
    (NeGcon.Transfer (NeGcon.Transfer d b).dev 0x42).data_out = 0x23 ∧
    (NeGcon.ResetTransferState (NeGcon.Transfer d b).dev).m_transfer_state
      = NeGcon.TransferState.Idle ∧
    (NeGcon.Transfer (NeGcon.ResetTransferState (NeGcon.Transfer d b).dev) 0x42).ack = false ∧
    (NamcoGunCon.Transfer e g b).ack = false ∧ (NamcoGunCon.Transfer e g b).data_out = 0xFF ∧
    (NamcoGunCon.Transfer e g b).dev = e ∧
    (NamcoGunCon.Transfer (NamcoGunCon.Transfer e g b).dev g2 0x42).ack = true ∧
    (NamcoGunCon.Transfer (NamcoGunCon.Transfer e g b).dev g2 0x42).data_out = 0x63 ∧
    (NamcoGunCon.ResetTransferState (NamcoGunCon.Transfer e g b).dev).m_transfer_state
      = NamcoGunCon.TransferState.Idle ∧
    (NamcoGunCon.Transfer (NamcoGunCon.ResetTransferState (NamcoGunCon.Transfer e g b).dev)
      g2 0x42).ack = false := by
  obtain ⟨ax, bs, ts⟩ := d
  obtain ⟨ebs, px, py, so, ets⟩ := e
  simp only at hd he
  subst hd he
  simp [NeGcon.Transfer, NamcoGunCon.Transfer, hb, NeGcon.ResetTransferState,
    NamcoGunCon.ResetTransferState, Truncate8, NeGcon.ID, NamcoGunCon.ID]

/-- Witness of C5 (amended): the selected devices receiving 0x00. -/
theorem Transfer_Ready_mismatch_witness :
    NeGcon.selected.m_transfer_state = NeGcon.TransferState.Ready ∧
    NamcoGunCon.selected.m_transfer_state = NamcoGunCon.TransferState.Ready ∧
    (0x00 : Nat) ≠ 0x42 ∧
    (NeGcon.Transfer NeGcon.selected 0x00).ack = false ∧
    (NamcoGunCon.Transfer NamcoGunCon.selected PointerSource.onScreen 0x00).dev
      = NamcoGunCon.selected :=
  ⟨rfl, rfl, by decide,
   (Transfer_Ready_mismatch NeGcon.selected NamcoGunCon.selected PointerSource.onScreen
      PointerSource.onScreen 0x00 rfl rfl (by decide)).1,
   (Transfer_Ready_mismatch NeGcon.selected NamcoGunCon.selected PointerSource.onScreen
      PointerSource.onScreen 0x00 rfl rfl (by decide)).2.2.2.2.2.2.2.2.2.1⟩

/-- C6: a twist controller or a light gun in the Idle transfer state that
receives any byte other than 0x01 returns 0xFF without acknowledgement and is
left exactly as it was: transfer state, button register and axis or position
latches. -/
theorem Transfer_Idle_mismatch (d : NeGcon) (e : NamcoGunCon) (g : PointerSource) (b : Nat)
    (hd : d.m_transfer_state = NeGcon.TransferState.Idle)
    (he : e.m_transfer_state = NamcoGunCon.TransferState.Idle) (hb : b ≠ 0x01) :
    (NeGcon.Transfer d b).data_out = 0xFF ∧ (NeGcon.Transfer d b).ack = false ∧
    (NeGcon.Transfer d b).dev = d ∧
    (NamcoGunCon.Transfer e g b).data_out = 0xFF ∧ (NamcoGunCon.Transfer e g b).ack = false ∧
    (NamcoGunCon.Transfer e g b).dev = e := by
  obtain ⟨ax, bs, ts⟩ := d
  obtain ⟨ebs, px, py, so, ets⟩ := e
  simp only at hd he
  subst hd he
  simp [NeGcon.Transfer, NamcoGunCon.Transfer, hb]

/-- Witness of C6: the fresh devices receiving 0x42 while Idle. -/
theorem Transfer_Idle_mismatch_witness :
    NeGcon.fresh.m_transfer_state = NeGcon.TransferState.Idle ∧
    NamcoGunCon.fresh.m_transfer_state = NamcoGunCon.TransferState.Idle ∧
    (0x42 : Nat) ≠ 0x01 ∧
    (NeGcon.Transfer NeGcon.fresh 0x42).dev = NeGcon.fresh ∧
    (NamcoGunCon.Transfer NamcoGunCon.fresh PointerSource.offScreen 0x42).ack = false :=
  ⟨rfl, rfl, by decide,
   (Transfer_Idle_mismatch NeGcon.fresh NamcoGunCon.fresh PointerSource.offScreen 0x42
      rfl rfl (by decide)).2.2.1,
   (Transfer_Idle_mismatch NeGcon.fresh NamcoGunCon.fresh PointerSource.offScreen 0x42
      rfl rfl (by decide)).2.2.2.2.1⟩

/-! ## Register interface of the bus -/

theorem BitField.testBit_SetValue (data index j : Nat) (value : Bool) :
    (BitField.SetValue data index value).testBit j =
      if j = index then value else data.testBit j := by
  unfold BitField.SetValue
  cases value
  · simp only [Bool.false_eq_true, if_false, Nat.testBit_xor, Nat.testBit_and,
      Nat.one_shiftLeft, Nat.testBit_two_pow]
    by_cases hij : j = index
    · subst hij; simp
    · have hji : ¬ index = j := fun h => hij h.symm
      simp [hij, hji]
  · simp only [if_true, Nat.testBit_or, Nat.one_shiftLeft, Nat.testBit_two_pow]
    by_cases hij : j = index
    · subst hij; simp
    · have hji : ¬ index = j := fun h => hij h.symm
      simp [hij, hji]

theorem BitField.GetValue_SetValue (data index j : Nat) (value : Bool) :
    BitField.GetValue (BitField.SetValue data index value) j =
      if j = index then value else BitField.GetValue data j :=
  BitField.testBit_SetValue data index j value

theorem Pad.Decls.sample_valid : Pad.Decls.sample.Valid := by decide

set_option maxRecDepth 100000 in
theorem Pad.replicate_byte (b : Nat) (hb : b < 256) :
    (ZeroExtend32 b ||| ZeroExtend32 (ZeroExtend32 b <<< 8) |||
      ZeroExtend32 (ZeroExtend32 b <<< 16) ||| ZeroExtend32 (ZeroExtend32 b <<< 24)) =
      b * 0x01010101 := by
  revert b
  unfold ZeroExtend32
  decide

/-- C7: on an Idle bus whose control register does not assert both
device-select and transmit-enable (in particular when both are clear),
writing `v` to the data register (offset 0x00) only latches the byte: the bus
differs from the one before in the transmit buffer, now the low 8 bits of
`v`, and the transmit-full flag, now true, and stays Idle.  A following
control-register write whose 16-bit value asserts device-select and
transmit-enable and does not set the reset flag then leaves the bus in the
Transmitting state with the timing event scheduled, the in-flight value equal
to the low 8 bits of `v` and the transmit-full flag cleared. -/
theorem Pad.WriteRegister_data_then_ctrl {C M T : Type} (K : Pad.Decls C M T)
    (s : Pad C M T) (v w : Nat)
    (hidle : s.m_state = Pad.State.Idle)
    (hctrl : BitField.GetValue s.m_JOY_CTRL K.CTRL_SELECT = false ∨
      BitField.GetValue s.m_JOY_CTRL K.CTRL_TXEN = false)
    (hsel : BitField.GetValue (Truncate16 w) K.CTRL_SELECT = true)
    (htxen : BitField.GetValue (Truncate16 w) K.CTRL_TXEN = true)
    (hreset : BitField.GetValue (Truncate16 w) K.CTRL_RESET = false) :
    Pad.WriteRegister K s 0x00 v =
      { s with m_transmit_buffer := v % 256, m_transmit_buffer_full := true } ∧
    (Pad.WriteRegister K s 0x00 v).m_state = Pad.State.Idle ∧
    (Pad.WriteRegister K (Pad.WriteRegister K s 0x00 v) 0x0A w).m_state
      = Pad.State.Transmitting ∧
    (Pad.WriteRegister K (Pad.WriteRegister K s 0x00 v) 0x0A w).m_transmit_value = v % 256 ∧
    (Pad.WriteRegister K (Pad.WriteRegister K s 0x00 v) 0x0A w).m_transmit_buffer_full
      = false ∧
    (Pad.WriteRegister K (Pad.WriteRegister K s 0x00 v) 0x0A w).m_transfer_event.m_active
      = true := by
  have h1 : Pad.WriteRegister K s 0x00 v =
      { s with m_transmit_buffer := v % 256, m_transmit_buffer_full := true } := by
    have hcan : Pad.CanTransfer K
        { s with m_transmit_buffer := v % 256, m_transmit_buffer_full := true } = false := by
      unfold Pad.CanTransfer
      rcases hctrl with h | h <;> simp [h]
    simp only [Pad.WriteRegister, Truncate8, if_true, hcan, Bool.and_false, Bool.false_eq_true,
      if_false]
  rw [h1]
  refine ⟨rfl, hidle, ?_⟩
  simp only [Pad.WriteRegister, Nat.reduceEqDiff, if_false, if_true, hreset, hsel, htxen,
    Bool.false_eq_true, Bool.not_true, Bool.or_self, Pad.IsTransmitting, hidle, bne_self_eq_false,
    Bool.not_false, Bool.true_and, Pad.CanTransfer, Bool.and_self]
  by_cases hack : BitField.GetValue (Truncate16 w) K.CTRL_ACK = true
  · simp [hack, hsel, htxen, hidle, Pad.BeginTransfer, Pad.UpdateJoyStat,
      TimingEvent.SetPeriodAndSchedule]
  · simp [hack, hsel, htxen, hidle, Pad.BeginTransfer, Pad.UpdateJoyStat,
      TimingEvent.SetPeriodAndSchedule]

/-- Witness of C7: writing 0x01 to the data register of the idle sample bus
and then 0x1003 (SELECT, TXEN and ACKINTEN) to the control register. -/
theorem Pad.WriteRegister_data_then_ctrl_witness :
    Pad.sample.m_state = Pad.State.Idle ∧
    BitField.GetValue Pad.sample.m_JOY_CTRL Pad.Decls.sample.CTRL_SELECT = false ∧
    BitField.GetValue (Truncate16 0x1003) Pad.Decls.sample.CTRL_SELECT = true ∧
    BitField.GetValue (Truncate16 0x1003) Pad.Decls.sample.CTRL_TXEN = true ∧
    BitField.GetValue (Truncate16 0x1003) Pad.Decls.sample.CTRL_RESET = false ∧
    (Pad.WriteRegister Pad.Decls.sample (Pad.WriteRegister Pad.Decls.sample Pad.sample 0x00 0x01)
      0x0A 0x1003).m_state = Pad.State.Transmitting ∧
    (Pad.WriteRegister Pad.Decls.sample (Pad.WriteRegister Pad.Decls.sample Pad.sample 0x00 0x01)
      0x0A 0x1003).m_transmit_value = 0x01 :=
  ⟨rfl, by decide, by decide, by decide, by decide,
   (Pad.WriteRegister_data_then_ctrl Pad.Decls.sample Pad.sample 0x01 0x1003 rfl
      (Or.inl (by decide)) (by decide) (by decide) (by decide)).2.2.1,
   (Pad.WriteRegister_data_then_ctrl Pad.Decls.sample Pad.sample 0x01 0x1003 rfl
      (Or.inl (by decide)) (by decide) (by decide) (by decide)).2.2.2.1⟩

/-- C8: at every offset other than 0x00, 0x04, 0x08, 0x0A and 0x0E,
`ReadRegister` returns 0xFFFFFFFF and leaves the bus as it was, and
`WriteRegister` with any value leaves the bus as it was. -/
theorem Pad.undefined_offset {C M T : Type} (K : Pad.Decls C M T) (g : PointerSource)
    (due : Bool) (s : Pad C M T) (offset value : Nat)
    (h0 : offset ≠ 0x00) (h4 : offset ≠ 0x04) (h8 : offset ≠ 0x08) (hA : offset ≠ 0x0A)
    (hE : offset ≠ 0x0E) :
    Pad.ReadRegister K g due s offset = (s, 0xFFFFFFFF) ∧
    Pad.WriteRegister K s offset value = s := by
  constructor
  · simp only [Pad.ReadRegister, if_neg h0, if_neg h4, if_neg h8, if_neg hA, if_neg hE]
  · simp only [Pad.WriteRegister, if_neg h0, if_neg h8, if_neg hA, if_neg hE]

/-- Witness of C8: offset 0x02 of a bus with a byte exchange in flight. -/
theorem Pad.undefined_offset_witness :
    Pad.ReadRegister Pad.Decls.sample PointerSource.onScreen true
      (Pad.BeginTransfer Pad.Decls.sample Pad.sample) 0x02 =
        (Pad.BeginTransfer Pad.Decls.sample Pad.sample, 0xFFFFFFFF) ∧
    Pad.WriteRegister Pad.Decls.sample (Pad.BeginTransfer Pad.Decls.sample Pad.sample) 0x02
      0x1234 = Pad.BeginTransfer Pad.Decls.sample Pad.sample :=
  Pad.undefined_offset Pad.Decls.sample PointerSource.onScreen true
    (Pad.BeginTransfer Pad.Decls.sample Pad.sample) 0x02 0x1234
    (by decide) (by decide) (by decide) (by decide) (by decide)

/-- Counterexample to C9 as stated: on the idle sample bus the receive buffer
holds 0x5A but has already been read (the receive-full flag is clear); a read
of the data register returns 0xFFFFFFFF, not 0x5A replicated. -/
theorem Pad.ReadRegister_data_counterexample :
    Pad.sample.m_state = Pad.State.Idle ∧
    Pad.sample.m_receive_buffer = 0x5A ∧
    Pad.sample.m_receive_buffer_full = false ∧
    (Pad.ReadRegister Pad.Decls.sample PointerSource.onScreen false Pad.sample 0x00).2
      = 0xFFFFFFFF ∧
    (Pad.ReadRegister Pad.Decls.sample PointerSource.onScreen false Pad.sample 0x00).2
      ≠ 0x5A * 0x01010101 := by
  refine ⟨rfl, rfl, rfl, by decide, by decide⟩

/-- C9 (amended): on a bus with no transfer in flight whose receive buffer
holds a byte, reading the data register (offset 0x00) returns
`b * 0x01010101`, where `b` is the byte in the receive buffer when the
receive-full flag is set and 0xFF when it is clear; afterwards the
receive-full flag is false, the receive-FIFO-not-empty bit of STAT is false
and the receive buffer still holds its byte, so a second read returns
0xFFFFFFFF. -/
theorem Pad.ReadRegister_data {C M T : Type} (K : Pad.Decls C M T) (hK : K.Valid)
    (g : PointerSource) (due due2 : Bool) (s : Pad C M T)
    (hidle : s.m_state = Pad.State.Idle) (hrb : s.m_receive_buffer < 256) :
    (Pad.ReadRegister K g due s 0x00).2 =
      (if s.m_receive_buffer_full then s.m_receive_buffer else 0xFF) * 0x01010101 ∧
    (Pad.ReadRegister K g due s 0x00).1.m_receive_buffer_full = false ∧
    BitField.GetValue (Pad.ReadRegister K g due s 0x00).1.m_JOY_STAT K.STAT_RXFIFONEMPTY
      = false ∧
    (Pad.ReadRegister K g due s 0x00).1.m_receive_buffer = s.m_receive_buffer ∧
    (Pad.ReadRegister K g due s 0x00).1.m_state = Pad.State.Idle ∧
    (Pad.ReadRegister K g due2 (Pad.ReadRegister K g due s 0x00).1 0x00).2 = 0xFFFFFFFF := by
  have hne1 : K.STAT_RXFIFONEMPTY ≠ K.STAT_TXDONE := by
    have h := hK.2.2.1
    simp only [List.nodup_cons, List.mem_cons, not_or] at h
    exact h.2.1.1
  have hne2 : K.STAT_RXFIFONEMPTY ≠ K.STAT_TXRDY := by
    have h := hK.2.2.1
    simp only [List.nodup_cons, List.mem_cons, not_or] at h
    exact fun e => h.1.1 e.symm
  have hv : (if s.m_receive_buffer_full then s.m_receive_buffer else 0xFF) < 256 := by
    split_ifs
    · exact hrb
    · decide
  have hread : Pad.ReadRegister K g due s 0x00 =
      (Pad.UpdateJoyStat K { s with m_receive_buffer_full := false },
        (if s.m_receive_buffer_full then s.m_receive_buffer else 0xFF) * 0x01010101) := by
    simp only [Pad.ReadRegister, if_true, Pad.IsTransmitting, hidle, bne_self_eq_false,
      Bool.false_eq_true, if_false]
    rw [Pad.replicate_byte _ hv]
  have hread2 : Pad.ReadRegister K g due2
        (Pad.UpdateJoyStat K { s with m_receive_buffer_full := false }) 0x00 =
      (Pad.UpdateJoyStat K (Pad.UpdateJoyStat K { s with m_receive_buffer_full := false }),
        0xFFFFFFFF) := by
    simp only [Pad.ReadRegister, if_true, Pad.IsTransmitting, Pad.UpdateJoyStat, hidle,
      bne_self_eq_false, Bool.false_eq_true, if_false]
    rw [Pad.replicate_byte _ (by decide)]
  rw [hread]
  refine ⟨rfl, rfl, ?_, rfl, hidle, ?_⟩
  · simp only [Pad.UpdateJoyStat, BitField.GetValue_SetValue, if_neg hne1, if_neg hne2, if_true]
  · simp only [hread2]

/-- Witness of C9 (amended): the sample bus after a byte 0x5A has been
latched as received and not yet read. -/
theorem Pad.ReadRegister_data_witness :
    Pad.Decls.sample.Valid ∧
    ({ Pad.sample with m_receive_buffer_full := true } : Pad Unit Unit Unit).m_state
      = Pad.State.Idle ∧
    ({ Pad.sample with m_receive_buffer_full := true } : Pad Unit Unit Unit).m_receive_buffer
      < 256 ∧
    (Pad.ReadRegister Pad.Decls.sample PointerSource.onScreen false
      { Pad.sample with m_receive_buffer_full := true } 0x00).2 = 0x5A5A5A5A :=
  ⟨Pad.Decls.sample_valid, rfl, by decide,
   (Pad.ReadRegister_data Pad.Decls.sample Pad.Decls.sample_valid PointerSource.onScreen
      false false { Pad.sample with m_receive_buffer_full := true } rfl (by decide)).1⟩

/-- C10: on a bus with no transfer in flight, reading the status register
(offset 0x04) returns the STAT bits as they were before the read, the
ack-received bit included.  Afterwards the ack-received bit is clear, every
other STAT bit and every other member of the bus is unchanged, and a second
status read returns the first value with the ack-received bit cleared and
changes nothing more. -/
theorem Pad.ReadRegister_stat {C M T : Type} (K : Pad.Decls C M T) (g : PointerSource)
    (due due2 : Bool) (s : Pad C M T) (hidle : s.m_state = Pad.State.Idle) :
    (Pad.ReadRegister K g due s 0x04).2 = s.m_JOY_STAT ∧
    BitField.GetValue (Pad.ReadRegister K g due s 0x04).1.m_JOY_STAT K.STAT_ACKINPUT = false ∧
    (∀ j : Nat, j ≠ K.STAT_ACKINPUT →
      (Pad.ReadRegister K g due s 0x04).1.m_JOY_STAT.testBit j = s.m_JOY_STAT.testBit j) ∧
    (Pad.ReadRegister K g due s 0x04).1 =
      { s with m_JOY_STAT := BitField.SetValue s.m_JOY_STAT K.STAT_ACKINPUT false } ∧
    (Pad.ReadRegister K g due2 (Pad.ReadRegister K g due s 0x04).1 0x04).2 =
      BitField.SetValue (Pad.ReadRegister K g due s 0x04).2 K.STAT_ACKINPUT false ∧
    (Pad.ReadRegister K g due2 (Pad.ReadRegister K g due s 0x04).1 0x04).1 =
      (Pad.ReadRegister K g due s 0x04).1 := by
  have hidem : BitField.SetValue (BitField.SetValue s.m_JOY_STAT K.STAT_ACKINPUT false)
      K.STAT_ACKINPUT false = BitField.SetValue s.m_JOY_STAT K.STAT_ACKINPUT false := by
    apply Nat.eq_of_testBit_eq
    intro j
    simp only [BitField.testBit_SetValue]
    split_ifs <;> rfl
  have hread : Pad.ReadRegister K g due s 0x04 =
      ({ s with m_JOY_STAT := BitField.SetValue s.m_JOY_STAT K.STAT_ACKINPUT false },
        s.m_JOY_STAT) := by
    simp [Pad.ReadRegister, Pad.IsTransmitting, hidle]
  have hread2 : Pad.ReadRegister K g due2
        { s with m_JOY_STAT := BitField.SetValue s.m_JOY_STAT K.STAT_ACKINPUT false } 0x04 =
      ({ s with m_JOY_STAT := BitField.SetValue s.m_JOY_STAT K.STAT_ACKINPUT false },
        BitField.SetValue s.m_JOY_STAT K.STAT_ACKINPUT false) := by
    simp [Pad.ReadRegister, Pad.IsTransmitting, hidle, hidem]
  rw [hread]
  refine ⟨rfl, ?_, ?_, rfl, ?_, ?_⟩
  · simp only [BitField.GetValue_SetValue, if_true]
  · intro j hj
    simp only [BitField.testBit_SetValue, if_neg hj]
  · simp only [hread2]
  · simp only [hread2]

/-- Witness of C10: the idle sample bus, whose status register 0x85 has the
ack-received bit set: the first read returns 0x85, the second 0x05. -/
theorem Pad.ReadRegister_stat_witness :
    Pad.sample.m_state = Pad.State.Idle ∧
    (Pad.ReadRegister Pad.Decls.sample PointerSource.onScreen false Pad.sample 0x04).2
      = 0x85 ∧
    (Pad.ReadRegister Pad.Decls.sample PointerSource.onScreen false
      (Pad.ReadRegister Pad.Decls.sample PointerSource.onScreen false Pad.sample 0x04).1
      0x04).2 = 0x05 :=
  ⟨rfl,
   (Pad.ReadRegister_stat Pad.Decls.sample PointerSource.onScreen false false Pad.sample
      rfl).1,
   by
    rw [(Pad.ReadRegister_stat Pad.Decls.sample PointerSource.onScreen false false Pad.sample
      rfl).2.2.2.2.1]
    decide⟩

/-! ## Control, mode and baud register writes -/

theorem BitField.GetValue_zero (index : Nat) : BitField.GetValue 0 index = false := by
  simp [BitField.GetValue]

theorem Pad.UpdateJoyStat_GetValue {C M T : Type} (K : Pad.Decls C M T) (s : Pad C M T)
    (j : Nat) (h1 : j ≠ K.STAT_RXFIFONEMPTY) (h2 : j ≠ K.STAT_TXDONE)
    (h3 : j ≠ K.STAT_TXRDY) :
    BitField.GetValue (Pad.UpdateJoyStat K s).m_JOY_STAT j = BitField.GetValue s.m_JOY_STAT j := by
  simp only [Pad.UpdateJoyStat, BitField.GetValue_SetValue, if_neg h1, if_neg h2, if_neg h3]

theorem Pad.Decls.Valid.intr_ne {C M T : Type} {K : Pad.Decls C M T} (hK : K.Valid) :
    K.STAT_INTR ≠ K.STAT_RXFIFONEMPTY ∧ K.STAT_INTR ≠ K.STAT_TXDONE ∧
      K.STAT_INTR ≠ K.STAT_TXRDY := by
  have h := hK.2.2.1
  simp only [List.nodup_cons, List.mem_cons, not_or] at h
  refine ⟨fun e => h.2.1.2.2.1 e.symm, fun e => h.2.2.1.2.1 e.symm, fun e => h.1.2.2.2.1 e.symm⟩

/-- Counterexample to C11 as stated: the idle sample bus has BAUD = 0x88; a
control-register write of 0x40 (the reset flag alone) leaves BAUD at 0x88,
not at zero. -/
theorem Pad.WriteRegister_ctrl_reset_counterexample :
    BitField.GetValue (Truncate16 0x40) Pad.Decls.sample.CTRL_RESET = true ∧
    Pad.sample.m_JOY_BAUD = 0x88 ∧
    (Pad.WriteRegister Pad.Decls.sample Pad.sample 0x0A 0x40).m_JOY_BAUD = 0x88 ∧
    (Pad.WriteRegister Pad.Decls.sample Pad.sample 0x0A 0x40).m_JOY_BAUD ≠ 0 := by
  refine ⟨by decide, rfl, rfl, by decide⟩

theorem Pad.WriteRegister_ctrl_of_reset {C M T : Type} (K : Pad.Decls C M T) (s : Pad C M T)
    (v : Nat) (hreset : BitField.GetValue (Truncate16 v) K.CTRL_RESET = true) :
    Pad.WriteRegister K s 0x0A v =
      Pad.UpdateJoyStat K (Pad.ResetDeviceTransferState K
        (Pad.SoftReset K { s with m_JOY_CTRL := Truncate16 v })) := by
  have hc : (Pad.SoftReset K { s with m_JOY_CTRL := Truncate16 v }).m_JOY_CTRL = 0 := rfl
  have hs : (Pad.SoftReset K { s with m_JOY_CTRL := Truncate16 v }).m_state
      = Pad.State.Idle := by
    simp only [Pad.SoftReset, Pad.UpdateJoyStat, Pad.ResetDeviceTransferState,
      Pad.IsTransmitting, Pad.EndTransfer]
    split_ifs with h
    · rfl
    · simpa using h
  have hs2 : (Pad.ResetDeviceTransferState K
      (Pad.SoftReset K { s with m_JOY_CTRL := Truncate16 v })).m_state = Pad.State.Idle := hs
  have hc2 : (Pad.ResetDeviceTransferState K
      (Pad.SoftReset K { s with m_JOY_CTRL := Truncate16 v })).m_JOY_CTRL = 0 := rfl
  simp only [Pad.WriteRegister, Nat.reduceEqDiff, if_false, if_true, hreset, hc,
    BitField.GetValue_zero, Bool.false_eq_true, Bool.not_false, Bool.true_or, hc2,
    Pad.IsTransmitting, hs2, bne_self_eq_false]

theorem Pad.WriteRegister_ctrl_reset_fields {C M T : Type} (K : Pad.Decls C M T) (s : Pad C M T)
    (v : Nat) (hreset : BitField.GetValue (Truncate16 v) K.CTRL_RESET = true) :
    (Pad.WriteRegister K s 0x0A v).m_state = Pad.State.Idle ∧
    (Pad.WriteRegister K s 0x0A v).m_JOY_CTRL = 0 ∧
    (Pad.WriteRegister K s 0x0A v).m_JOY_MODE = 0 ∧
    (Pad.WriteRegister K s 0x0A v).m_JOY_BAUD = s.m_JOY_BAUD ∧
    (Pad.WriteRegister K s 0x0A v).m_receive_buffer = 0 ∧
    (Pad.WriteRegister K s 0x0A v).m_transmit_buffer = 0 ∧
    (Pad.WriteRegister K s 0x0A v).m_receive_buffer_full = false ∧
    (Pad.WriteRegister K s 0x0A v).m_transmit_buffer_full = false ∧
    (Pad.WriteRegister K s 0x0A v).m_active_device = Pad.ActiveDevice.None ∧
    (Pad.WriteRegister K s 0x0A v).m_transmit_value = s.m_transmit_value ∧
    (Pad.WriteRegister K s 0x0A v).m_transfer_event =
      (if s.m_state = Pad.State.Idle then s.m_transfer_event
       else s.m_transfer_event.Deactivate) := by
  rw [Pad.WriteRegister_ctrl_of_reset K s v hreset]
  have hev : (Pad.UpdateJoyStat K (Pad.ResetDeviceTransferState K
        (Pad.SoftReset K { s with m_JOY_CTRL := Truncate16 v }))).m_transfer_event =
      (if s.m_state = Pad.State.Idle then s.m_transfer_event
       else s.m_transfer_event.Deactivate) := by
    simp only [Pad.SoftReset, Pad.UpdateJoyStat, Pad.ResetDeviceTransferState,
      Pad.IsTransmitting, Pad.EndTransfer]
    by_cases h : s.m_state = Pad.State.Idle
    · simp [h]
    · simp [h]
  have hst : (Pad.UpdateJoyStat K (Pad.ResetDeviceTransferState K
        (Pad.SoftReset K { s with m_JOY_CTRL := Truncate16 v }))).m_state = Pad.State.Idle := by
    simp only [Pad.SoftReset, Pad.UpdateJoyStat, Pad.ResetDeviceTransferState,
      Pad.IsTransmitting, Pad.EndTransfer]
    by_cases h : s.m_state = Pad.State.Idle
    · simp [h]
    · simp [h]
  have htv : (Pad.UpdateJoyStat K (Pad.ResetDeviceTransferState K
        (Pad.SoftReset K { s with m_JOY_CTRL := Truncate16 v }))).m_transmit_value =
      s.m_transmit_value := by
    simp only [Pad.SoftReset, Pad.UpdateJoyStat, Pad.ResetDeviceTransferState,
      Pad.IsTransmitting, Pad.EndTransfer]
    split_ifs <;> rfl
  have hbd : (Pad.UpdateJoyStat K (Pad.ResetDeviceTransferState K
        (Pad.SoftReset K { s with m_JOY_CTRL := Truncate16 v }))).m_JOY_BAUD =
      s.m_JOY_BAUD := by
    simp only [Pad.SoftReset, Pad.UpdateJoyStat, Pad.ResetDeviceTransferState,
      Pad.IsTransmitting, Pad.EndTransfer]
    split_ifs <;> rfl
  exact ⟨hst, rfl, rfl, hbd, rfl, rfl, rfl, rfl, rfl, htv, hev⟩

/-- C11 (amended): a control-register write whose 16-bit value has the reset
flag set, whatever its other bits, leaves the bus Idle, CTRL and MODE zero,
the receive and transmit buffers zero with both full-flags false and
activeDevice None, and starts no transfer (the in-flight value is the one
before).  BAUD keeps the value it had.  The timing event is deactivated when
a transfer was in flight and left as it was when the bus was already Idle, so
it is deactivated afterwards on every bus whose event is scheduled only
while the bus is not Idle. -/
theorem Pad.WriteRegister_ctrl_reset {C M T : Type} (K : Pad.Decls C M T) (s : Pad C M T)
    (v : Nat) (hreset : BitField.GetValue (Truncate16 v) K.CTRL_RESET = true) :
    (Pad.WriteRegister K s 0x0A v).m_state = Pad.State.Idle ∧
    (Pad.WriteRegister K s 0x0A v).m_JOY_CTRL = 0 ∧
    (Pad.WriteRegister K s 0x0A v).m_JOY_MODE = 0 ∧
    (Pad.WriteRegister K s 0x0A v).m_JOY_BAUD = s.m_JOY_BAUD ∧
    (Pad.WriteRegister K s 0x0A v).m_receive_buffer = 0 ∧
    (Pad.WriteRegister K s 0x0A v).m_transmit_buffer = 0 ∧
    (Pad.WriteRegister K s 0x0A v).m_receive_buffer_full = false ∧
    (Pad.WriteRegister K s 0x0A v).m_transmit_buffer_full = false ∧
    (Pad.WriteRegister K s 0x0A v).m_active_device = Pad.ActiveDevice.None ∧
    (Pad.WriteRegister K s 0x0A v).m_transmit_value = s.m_transmit_value ∧
    (Pad.WriteRegister K s 0x0A v).m_transfer_event =
      (if s.m_state = Pad.State.Idle then s.m_transfer_event
       else s.m_transfer_event.Deactivate) ∧
    ((s.m_state = Pad.State.Idle → s.m_transfer_event.m_active = false) →
      (Pad.WriteRegister K s 0x0A v).m_transfer_event.m_active = false) := by
  obtain ⟨h1, h2, h3, h4, h5, h6, h7, h8, h9, h10, h11⟩ :=
    Pad.WriteRegister_ctrl_reset_fields K s v hreset
  refine ⟨h1, h2, h3, h4, h5, h6, h7, h8, h9, h10, h11, ?_⟩
  intro hinv
  rw [h11]
  by_cases h : s.m_state = Pad.State.Idle
  · rw [if_pos h]; exact hinv h
  · rw [if_neg h]; rfl

/-- Witness of C11 (amended): writing 0x43 (reset with SELECT and TXEN) to
the control register of the sample bus while it is sending a byte. -/
theorem Pad.WriteRegister_ctrl_reset_witness :
    BitField.GetValue (Truncate16 0x43) Pad.Decls.sampleTap.CTRL_RESET = true ∧
    (Pad.sampleTap false).m_state = Pad.State.Transmitting ∧
    (Pad.WriteRegister Pad.Decls.sampleTap (Pad.sampleTap false) 0x0A 0x43).m_state
      = Pad.State.Idle ∧
    (Pad.WriteRegister Pad.Decls.sampleTap (Pad.sampleTap false) 0x0A 0x43).m_JOY_BAUD
      = 0x88 ∧
    (Pad.WriteRegister Pad.Decls.sampleTap (Pad.sampleTap false) 0x0A
      0x43).m_transfer_event.m_active = false :=
  ⟨by decide, rfl,
   (Pad.WriteRegister_ctrl_reset Pad.Decls.sampleTap (Pad.sampleTap false) 0x43
      (by decide)).1,
   (Pad.WriteRegister_ctrl_reset Pad.Decls.sampleTap (Pad.sampleTap false) 0x43
      (by decide)).2.2.2.1,
   (Pad.WriteRegister_ctrl_reset Pad.Decls.sampleTap (Pad.sampleTap false) 0x43
      (by decide)).2.2.2.2.2.2.2.2.2.2.2 (fun h => absurd h (by decide))⟩

theorem Pad.WriteRegister_ctrl_no_reset {C M T : Type} (K : Pad.Decls C M T) (s : Pad C M T)
    (v : Nat) (hreset : BitField.GetValue (Truncate16 v) K.CTRL_RESET = false) :
    Pad.WriteRegister K s 0x0A v =
      Pad.UpdateJoyStat K
        (let s3 : Pad C M T :=
          if BitField.GetValue (Truncate16 v) K.CTRL_ACK then
            { s with m_JOY_CTRL := Truncate16 v,
                     m_JOY_STAT := BitField.SetValue s.m_JOY_STAT K.STAT_INTR false }
          else { s with m_JOY_CTRL := Truncate16 v }
        let s4 :=
          if !BitField.GetValue (Truncate16 v) K.CTRL_SELECT then
            Pad.ResetDeviceTransferState K s3
          else s3
        if !BitField.GetValue (Truncate16 v) K.CTRL_SELECT ||
            !BitField.GetValue (Truncate16 v) K.CTRL_TXEN then
          if Pad.IsTransmitting s4 then Pad.EndTransfer s4 else s4
        else
          if !Pad.IsTransmitting s4 && Pad.CanTransfer K s4 then Pad.BeginTransfer K s4
          else s4) := by
  simp only [Pad.WriteRegister, Nat.reduceEqDiff, if_false, if_true, hreset,
    Bool.false_eq_true]
  by_cases hack : BitField.GetValue (Truncate16 v) K.CTRL_ACK = true
  · by_cases hsel : BitField.GetValue (Truncate16 v) K.CTRL_SELECT = true
    · simp [hack, hsel, Pad.ResetDeviceTransferState]
    · simp [hack, hsel, Pad.ResetDeviceTransferState]
  · by_cases hsel : BitField.GetValue (Truncate16 v) K.CTRL_SELECT = true
    · simp [hack, hsel, Pad.ResetDeviceTransferState]
    · simp [hack, hsel, Pad.ResetDeviceTransferState]

/-- C12: after a control-register write whose 16-bit value has the
acknowledge-clear flag set, the interrupt-pending bit of STAT is false; after
a write whose value has neither the acknowledge-clear flag nor the reset flag
set, the interrupt-pending bit is the one before the write.  The register
fields are distinct bits. -/
theorem Pad.WriteRegister_ctrl_intr {C M T : Type} (K : Pad.Decls C M T) (hK : K.Valid)
    (s : Pad C M T) (v : Nat) :
    (BitField.GetValue (Truncate16 v) K.CTRL_ACK = true →
      BitField.GetValue (Pad.WriteRegister K s 0x0A v).m_JOY_STAT K.STAT_INTR = false) ∧
    (BitField.GetValue (Truncate16 v) K.CTRL_ACK = false →
      BitField.GetValue (Truncate16 v) K.CTRL_RESET = false →
      BitField.GetValue (Pad.WriteRegister K s 0x0A v).m_JOY_STAT K.STAT_INTR =
        BitField.GetValue s.m_JOY_STAT K.STAT_INTR) := by
  obtain ⟨h1, h2, h3⟩ := hK.intr_ne
  constructor
  · intro hack
    by_cases hreset : BitField.GetValue (Truncate16 v) K.CTRL_RESET = true
    · rw [Pad.WriteRegister_ctrl_of_reset K s v hreset,
        Pad.UpdateJoyStat_GetValue K _ _ h1 h2 h3]
      show BitField.GetValue (Pad.SoftReset K { s with m_JOY_CTRL := Truncate16 v }).m_JOY_STAT
        K.STAT_INTR = false
      unfold Pad.SoftReset
      rw [Pad.UpdateJoyStat_GetValue K _ _ h1 h2 h3]
      exact BitField.GetValue_zero _
    · have hreset2 : BitField.GetValue (Truncate16 v) K.CTRL_RESET = false := by
        simpa using hreset
      rw [Pad.WriteRegister_ctrl_no_reset K s v hreset2,
        Pad.UpdateJoyStat_GetValue K _ _ h1 h2 h3]
      simp only [hack, if_true]
      have hset : BitField.GetValue (BitField.SetValue s.m_JOY_STAT K.STAT_INTR false)
          K.STAT_INTR = false := by
        simp [BitField.GetValue_SetValue]
      simp only [Pad.ResetDeviceTransferState, Pad.IsTransmitting, Pad.EndTransfer,
        Pad.BeginTransfer, Pad.CanTransfer]
      split_ifs <;> exact hset
  · intro hack hreset
    rw [Pad.WriteRegister_ctrl_no_reset K s v hreset,
      Pad.UpdateJoyStat_GetValue K _ _ h1 h2 h3]
    simp only [hack, Bool.false_eq_true, if_false]
    simp only [Pad.ResetDeviceTransferState, Pad.IsTransmitting, Pad.EndTransfer,
      Pad.BeginTransfer, Pad.CanTransfer]
    split_ifs <;> rfl

/-- Witness of C12: on the sample bus with the interrupt-pending bit set
(STAT 0x285), writing 0x13 (ACK) clears the bit and writing 0x03 keeps it. -/
theorem Pad.WriteRegister_ctrl_intr_witness :
    Pad.Decls.sample.Valid ∧
    BitField.GetValue (Truncate16 0x13) Pad.Decls.sample.CTRL_ACK = true ∧
    BitField.GetValue
      (Pad.WriteRegister Pad.Decls.sample { Pad.sample with m_JOY_STAT := 0x285 } 0x0A
        0x13).m_JOY_STAT Pad.Decls.sample.STAT_INTR = false ∧
    BitField.GetValue (Truncate16 0x03) Pad.Decls.sample.CTRL_ACK = false ∧
    BitField.GetValue (Truncate16 0x03) Pad.Decls.sample.CTRL_RESET = false ∧
    BitField.GetValue
      (Pad.WriteRegister Pad.Decls.sample { Pad.sample with m_JOY_STAT := 0x285 } 0x0A
        0x03).m_JOY_STAT Pad.Decls.sample.STAT_INTR = true :=
  ⟨Pad.Decls.sample_valid, by decide,
   (Pad.WriteRegister_ctrl_intr Pad.Decls.sample Pad.Decls.sample_valid
      { Pad.sample with m_JOY_STAT := 0x285 } 0x13).1 (by decide),
   by decide, by decide,
   ((Pad.WriteRegister_ctrl_intr Pad.Decls.sample Pad.Decls.sample_valid
      { Pad.sample with m_JOY_STAT := 0x285 } 0x03).2 (by decide) (by decide)).trans
      (by decide)⟩

theorem Pad.WriteRegister_ctrl_deselect_devices {C M T : Type} (K : Pad.Decls C M T)
    (s : Pad C M T) (v : Nat)
    (hsel : BitField.GetValue (Truncate16 v) K.CTRL_SELECT = false) :
    ∃ s0 : Pad C M T,
      (s0.m_controllers = s.m_controllers ∨
        s0.m_controllers = (Pad.ResetDeviceTransferState K s).m_controllers) ∧
      (s0.m_memory_cards = s.m_memory_cards ∨
        s0.m_memory_cards = (Pad.ResetDeviceTransferState K s).m_memory_cards) ∧
      (s0.m_multitaps = s.m_multitaps ∨
        s0.m_multitaps = (Pad.ResetDeviceTransferState K s).m_multitaps) ∧
      (Pad.WriteRegister K s 0x0A v).m_controllers =
        (Pad.ResetDeviceTransferState K s0).m_controllers ∧
      (Pad.WriteRegister K s 0x0A v).m_memory_cards =
        (Pad.ResetDeviceTransferState K s0).m_memory_cards ∧
      (Pad.WriteRegister K s 0x0A v).m_multitaps =
        (Pad.ResetDeviceTransferState K s0).m_multitaps ∧
      (Pad.WriteRegister K s 0x0A v).m_active_device = Pad.ActiveDevice.None := by
  by_cases hreset : BitField.GetValue (Truncate16 v) K.CTRL_RESET = true
  · refine ⟨Pad.SoftReset K { s with m_JOY_CTRL := Truncate16 v }, ?_⟩
    rw [Pad.WriteRegister_ctrl_of_reset K s v hreset]
    refine ⟨Or.inr ?_, Or.inr ?_, Or.inr ?_, rfl, rfl, rfl, rfl⟩
    · simp only [Pad.SoftReset, Pad.UpdateJoyStat, Pad.ResetDeviceTransferState,
        Pad.IsTransmitting, Pad.EndTransfer]
      split_ifs <;> rfl
    · simp only [Pad.SoftReset, Pad.UpdateJoyStat, Pad.ResetDeviceTransferState,
        Pad.IsTransmitting, Pad.EndTransfer]
      split_ifs <;> rfl
    · simp only [Pad.SoftReset, Pad.UpdateJoyStat, Pad.ResetDeviceTransferState,
        Pad.IsTransmitting, Pad.EndTransfer]
      split_ifs <;> rfl
  · have hreset2 : BitField.GetValue (Truncate16 v) K.CTRL_RESET = false := by
      simpa using hreset
    refine ⟨s, Or.inl rfl, Or.inl rfl, Or.inl rfl, ?_⟩
    rw [Pad.WriteRegister_ctrl_no_reset K s v hreset2]
    simp only [hsel, Bool.not_false, Bool.true_or, if_true, Pad.UpdateJoyStat,
      Pad.ResetDeviceTransferState, Pad.IsTransmitting, Pad.EndTransfer]
    split_ifs <;> exact ⟨rfl, rfl, rfl, rfl⟩

/-- C13: after a control-register write whose 16-bit value has device-select
clear, activeDevice is None and every device of the eight controller and
memory-card slots and of the two multitaps is in its Idle transfer state: a
twist controller or a light gun is the device before the write with its
transfer state set to Idle (button register, axis and position latches and
the shoot-offscreen latch unchanged), and a controller of another kind, a
memory card and a multitap are in a state returned by their own
`ResetTransferState`; an empty slot stays empty. -/
theorem Pad.WriteRegister_ctrl_deselect {C M T : Type} (K : Pad.Decls C M T) (s : Pad C M T)
    (v : Nat) (hsel : BitField.GetValue (Truncate16 v) K.CTRL_SELECT = false) :
    (Pad.WriteRegister K s 0x0A v).m_active_device = Pad.ActiveDevice.None ∧
    (∀ i : Nat, i < Pad.NUM_CONTROLLER_AND_CARD_PORTS →
      (s.m_controllers i = none → (Pad.WriteRegister K s 0x0A v).m_controllers i = none) ∧
      (∀ d : NeGcon, s.m_controllers i = some (Controller.NeGcon d) →
        (Pad.WriteRegister K s 0x0A v).m_controllers i =
          some (Controller.NeGcon
            { d with m_transfer_state := NeGcon.TransferState.Idle })) ∧
      (∀ d : NamcoGunCon, s.m_controllers i = some (Controller.NamcoGunCon d) →
        (Pad.WriteRegister K s 0x0A v).m_controllers i =
          some (Controller.NamcoGunCon
            { d with m_transfer_state := NamcoGunCon.TransferState.Idle })) ∧
      (∀ d : C, s.m_controllers i = some (Controller.Other d) →
        ∃ d0 : C, (Pad.WriteRegister K s 0x0A v).m_controllers i =
          some (Controller.Other (K.controller.ResetTransferState d0))) ∧
      (s.m_memory_cards i = none → (Pad.WriteRegister K s 0x0A v).m_memory_cards i = none) ∧
      (∀ m : M, s.m_memory_cards i = some m →
        ∃ m0 : M, (Pad.WriteRegister K s 0x0A v).m_memory_cards i =
          some (K.memory_card.ResetTransferState m0))) ∧
    (∀ i : Nat, i < Pad.NUM_MULTITAPS →
      ∃ t0 : T, (Pad.WriteRegister K s 0x0A v).m_multitaps i =
        K.multitap_ResetTransferState t0) := by
  obtain ⟨s0, hc, hm, ht, hwc, hwm, hwt, hwa⟩ :=
    Pad.WriteRegister_ctrl_deselect_devices K s v hsel
  refine ⟨hwa, ?_, ?_⟩
  · intro i hi
    have hci : s0.m_controllers i = s.m_controllers i ∨
        s0.m_controllers i =
          (s.m_controllers i).map (Controller.ResetTransferState K.controller) := by
      rcases hc with h | h
      · exact Or.inl (by rw [h])
      · right; rw [h]; simp only [Pad.ResetDeviceTransferState, if_pos hi]
    have hmi : s0.m_memory_cards i = s.m_memory_cards i ∨
        s0.m_memory_cards i = (s.m_memory_cards i).map K.memory_card.ResetTransferState := by
      rcases hm with h | h
      · exact Or.inl (by rw [h])
      · right; rw [h]; simp only [Pad.ResetDeviceTransferState, if_pos hi]
    have hwci : (Pad.WriteRegister K s 0x0A v).m_controllers i =
        (s0.m_controllers i).map (Controller.ResetTransferState K.controller) := by
      rw [hwc]; simp only [Pad.ResetDeviceTransferState, if_pos hi]
    have hwmi : (Pad.WriteRegister K s 0x0A v).m_memory_cards i =
        (s0.m_memory_cards i).map K.memory_card.ResetTransferState := by
      rw [hwm]; simp only [Pad.ResetDeviceTransferState, if_pos hi]
    rw [hwci, hwmi]
    refine ⟨?_, ?_, ?_, ?_, ?_, ?_⟩
    · intro h
      rcases hci with e | e <;> rw [e, h] <;> rfl
    · intro d h
      rcases hci with e | e <;> rw [e, h] <;> rfl
    · intro d h
      rcases hci with e | e <;> rw [e, h] <;> rfl
    · intro d h
      rcases hci with e | e
      · exact ⟨d, by rw [e, h]; rfl⟩
      · exact ⟨K.controller.ResetTransferState d, by rw [e, h]; rfl⟩
    · intro h
      rcases hmi with e | e <;> rw [e, h] <;> rfl
    · intro m h
      rcases hmi with e | e
      · exact ⟨m, by rw [e, h]; rfl⟩
      · exact ⟨K.memory_card.ResetTransferState m, by rw [e, h]; rfl⟩
  · intro i hi
    refine ⟨s0.m_multitaps i, ?_⟩
    rw [hwt]
    simp only [Pad.ResetDeviceTransferState, if_pos hi]

/-- Witness of C13: writing 0x01 (TXEN without SELECT) to the control register
of the sample bus whose twist controller in slot 0 was selected: the
controller is Idle again with its latches as before. -/
theorem Pad.WriteRegister_ctrl_deselect_witness :
    BitField.GetValue (Truncate16 0x01) Pad.Decls.sample.CTRL_SELECT = false ∧
    (0 : Nat) < Pad.NUM_CONTROLLER_AND_CARD_PORTS ∧
    (Pad.WriteRegister Pad.Decls.sample
      { Pad.sample with
        m_controllers := fun _ => some (Controller.NeGcon NeGcon.selected),
        m_active_device := Pad.ActiveDevice.Controller } 0x0A 0x01).m_controllers 0 =
      some (Controller.NeGcon
        { NeGcon.selected with m_transfer_state := NeGcon.TransferState.Idle }) :=
  ⟨by decide, by decide,
   ((Pad.WriteRegister_ctrl_deselect Pad.Decls.sample
      { Pad.sample with
        m_controllers := fun _ => some (Controller.NeGcon NeGcon.selected),
        m_active_device := Pad.ActiveDevice.Controller } 0x01 (by decide)).2.1 0
      (by decide)).2.1 NeGcon.selected rfl⟩

/-- C14: a control-register write whose 16-bit value has device-select clear
or transmit-enable clear, made while a transfer is in flight (state
Transmitting or WaitingForACK), leaves the bus Idle with the timing event
deactivated.  A control-register write without the reset flag made while the
bus is Idle leaves the bus Transmitting if the value asserts device-select
and transmit-enable and the transmit buffer is full, and Idle in every other
case. -/
theorem Pad.WriteRegister_ctrl_transfer {C M T : Type} (K : Pad.Decls C M T) (s : Pad C M T)
    (v : Nat) :
    (s.m_state ≠ Pad.State.Idle →
      (BitField.GetValue (Truncate16 v) K.CTRL_SELECT = false ∨
        BitField.GetValue (Truncate16 v) K.CTRL_TXEN = false) →
      (Pad.WriteRegister K s 0x0A v).m_state = Pad.State.Idle ∧
      (Pad.WriteRegister K s 0x0A v).m_transfer_event.m_active = false) ∧
    (s.m_state = Pad.State.Idle →
      BitField.GetValue (Truncate16 v) K.CTRL_RESET = false →
      ((Pad.WriteRegister K s 0x0A v).m_state = Pad.State.Transmitting ↔
        (BitField.GetValue (Truncate16 v) K.CTRL_SELECT = true ∧
          BitField.GetValue (Truncate16 v) K.CTRL_TXEN = true ∧
          s.m_transmit_buffer_full = true)) ∧
      ((Pad.WriteRegister K s 0x0A v).m_state ≠ Pad.State.Transmitting →
        (Pad.WriteRegister K s 0x0A v).m_state = Pad.State.Idle)) := by
  constructor
  · intro hst hv
    by_cases hreset : BitField.GetValue (Truncate16 v) K.CTRL_RESET = true
    · have h := Pad.WriteRegister_ctrl_reset_fields K s v hreset
      refine ⟨h.1, ?_⟩
      rw [h.2.2.2.2.2.2.2.2.2.2, if_neg hst]
      rfl
    · have hreset2 : BitField.GetValue (Truncate16 v) K.CTRL_RESET = false := by
        simpa using hreset
      rw [Pad.WriteRegister_ctrl_no_reset K s v hreset2]
      have hor : (!BitField.GetValue (Truncate16 v) K.CTRL_SELECT ||
          !BitField.GetValue (Truncate16 v) K.CTRL_TXEN) = true := by
        rcases hv with h | h <;> simp [h]
      have hne : (s.m_state != Pad.State.Idle) = true := by simpa using hst
      simp only [hor, if_true, Pad.UpdateJoyStat, Pad.ResetDeviceTransferState,
        Pad.IsTransmitting, Pad.EndTransfer]
      split_ifs <;> simp_all [TimingEvent.Deactivate]
  · intro hst hreset
    rw [Pad.WriteRegister_ctrl_no_reset K s v hreset]
    by_cases hsel : BitField.GetValue (Truncate16 v) K.CTRL_SELECT = true
    · by_cases htx : BitField.GetValue (Truncate16 v) K.CTRL_TXEN = true
      · by_cases hfull : s.m_transmit_buffer_full = true
        · by_cases hack : BitField.GetValue (Truncate16 v) K.CTRL_ACK = true <;>
            simp [hsel, htx, hfull, hack, hst, Pad.UpdateJoyStat, Pad.IsTransmitting,
              Pad.CanTransfer, Pad.BeginTransfer]
        · by_cases hack : BitField.GetValue (Truncate16 v) K.CTRL_ACK = true <;>
            simp [hsel, htx, hfull, hack, hst, Pad.UpdateJoyStat, Pad.IsTransmitting,
              Pad.CanTransfer, Pad.BeginTransfer]
      · by_cases hack : BitField.GetValue (Truncate16 v) K.CTRL_ACK = true <;>
          simp [hsel, htx, hack, hst, Pad.UpdateJoyStat, Pad.IsTransmitting,
            Pad.CanTransfer, Pad.BeginTransfer, Pad.EndTransfer]
    · by_cases hack : BitField.GetValue (Truncate16 v) K.CTRL_ACK = true <;>
        simp [hsel, hack, hst, Pad.UpdateJoyStat, Pad.IsTransmitting,
          Pad.CanTransfer, Pad.BeginTransfer, Pad.EndTransfer, Pad.ResetDeviceTransferState]

/-- Witness of C14: the sample bus that is sending a byte goes Idle when 0x02
(SELECT without TXEN) is written; the idle sample bus with a queued byte
starts the transfer when 0x03 is written. -/
theorem Pad.WriteRegister_ctrl_transfer_witness :
    (Pad.sampleTap false).m_state ≠ Pad.State.Idle ∧
    BitField.GetValue (Truncate16 0x02) Pad.Decls.sampleTap.CTRL_TXEN = false ∧
    (Pad.WriteRegister Pad.Decls.sampleTap (Pad.sampleTap false) 0x0A 0x02).m_state
      = Pad.State.Idle ∧
    BitField.GetValue (Truncate16 0x03) Pad.Decls.sample.CTRL_RESET = false ∧
    (Pad.WriteRegister Pad.Decls.sample { Pad.sample with m_transmit_buffer_full := true }
      0x0A 0x03).m_state = Pad.State.Transmitting :=
  ⟨by decide, by decide,
   ((Pad.WriteRegister_ctrl_transfer Pad.Decls.sampleTap (Pad.sampleTap false) 0x02).1
      (by decide) (Or.inr (by decide))).1,
   by decide,
   ((Pad.WriteRegister_ctrl_transfer Pad.Decls.sample
      { Pad.sample with m_transmit_buffer_full := true } 0x03).2 rfl (by decide)).1.2
      ⟨by decide, by decide, rfl⟩⟩

/-- C15: writing `v` to the mode register (offset 0x08) changes only MODE, to
the low 16 bits of `v`, and writing `v` to the baud register (offset 0x0E)
changes only BAUD, to the low 16 bits of `v`; a read of the same offset
immediately afterwards returns `v mod 2^16` and changes nothing. -/
theorem Pad.WriteRegister_mode_baud {C M T : Type} (K : Pad.Decls C M T) (g : PointerSource)
    (due : Bool) (s : Pad C M T) (v : Nat) :
    Pad.WriteRegister K s 0x08 v = { s with m_JOY_MODE := v % 65536 } ∧
    Pad.ReadRegister K g due (Pad.WriteRegister K s 0x08 v) 0x08 =
      (Pad.WriteRegister K s 0x08 v, v % 65536) ∧
    Pad.WriteRegister K s 0x0E v = { s with m_JOY_BAUD := v % 65536 } ∧
    Pad.ReadRegister K g due (Pad.WriteRegister K s 0x0E v) 0x0E =
      (Pad.WriteRegister K s 0x0E v, v % 65536) := by
  have h1 : Pad.WriteRegister K s 0x08 v = { s with m_JOY_MODE := v % 65536 } := by
    simp [Pad.WriteRegister, Truncate16]
  have h2 : Pad.WriteRegister K s 0x0E v = { s with m_JOY_BAUD := v % 65536 } := by
    simp [Pad.WriteRegister, Truncate16]
  have h3 : v % 65536 % 4294967296 = v % 65536 := by omega
  refine ⟨h1, ?_, h2, ?_⟩
  · rw [h1]; simp [Pad.ReadRegister, ZeroExtend32, h3]
  · rw [h2]; simp [Pad.ReadRegister, ZeroExtend32, h3]

/-! ## Transfer tick of the bus -/

theorem BitField.GetIndex_eq (data index : Nat) :
    BitField.GetIndex data index = (BitField.GetValue data index).toNat := by
  unfold BitField.GetIndex BitField.GetValue
  rw [Nat.toNat_testBit, Nat.shiftRight_eq_div_pow]

theorem BitField.GetIndex_SetValue_of_ne (data i j : Nat) (value : Bool) (h : j ≠ i) :
    BitField.GetIndex (BitField.SetValue data i value) j = BitField.GetIndex data j := by
  rw [BitField.GetIndex_eq, BitField.GetIndex_eq, BitField.GetValue_SetValue, if_neg h]

theorem Pad.Decls.Valid.slot_ne_rxen {C M T : Type} {K : Pad.Decls C M T} (hK : K.Valid) :
    K.CTRL_SLOT ≠ K.CTRL_RXEN := by
  have h := hK.1
  simp only [List.nodup_cons, List.mem_cons, not_or] at h
  exact fun e => h.2.2.1.2.2.2.1 e.symm

theorem Pad.Decls.Valid.rxfifonempty_ne {C M T : Type} {K : Pad.Decls C M T} (hK : K.Valid) :
    K.STAT_RXFIFONEMPTY ≠ K.STAT_TXDONE ∧ K.STAT_RXFIFONEMPTY ≠ K.STAT_TXRDY := by
  have h := hK.2.2.1
  simp only [List.nodup_cons, List.mem_cons, not_or] at h
  exact ⟨h.2.1.1, fun e => h.1.1 e.symm⟩

theorem Pad.DoTransfer_of_nack {C M T : Type} (K : Pad.Decls C M T) (g : PointerSource)
    (s : Pad C M T) (h : (Pad.DoTransfer.exchange K g s).2.2 = false) :
    Pad.DoTransfer K g s =
      Pad.UpdateJoyStat K (Pad.EndTransfer
        { (Pad.DoTransfer.exchange K g s).1 with
          m_receive_buffer := (Pad.DoTransfer.exchange K g s).2.1
          m_receive_buffer_full := true
          m_active_device := Pad.ActiveDevice.None }) := by
  unfold Pad.DoTransfer.exchange at h ⊢
  unfold Pad.DoTransfer
  simp only [h, Bool.not_false, if_true]

theorem Pad.DoTransfer_of_ack {C M T : Type} (K : Pad.Decls C M T) (g : PointerSource)
    (s : Pad C M T) (h : (Pad.DoTransfer.exchange K g s).2.2 = true) :
    Pad.DoTransfer K g s =
      Pad.UpdateJoyStat K
        { (Pad.DoTransfer.exchange K g s).1 with
          m_receive_buffer := (Pad.DoTransfer.exchange K g s).2.1
          m_receive_buffer_full := true
          m_state := Pad.State.WaitingForACK
          m_transfer_event :=
            (Pad.DoTransfer.exchange K g s).1.m_transfer_event.SetPeriodAndSchedule
              (K.GetACKTicks
                ((Pad.DoTransfer.exchange K g s).1.m_active_device == Pad.ActiveDevice.MemoryCard ||
                  ((Pad.DoTransfer.exchange K g s).1.m_active_device == Pad.ActiveDevice.Multitap &&
                    K.multitap_IsReadingMemoryCard
                      ((Pad.DoTransfer.exchange K g s).1.m_multitaps
                        (BitField.GetIndex (Pad.DoTransfer.exchange K g s).1.m_JOY_CTRL
                          K.CTRL_SLOT))))) } := by
  unfold Pad.DoTransfer.exchange at h ⊢
  unfold Pad.DoTransfer
  simp only [h, Bool.not_true, Bool.false_eq_true, if_false]

theorem Pad.DoTransfer.exchange_locked_controller {C M T : Type} (K : Pad.Decls C M T)
    (g : PointerSource) (s : Pad C M T) (idx : Nat)
    (hidx : idx = if K.multitap_IsEnabled (s.m_multitaps 0) then 4
      else BitField.GetIndex s.m_JOY_CTRL K.CTRL_SLOT)
    (hact : s.m_active_device = Pad.ActiveDevice.Controller) :
    Pad.DoTransfer.exchange K g s =
      match s.m_controllers idx with
      | none =>
        ({ s with m_JOY_CTRL := BitField.SetValue s.m_JOY_CTRL K.CTRL_RXEN true }, 0xFF, false)
      | some c =>
        ({ s with
            m_JOY_CTRL := BitField.SetValue s.m_JOY_CTRL K.CTRL_RXEN true
            m_controllers := Function.update s.m_controllers idx
              (some (Controller.Transfer K.controller g c s.m_transmit_value).dev) },
          (Controller.Transfer K.controller g c s.m_transmit_value).data_out,
          (Controller.Transfer K.controller g c s.m_transmit_value).ack) := by
  subst hidx
  simp only [Pad.DoTransfer.exchange, Pad.DoTransfer.dispatch, hact]

theorem Pad.DoTransfer.exchange_locked_memory_card {C M T : Type} (K : Pad.Decls C M T)
    (g : PointerSource) (s : Pad C M T) (idx : Nat)
    (hidx : idx = if K.multitap_IsEnabled (s.m_multitaps 0) then 4
      else BitField.GetIndex s.m_JOY_CTRL K.CTRL_SLOT)
    (hact : s.m_active_device = Pad.ActiveDevice.MemoryCard) :
    Pad.DoTransfer.exchange K g s =
      match s.m_memory_cards idx with
      | none =>
        ({ s with m_JOY_CTRL := BitField.SetValue s.m_JOY_CTRL K.CTRL_RXEN true }, 0xFF, false)
      | some m =>
        ({ s with
            m_JOY_CTRL := BitField.SetValue s.m_JOY_CTRL K.CTRL_RXEN true
            m_memory_cards := Function.update s.m_memory_cards idx
              (some (K.memory_card.Transfer m s.m_transmit_value).dev) },
          (K.memory_card.Transfer m s.m_transmit_value).data_out,
          (K.memory_card.Transfer m s.m_transmit_value).ack) := by
  subst hidx
  simp only [Pad.DoTransfer.exchange, Pad.DoTransfer.dispatch, hact]

theorem Pad.DoTransfer.exchange_unlocked {C M T : Type} (K : Pad.Decls C M T) (hK : K.Valid)
    (g : PointerSource) (s : Pad C M T) (idx : Nat)
    (hidx : idx = if K.multitap_IsEnabled (s.m_multitaps 0) then 4
      else BitField.GetIndex s.m_JOY_CTRL K.CTRL_SLOT)
    (hact : s.m_active_device = Pad.ActiveDevice.None)
    (htap : K.multitap_IsEnabled
      (s.m_multitaps (BitField.GetIndex s.m_JOY_CTRL K.CTRL_SLOT)) = false) :
    Pad.DoTransfer.exchange K g s =
      match s.m_controllers idx with
      | none =>
        Pad.DoTransfer.tryMemoryCard K idx s.m_transmit_value (s.m_memory_cards idx)
          { s with m_JOY_CTRL := BitField.SetValue s.m_JOY_CTRL K.CTRL_RXEN true } 0xFF
      | some c =>
        if (Controller.Transfer K.controller g c s.m_transmit_value).ack then
          ({ s with
              m_JOY_CTRL := BitField.SetValue s.m_JOY_CTRL K.CTRL_RXEN true
              m_controllers := Function.update s.m_controllers idx
                (some (Controller.Transfer K.controller g c s.m_transmit_value).dev)
              m_active_device := Pad.ActiveDevice.Controller },
            (Controller.Transfer K.controller g c s.m_transmit_value).data_out, true)
        else
          Pad.DoTransfer.tryMemoryCard K idx s.m_transmit_value (s.m_memory_cards idx)
            { s with
              m_JOY_CTRL := BitField.SetValue s.m_JOY_CTRL K.CTRL_RXEN true
              m_controllers := Function.update s.m_controllers idx
                (some (Controller.Transfer K.controller g c s.m_transmit_value).dev) }
            (Controller.Transfer K.controller g c s.m_transmit_value).data_out := by
  subst hidx
  simp only [Pad.DoTransfer.exchange, Pad.DoTransfer.dispatch, hact,
    BitField.GetIndex_SetValue_of_ne _ _ _ _ hK.slot_ne_rxen, htap, Bool.false_eq_true,
    if_false]

/-- Counterexample to C16 as stated: on the sample bus sending 0x01 with
slot = 1 and the multitap of port 1 disabled, the fresh twist controller at
index 1 would acknowledge the byte.  With the multitap of port 0 disabled it
is consulted (the tick is acknowledged and the controller is left selected);
with the multitap of port 0 enabled it is not: the tick reads the empty
index 4, is not acknowledged, and the controller at index 1 is untouched. -/
theorem Pad.DoTransfer_device_index_counterexample :
    BitField.GetIndex (Pad.sampleTap true).m_JOY_CTRL Pad.Decls.sampleTap.CTRL_SLOT = 1 ∧
    Pad.Decls.sampleTap.multitap_IsEnabled ((Pad.sampleTap true).m_multitaps 1) = false ∧
    Pad.Decls.sampleTap.multitap_IsEnabled ((Pad.sampleTap true).m_multitaps 0) = true ∧
    (NeGcon.Transfer NeGcon.fresh 0x01).ack = true ∧
    (Pad.DoTransfer Pad.Decls.sampleTap PointerSource.onScreen (Pad.sampleTap true)).m_state
      = Pad.State.Idle ∧
    (Pad.DoTransfer Pad.Decls.sampleTap PointerSource.onScreen
      (Pad.sampleTap true)).m_active_device = Pad.ActiveDevice.None ∧
    (Pad.DoTransfer Pad.Decls.sampleTap PointerSource.onScreen
      (Pad.sampleTap true)).m_controllers 1 = some (Controller.NeGcon NeGcon.fresh) ∧
    (Pad.DoTransfer Pad.Decls.sampleTap PointerSource.onScreen (Pad.sampleTap false)).m_state
      = Pad.State.WaitingForACK ∧
    (Pad.DoTransfer Pad.Decls.sampleTap PointerSource.onScreen
      (Pad.sampleTap false)).m_controllers 1 = some (Controller.NeGcon NeGcon.selected) := by
  refine ⟨by decide, rfl, rfl, rfl, by decide, by decide, rfl, by decide, rfl⟩

/-- C16 (amended): in a transfer tick that does not go to a multitap
(activeDevice is Controller or MemoryCard, or it is None and the multitap of
the port selected by the CTRL slot bit is disabled), the controller and the
memory card consulted are those at index 4 if the multitap of port 0 is
enabled, whatever the slot bit, and otherwise those at the index given by the
CTRL slot bit: the devices at every other index are unchanged, a controller
present at that index receives the in-flight byte unless the memory card is
the locked device, and a memory card present there receives it when it is the
locked device.  So with slot = 1 and the multitap of port 1 disabled the
devices consulted are those at index 1 when the multitap of port 0 is
disabled and those at index 4 when it is enabled. -/
theorem Pad.DoTransfer_device_index {C M T : Type} (K : Pad.Decls C M T) (hK : K.Valid)
    (g : PointerSource) (s : Pad C M T) (idx : Nat)
    (hidx : idx = if K.multitap_IsEnabled (s.m_multitaps 0) then 4
      else BitField.GetIndex s.m_JOY_CTRL K.CTRL_SLOT)
    (hdisp : s.m_active_device = Pad.ActiveDevice.Controller ∨
      s.m_active_device = Pad.ActiveDevice.MemoryCard ∨
      (s.m_active_device = Pad.ActiveDevice.None ∧
        K.multitap_IsEnabled
          (s.m_multitaps (BitField.GetIndex s.m_JOY_CTRL K.CTRL_SLOT)) = false)) :
    (∀ j : Nat, j ≠ idx →
      (Pad.DoTransfer K g s).m_controllers j = s.m_controllers j ∧
      (Pad.DoTransfer K g s).m_memory_cards j = s.m_memory_cards j) ∧
    (s.m_active_device ≠ Pad.ActiveDevice.MemoryCard →
      ∀ c : Controller C, s.m_controllers idx = some c →
        (Pad.DoTransfer K g s).m_controllers idx =
          some (Controller.Transfer K.controller g c s.m_transmit_value).dev) ∧
    (s.m_active_device = Pad.ActiveDevice.MemoryCard →
      ∀ m : M, s.m_memory_cards idx = some m →
        (Pad.DoTransfer K g s).m_memory_cards idx =
          some (K.memory_card.Transfer m s.m_transmit_value).dev) ∧
    (BitField.GetIndex s.m_JOY_CTRL K.CTRL_SLOT = 1 →
      (K.multitap_IsEnabled (s.m_multitaps 0) = false → idx = 1) ∧
      (K.multitap_IsEnabled (s.m_multitaps 0) = true → idx = 4)) := by
  have hframe : ∀ r : Pad C M T × Nat × Bool, Pad.DoTransfer.exchange K g s = r →
      (Pad.DoTransfer K g s).m_controllers = r.1.m_controllers ∧
      (Pad.DoTransfer K g s).m_memory_cards = r.1.m_memory_cards := by
    intro r hr
    cases ha : (Pad.DoTransfer.exchange K g s).2.2
    · rw [Pad.DoTransfer_of_nack K g s ha, hr]
      exact ⟨rfl, rfl⟩
    · rw [Pad.DoTransfer_of_ack K g s ha, hr]
      exact ⟨rfl, rfl⟩
  have hslot : BitField.GetIndex s.m_JOY_CTRL K.CTRL_SLOT = 1 →
      (K.multitap_IsEnabled (s.m_multitaps 0) = false → idx = 1) ∧
      (K.multitap_IsEnabled (s.m_multitaps 0) = true → idx = 4) := by
    intro h1
    constructor
    · intro h0; rw [hidx, h0, h1]; rfl
    · intro h0; rw [hidx, h0]; rfl
  rcases hdisp with hact | hact | ⟨hact, htap⟩
  · have hex := Pad.DoTransfer.exchange_locked_controller K g s idx hidx hact
    cases hc : s.m_controllers idx with
    | none =>
      rw [hc] at hex
      obtain ⟨h1, h2⟩ := hframe _ hex
      rw [h1, h2]
      refine ⟨fun j _ => ⟨rfl, rfl⟩, fun _ c hcc => ?_, fun hm => ?_, hslot⟩
      · exact absurd hcc (by simp)
      · rw [hact] at hm; exact absurd hm (by decide)
    | some c =>
      rw [hc] at hex
      obtain ⟨h1, h2⟩ := hframe _ hex
      rw [h1, h2]
      refine ⟨fun j hj => ⟨?_, rfl⟩, fun _ c2 hcc => ?_, fun hm => ?_, hslot⟩
      · simp only [Function.update_noteq hj]
      · cases hcc
        simp only [Function.update_same]
      · rw [hact] at hm; exact absurd hm (by decide)
  · have hex := Pad.DoTransfer.exchange_locked_memory_card K g s idx hidx hact
    cases hc : s.m_memory_cards idx with
    | none =>
      rw [hc] at hex
      obtain ⟨h1, h2⟩ := hframe _ hex
      rw [h1, h2]
      refine ⟨fun j _ => ⟨rfl, rfl⟩, fun hm => absurd hact hm, fun _ m hmm => ?_, hslot⟩
      exact absurd hmm (by simp)
    | some m =>
      rw [hc] at hex
      obtain ⟨h1, h2⟩ := hframe _ hex
      rw [h1, h2]
      refine ⟨fun j hj => ⟨rfl, ?_⟩, fun hm => absurd hact hm, fun _ m2 hmm => ?_, hslot⟩
      · simp only [Function.update_noteq hj]
      · cases hmm
        simp only [Function.update_same]
  · have hex := Pad.DoTransfer.exchange_unlocked K hK g s idx hidx hact htap
    have hnm : s.m_active_device ≠ Pad.ActiveDevice.MemoryCard := by
      rw [hact]; decide
    cases hc : s.m_controllers idx with
    | none =>
      rw [hc] at hex
      cases hm : s.m_memory_cards idx with
      | none =>
        rw [hm] at hex
        obtain ⟨h1, h2⟩ := hframe _ hex
        rw [h1, h2]
        refine ⟨fun j _ => ⟨rfl, rfl⟩, fun _ c hcc => ?_, fun h => absurd h hnm, hslot⟩
        exact absurd hcc (by simp)
      | some m =>
        rw [hm] at hex
        obtain ⟨h1, h2⟩ := hframe _ hex
        rw [h1, h2]
        refine ⟨fun j hj => ?_, fun _ c hcc => ?_, fun h => absurd h hnm, hslot⟩
        · simp only [Pad.DoTransfer.tryMemoryCard]
          split_ifs <;> simp [Function.update_noteq hj]
        · exact absurd hcc (by simp)
    | some c =>
      rw [hc] at hex
      cases hm : s.m_memory_cards idx with
      | none =>
        rw [hm] at hex
        obtain ⟨h1, h2⟩ := hframe _ hex
        rw [h1, h2]
        refine ⟨fun j hj => ?_, fun _ c2 hcc => ?_, fun h => absurd h hnm, hslot⟩
        · simp only [Pad.DoTransfer.tryMemoryCard]
          split_ifs <;> simp [Function.update_noteq hj]
        · cases hcc
          simp only [Pad.DoTransfer.tryMemoryCard]
          split_ifs <;> simp
      | some m =>
        rw [hm] at hex
        obtain ⟨h1, h2⟩ := hframe _ hex
        rw [h1, h2]
        refine ⟨fun j hj => ?_, fun _ c2 hcc => ?_, fun h => absurd h hnm, hslot⟩
        · simp only [Pad.DoTransfer.tryMemoryCard]
          split_ifs <;> simp [Function.update_noteq hj]
        · cases hcc
          simp only [Pad.DoTransfer.tryMemoryCard]
          split_ifs <;> simp

/-- Witness of C16 (amended): on the sample bus with slot = 1 and the
multitap of port 0 enabled the index consulted is 4, and the twist
controller at index 1 is unchanged by the tick. -/
theorem Pad.DoTransfer_device_index_witness :
    Pad.Decls.sampleTap.Valid ∧
    (4 : Nat) = (if Pad.Decls.sampleTap.multitap_IsEnabled ((Pad.sampleTap true).m_multitaps 0)
      then 4 else BitField.GetIndex (Pad.sampleTap true).m_JOY_CTRL
        Pad.Decls.sampleTap.CTRL_SLOT) ∧
    (Pad.sampleTap true).m_active_device = Pad.ActiveDevice.None ∧
    (Pad.DoTransfer Pad.Decls.sampleTap PointerSource.onScreen
      (Pad.sampleTap true)).m_controllers 1 = (Pad.sampleTap true).m_controllers 1 :=
  ⟨by decide, by decide, rfl,
   ((Pad.DoTransfer_device_index Pad.Decls.sampleTap (by decide) PointerSource.onScreen
      (Pad.sampleTap true) 4 (by decide) (Or.inr (Or.inr ⟨rfl, rfl⟩))).1 1 (by decide)).1⟩

/-- C17: in a transfer tick with activeDevice None and the multitap of the
port selected by the CTRL slot bit disabled, with `idx` the index the tick
addresses: a controller present at `idx` that acknowledges the in-flight byte
makes activeDevice Controller, its byte is the received byte, and no memory
card changes state; when the controller is absent or does not acknowledge, a
memory card present at `idx` that acknowledges makes activeDevice MemoryCard;
when neither acknowledges or is present activeDevice stays None and the bus
goes Idle; and with both absent the received byte is 0xFF. -/
theorem Pad.DoTransfer_unlocked {C M T : Type} (K : Pad.Decls C M T) (hK : K.Valid)
    (g : PointerSource) (s : Pad C M T) (idx : Nat)
    (hidx : idx = if K.multitap_IsEnabled (s.m_multitaps 0) then 4
      else BitField.GetIndex s.m_JOY_CTRL K.CTRL_SLOT)
    (hact : s.m_active_device = Pad.ActiveDevice.None)
    (htap : K.multitap_IsEnabled
      (s.m_multitaps (BitField.GetIndex s.m_JOY_CTRL K.CTRL_SLOT)) = false) :
    (∀ c : Controller C, s.m_controllers idx = some c →
      (Controller.Transfer K.controller g c s.m_transmit_value).ack = true →
      (Pad.DoTransfer K g s).m_active_device = Pad.ActiveDevice.Controller ∧
      (Pad.DoTransfer K g s).m_memory_cards = s.m_memory_cards ∧
      (Pad.DoTransfer K g s).m_receive_buffer =
        (Controller.Transfer K.controller g c s.m_transmit_value).data_out ∧
      (Pad.DoTransfer K g s).m_state = Pad.State.WaitingForACK) ∧
    ((s.m_controllers idx = none ∨ ∃ c : Controller C, s.m_controllers idx = some c ∧
        (Controller.Transfer K.controller g c s.m_transmit_value).ack = false) →
      (∀ m : M, s.m_memory_cards idx = some m →
        (K.memory_card.Transfer m s.m_transmit_value).ack = true →
        (Pad.DoTransfer K g s).m_active_device = Pad.ActiveDevice.MemoryCard ∧
        (Pad.DoTransfer K g s).m_receive_buffer =
          (K.memory_card.Transfer m s.m_transmit_value).data_out ∧
        (Pad.DoTransfer K g s).m_state = Pad.State.WaitingForACK) ∧
      ((s.m_memory_cards idx = none ∨ ∃ m : M, s.m_memory_cards idx = some m ∧
          (K.memory_card.Transfer m s.m_transmit_value).ack = false) →
        (Pad.DoTransfer K g s).m_active_device = Pad.ActiveDevice.None ∧
        (Pad.DoTransfer K g s).m_state = Pad.State.Idle)) ∧
    (s.m_controllers idx = none → s.m_memory_cards idx = none →
      (Pad.DoTransfer K g s).m_receive_buffer = 0xFF ∧
      (Pad.DoTransfer K g s).m_controllers = s.m_controllers ∧
      (Pad.DoTransfer K g s).m_memory_cards = s.m_memory_cards) := by
  have hex := Pad.DoTransfer.exchange_unlocked K hK g s idx hidx hact htap
  have hfin : ∀ r : Pad C M T × Nat × Bool, Pad.DoTransfer.exchange K g s = r →
      (Pad.DoTransfer K g s).m_controllers = r.1.m_controllers ∧
      (Pad.DoTransfer K g s).m_memory_cards = r.1.m_memory_cards ∧
      (Pad.DoTransfer K g s).m_receive_buffer = r.2.1 ∧
      (r.2.2 = true → (Pad.DoTransfer K g s).m_state = Pad.State.WaitingForACK ∧
        (Pad.DoTransfer K g s).m_active_device = r.1.m_active_device) ∧
      (r.2.2 = false → (Pad.DoTransfer K g s).m_state = Pad.State.Idle ∧
        (Pad.DoTransfer K g s).m_active_device = Pad.ActiveDevice.None) := by
    intro r hr
    cases ha : (Pad.DoTransfer.exchange K g s).2.2
    · rw [Pad.DoTransfer_of_nack K g s ha]
      rw [hr] at ha ⊢
      refine ⟨rfl, rfl, rfl, fun h => ?_, fun _ => ⟨rfl, rfl⟩⟩
      rw [ha] at h; exact absurd h (by decide)
    · rw [Pad.DoTransfer_of_ack K g s ha]
      rw [hr] at ha ⊢
      refine ⟨rfl, rfl, rfl, fun _ => ⟨rfl, rfl⟩, fun h => ?_⟩
      rw [ha] at h; exact absurd h (by decide)
  refine ⟨?_, ?_, ?_⟩
  · intro c hc hca
    rw [hc] at hex
    simp only [hca, if_true] at hex
    obtain ⟨_, h2, h3, h4, _⟩ := hfin _ hex
    exact ⟨(h4 rfl).2, h2, h3, (h4 rfl).1⟩
  · intro hctl
    have hex2 : ∃ s1 : Pad C M T, ∃ d : Nat,
        s1.m_memory_cards = s.m_memory_cards ∧ s1.m_active_device = Pad.ActiveDevice.None ∧
        Pad.DoTransfer.exchange K g s =
          Pad.DoTransfer.tryMemoryCard K idx s.m_transmit_value (s.m_memory_cards idx) s1 d := by
      rcases hctl with hc | ⟨c, hc, hca⟩
      · rw [hc] at hex
        simp only at hex
        refine ⟨_, _, ?_, ?_, hex⟩
        · rfl
        · exact hact
      · rw [hc] at hex
        simp only [hca, Bool.false_eq_true, if_false] at hex
        refine ⟨_, _, ?_, ?_, hex⟩
        · rfl
        · exact hact
    obtain ⟨s1, d, hs1m, hs1a, hex3⟩ := hex2
    constructor
    · intro m hm hma
      rw [hm] at hex3
      simp only [Pad.DoTransfer.tryMemoryCard, hma, if_true] at hex3
      obtain ⟨_, _, h3, h4, _⟩ := hfin _ hex3
      exact ⟨(h4 rfl).2, h3, (h4 rfl).1⟩
    · intro hcard
      rcases hcard with hm | ⟨m, hm, hma⟩
      · rw [hm] at hex3
        simp only [Pad.DoTransfer.tryMemoryCard] at hex3
        obtain ⟨_, _, _, _, h5⟩ := hfin _ hex3
        exact ⟨(h5 rfl).2, (h5 rfl).1⟩
      · rw [hm] at hex3
        simp only [Pad.DoTransfer.tryMemoryCard, hma, Bool.false_eq_true, if_false] at hex3
        obtain ⟨_, _, _, _, h5⟩ := hfin _ hex3
        exact ⟨(h5 rfl).2, (h5 rfl).1⟩
  · intro hc hm
    rw [hc, hm] at hex
    simp only [Pad.DoTransfer.tryMemoryCard] at hex
    obtain ⟨h1, h2, h3, _, _⟩ := hfin _ hex
    exact ⟨h3, h1, h2⟩

/-- Witness of C17: on the sample bus sending 0x01 to the fresh twist
controller at index 1 (multitaps disabled), the controller acknowledges and
becomes the active device. -/
theorem Pad.DoTransfer_unlocked_witness :
    Pad.Decls.sampleTap.Valid ∧
    (1 : Nat) = (if Pad.Decls.sampleTap.multitap_IsEnabled ((Pad.sampleTap false).m_multitaps 0)
      then 4 else BitField.GetIndex (Pad.sampleTap false).m_JOY_CTRL
        Pad.Decls.sampleTap.CTRL_SLOT) ∧
    (Pad.sampleTap false).m_active_device = Pad.ActiveDevice.None ∧
    Pad.Decls.sampleTap.multitap_IsEnabled
      ((Pad.sampleTap false).m_multitaps
        (BitField.GetIndex (Pad.sampleTap false).m_JOY_CTRL Pad.Decls.sampleTap.CTRL_SLOT))
      = false ∧
    (Pad.sampleTap false).m_controllers 1 = some (Controller.NeGcon NeGcon.fresh) ∧
    (Pad.DoTransfer Pad.Decls.sampleTap PointerSource.onScreen
      (Pad.sampleTap false)).m_active_device = Pad.ActiveDevice.Controller :=
  ⟨by decide, by decide, rfl, by decide, rfl,
   ((Pad.DoTransfer_unlocked Pad.Decls.sampleTap (by decide) PointerSource.onScreen
      (Pad.sampleTap false) 1 (by decide) rfl (by decide)).1
      (Controller.NeGcon NeGcon.fresh) rfl rfl).1⟩

theorem Pad.DoTransfer_of_exchange {C M T : Type} (K : Pad.Decls C M T) (g : PointerSource)
    (s : Pad C M T) (r : Pad C M T × Nat × Bool) (hr : Pad.DoTransfer.exchange K g s = r) :
    (Pad.DoTransfer K g s).m_controllers = r.1.m_controllers ∧
    (Pad.DoTransfer K g s).m_memory_cards = r.1.m_memory_cards ∧
    (Pad.DoTransfer K g s).m_multitaps = r.1.m_multitaps ∧
    (Pad.DoTransfer K g s).m_receive_buffer = r.2.1 ∧
    (Pad.DoTransfer K g s).m_receive_buffer_full = true ∧
    (r.2.2 = true →
      (Pad.DoTransfer K g s).m_state = Pad.State.WaitingForACK ∧
      (Pad.DoTransfer K g s).m_active_device = r.1.m_active_device ∧
      (Pad.DoTransfer K g s).m_transfer_event.m_active = true) ∧
    (r.2.2 = false →
      (Pad.DoTransfer K g s).m_state = Pad.State.Idle ∧
      (Pad.DoTransfer K g s).m_active_device = Pad.ActiveDevice.None ∧
      (Pad.DoTransfer K g s).m_transfer_event.m_active = false) := by
  cases ha : (Pad.DoTransfer.exchange K g s).2.2
  · rw [Pad.DoTransfer_of_nack K g s ha]
    rw [hr] at ha ⊢
    refine ⟨rfl, rfl, rfl, rfl, rfl, fun h => ?_, fun _ => ⟨rfl, rfl, rfl⟩⟩
    rw [ha] at h; exact absurd h (by decide)
  · rw [Pad.DoTransfer_of_ack K g s ha]
    rw [hr] at ha ⊢
    refine ⟨rfl, rfl, rfl, rfl, rfl, fun _ => ⟨rfl, rfl, rfl⟩, fun h => ?_⟩
    rw [ha] at h; exact absurd h (by decide)

/-- C18: in a transfer tick with activeDevice Controller only the controller at
the addressed index `idx` receives the in-flight byte: the memory cards, the
multitaps and the controllers at other indices are unchanged, and the
received byte and the acknowledgement are the controller's.  With
activeDevice MemoryCard only the memory card at `idx` receives the byte and
the controllers and multitaps are unchanged.  When the locked device is no
longer present the received byte is 0xFF and the tick is not acknowledged:
the bus goes Idle with activeDevice None and the event deactivated. -/
theorem Pad.DoTransfer_locked {C M T : Type} (K : Pad.Decls C M T) (g : PointerSource)
    (s : Pad C M T) (idx : Nat)
    (hidx : idx = if K.multitap_IsEnabled (s.m_multitaps 0) then 4
      else BitField.GetIndex s.m_JOY_CTRL K.CTRL_SLOT) :
    (s.m_active_device = Pad.ActiveDevice.Controller →
      (Pad.DoTransfer K g s).m_memory_cards = s.m_memory_cards ∧
      (Pad.DoTransfer K g s).m_multitaps = s.m_multitaps ∧
      (∀ j : Nat, j ≠ idx → (Pad.DoTransfer K g s).m_controllers j = s.m_controllers j) ∧
      (∀ c : Controller C, s.m_controllers idx = some c →
        (Pad.DoTransfer K g s).m_controllers idx =
          some (Controller.Transfer K.controller g c s.m_transmit_value).dev ∧
        (Pad.DoTransfer K g s).m_receive_buffer =
          (Controller.Transfer K.controller g c s.m_transmit_value).data_out ∧
        ((Pad.DoTransfer K g s).m_state = Pad.State.WaitingForACK ↔
          (Controller.Transfer K.controller g c s.m_transmit_value).ack = true)) ∧
      (s.m_controllers idx = none →
        (Pad.DoTransfer K g s).m_controllers = s.m_controllers ∧
        (Pad.DoTransfer K g s).m_receive_buffer = 0xFF ∧
        (Pad.DoTransfer K g s).m_state = Pad.State.Idle ∧
        (Pad.DoTransfer K g s).m_active_device = Pad.ActiveDevice.None ∧
        (Pad.DoTransfer K g s).m_transfer_event.m_active = false)) ∧
    (s.m_active_device = Pad.ActiveDevice.MemoryCard →
      (Pad.DoTransfer K g s).m_controllers = s.m_controllers ∧
      (Pad.DoTransfer K g s).m_multitaps = s.m_multitaps ∧
      (∀ j : Nat, j ≠ idx → (Pad.DoTransfer K g s).m_memory_cards j = s.m_memory_cards j) ∧
      (∀ m : M, s.m_memory_cards idx = some m →
        (Pad.DoTransfer K g s).m_memory_cards idx =
          some (K.memory_card.Transfer m s.m_transmit_value).dev ∧
        (Pad.DoTransfer K g s).m_receive_buffer =
          (K.memory_card.Transfer m s.m_transmit_value).data_out ∧
        ((Pad.DoTransfer K g s).m_state = Pad.State.WaitingForACK ↔
          (K.memory_card.Transfer m s.m_transmit_value).ack = true)) ∧
      (s.m_memory_cards idx = none →
        (Pad.DoTransfer K g s).m_memory_cards = s.m_memory_cards ∧
        (Pad.DoTransfer K g s).m_receive_buffer = 0xFF ∧
        (Pad.DoTransfer K g s).m_state = Pad.State.Idle ∧
        (Pad.DoTransfer K g s).m_active_device = Pad.ActiveDevice.None ∧
        (Pad.DoTransfer K g s).m_transfer_event.m_active = false)) := by
  constructor
  · intro hact
    have hex := Pad.DoTransfer.exchange_locked_controller K g s idx hidx hact
    cases hc : s.m_controllers idx with
    | none =>
      rw [hc] at hex
      simp only at hex
      obtain ⟨h1, h2, h3, h4, _, _, h7⟩ := Pad.DoTransfer_of_exchange K g s _ hex
      refine ⟨h2, h3, fun j _ => by rw [h1], fun c hcc => absurd hcc (by simp), fun _ => ?_⟩
      exact ⟨h1, h4, (h7 rfl).1, (h7 rfl).2.1, (h7 rfl).2.2⟩
    | some c =>
      rw [hc] at hex
      simp only at hex
      obtain ⟨h1, h2, h3, h4, _, h6, h7⟩ := Pad.DoTransfer_of_exchange K g s _ hex
      refine ⟨h2, h3, fun j hj => ?_, fun c2 hcc => ?_, fun h => absurd h (by simp)⟩
      · rw [h1]; simp only [Function.update_noteq hj]
      · cases hcc
        refine ⟨by rw [h1]; simp only [Function.update_same], h4, ?_⟩
        cases hca : (Controller.Transfer K.controller g c s.m_transmit_value).ack
        · rw [(h7 hca).1]
          simp
        · rw [(h6 hca).1]
          simp
  · intro hact
    have hex := Pad.DoTransfer.exchange_locked_memory_card K g s idx hidx hact
    cases hc : s.m_memory_cards idx with
    | none =>
      rw [hc] at hex
      simp only at hex
      obtain ⟨h1, h2, h3, h4, _, _, h7⟩ := Pad.DoTransfer_of_exchange K g s _ hex
      refine ⟨h1, h3, fun j _ => by rw [h2], fun m hmm => absurd hmm (by simp), fun _ => ?_⟩
      exact ⟨h2, h4, (h7 rfl).1, (h7 rfl).2.1, (h7 rfl).2.2⟩
    | some m =>
      rw [hc] at hex
      simp only at hex
      obtain ⟨h1, h2, h3, h4, _, h6, h7⟩ := Pad.DoTransfer_of_exchange K g s _ hex
      refine ⟨h1, h3, fun j hj => ?_, fun m2 hmm => ?_, fun h => absurd h (by simp)⟩
      · rw [h2]; simp only [Function.update_noteq hj]
      · cases hmm
        refine ⟨by rw [h2]; simp only [Function.update_same], h4, ?_⟩
        cases hca : (K.memory_card.Transfer m s.m_transmit_value).ack
        · rw [(h7 hca).1]
          simp
        · rw [(h6 hca).1]
          simp

/-- Witness of C18: the sample bus locked to the controller of port 1 while
the slot at index 4 is addressed and empty: the received byte is 0xFF and the
bus goes Idle. -/
theorem Pad.DoTransfer_locked_witness :
    (4 : Nat) = (if Pad.Decls.sampleTap.multitap_IsEnabled ((Pad.sampleTap true).m_multitaps 0)
      then 4 else BitField.GetIndex (Pad.sampleTap true).m_JOY_CTRL
        Pad.Decls.sampleTap.CTRL_SLOT) ∧
    ({ Pad.sampleTap true with m_active_device := Pad.ActiveDevice.Controller }
      : Pad Unit Unit Bool).m_controllers 4 = none ∧
    (Pad.DoTransfer Pad.Decls.sampleTap PointerSource.onScreen
      { Pad.sampleTap true with
        m_active_device := Pad.ActiveDevice.Controller }).m_receive_buffer = 0xFF ∧
    (Pad.DoTransfer Pad.Decls.sampleTap PointerSource.onScreen
      { Pad.sampleTap true with
        m_active_device := Pad.ActiveDevice.Controller }).m_state = Pad.State.Idle :=
  ⟨by decide, rfl,
   (((Pad.DoTransfer_locked Pad.Decls.sampleTap PointerSource.onScreen
      { Pad.sampleTap true with m_active_device := Pad.ActiveDevice.Controller } 4
      (by decide)).1 rfl).2.2.2.2 rfl).2.1,
   (((Pad.DoTransfer_locked Pad.Decls.sampleTap PointerSource.onScreen
      { Pad.sampleTap true with m_active_device := Pad.ActiveDevice.Controller } 4
      (by decide)).1 rfl).2.2.2.2 rfl).2.2.1⟩

theorem Pad.DoTransfer.dispatch_ack_active {C M T : Type} (K : Pad.Decls C M T)
    (g : PointerSource) (device_index data_out : Nat) (controller : Option (Controller C))
    (memory_card : Option M) (s : Pad C M T)
    (h : (Pad.DoTransfer.dispatch K g device_index data_out controller memory_card s).2.2
      = true) :
    (Pad.DoTransfer.dispatch K g device_index data_out controller memory_card
      s).1.m_active_device ≠ Pad.ActiveDevice.None ∧
    (s.m_active_device ≠ Pad.ActiveDevice.None →
      (Pad.DoTransfer.dispatch K g device_index data_out controller memory_card
        s).1.m_active_device = s.m_active_device) ∧
    (s.m_active_device = Pad.ActiveDevice.None →
      (K.multitap_IsEnabled (s.m_multitaps (BitField.GetIndex s.m_JOY_CTRL K.CTRL_SLOT))
          = true →
        (Pad.DoTransfer.dispatch K g device_index data_out controller memory_card
          s).1.m_active_device = Pad.ActiveDevice.Multitap) ∧
      (K.multitap_IsEnabled (s.m_multitaps (BitField.GetIndex s.m_JOY_CTRL K.CTRL_SLOT))
          = false →
        (Pad.DoTransfer.dispatch K g device_index data_out controller memory_card
            s).1.m_active_device = Pad.ActiveDevice.Controller ∨
          (Pad.DoTransfer.dispatch K g device_index data_out controller memory_card
            s).1.m_active_device = Pad.ActiveDevice.MemoryCard)) := by
  unfold Pad.DoTransfer.dispatch Pad.DoTransfer.tryMemoryCard at h ⊢
  cases hact : s.m_active_device
  · simp only [hact] at h ⊢
    by_cases htap : K.multitap_IsEnabled
        (s.m_multitaps (BitField.GetIndex s.m_JOY_CTRL K.CTRL_SLOT)) = true
    · simp only [htap, if_true] at h ⊢
      split_ifs at h ⊢
      simp
    · simp only [htap, Bool.false_eq_true, if_false] at h ⊢
      cases controller with
      | none =>
        cases memory_card with
        | none => simp at h
        | some m =>
          simp only at h ⊢
          split_ifs at h ⊢
          simp
      | some c =>
        simp only at h ⊢
        split_ifs at h ⊢ with hr
        · simp
        · cases memory_card with
          | none => simp at h
          | some m =>
            simp only at h ⊢
            split_ifs at h ⊢
            simp
  · simp only [hact] at h ⊢
    cases controller with
    | none => simp at h
    | some c => simp [hact]
  · simp only [hact] at h ⊢
    cases memory_card with
    | none => simp at h
    | some m => simp [hact]
  · simp only [hact] at h ⊢
    split_ifs at h ⊢
    simp [hact]

theorem Pad.Decls.Valid.ackinput_ne {C M T : Type} {K : Pad.Decls C M T} (hK : K.Valid) :
    K.STAT_ACKINPUT ≠ K.STAT_RXFIFONEMPTY ∧ K.STAT_ACKINPUT ≠ K.STAT_TXDONE ∧
      K.STAT_ACKINPUT ≠ K.STAT_TXRDY ∧ K.STAT_ACKINPUT ≠ K.STAT_INTR := by
  have h := hK.2.2.1
  simp only [List.nodup_cons, List.mem_cons, not_or] at h
  refine ⟨fun e => h.2.1.2.1 e.symm, fun e => h.2.2.1.1 e.symm, fun e => h.1.2.2.1 e.symm,
    h.2.2.2.1.1⟩

theorem Pad.TransferEvent_of_waiting {C M T : Type} (K : Pad.Decls C M T) (g : PointerSource)
    (s : Pad C M T) (hst : s.m_state = Pad.State.WaitingForACK) :
    Pad.TransferEvent K g s = Pad.DoACK K s := by
  simp [Pad.TransferEvent, hst]

theorem Pad.DoACK_JOY_STAT {C M T : Type} (K : Pad.Decls C M T) (s : Pad C M T) :
    (Pad.DoACK K s).m_JOY_STAT =
      (Pad.UpdateJoyStat K (Pad.EndTransfer
        (if BitField.GetValue s.m_JOY_CTRL K.CTRL_ACKINTEN then
          { s with
            m_JOY_STAT := BitField.SetValue
              (BitField.SetValue s.m_JOY_STAT K.STAT_ACKINPUT true) K.STAT_INTR true
            irq7_requests := s.irq7_requests + 1 }
        else
          { s with m_JOY_STAT := BitField.SetValue s.m_JOY_STAT K.STAT_ACKINPUT true }))).m_JOY_STAT
      ∧
    (Pad.DoACK K s).irq7_requests =
      (if BitField.GetValue s.m_JOY_CTRL K.CTRL_ACKINTEN then s.irq7_requests + 1
       else s.irq7_requests) := by
  unfold Pad.DoACK
  simp only
  split_ifs <;> exact ⟨rfl, rfl⟩

/-- C21: after the acknowledge tick of a bus in WaitingForACK the ack-received
bit of STAT is true.  If the acknowledge-interrupt-enable bit of CTRL is set,
the interrupt-pending bit of STAT is true and the number of requests raised
on interrupt line 7 has grown by exactly one; if it is clear, the
interrupt-pending bit is the one before the tick and no request is raised.
The register fields are distinct bits. -/
theorem Pad.TransferEvent_ack_flags {C M T : Type} (K : Pad.Decls C M T) (hK : K.Valid)
    (g : PointerSource) (s : Pad C M T) (hst : s.m_state = Pad.State.WaitingForACK) :
    BitField.GetValue (Pad.TransferEvent K g s).m_JOY_STAT K.STAT_ACKINPUT = true ∧
    (BitField.GetValue s.m_JOY_CTRL K.CTRL_ACKINTEN = true →
      BitField.GetValue (Pad.TransferEvent K g s).m_JOY_STAT K.STAT_INTR = true ∧
      (Pad.TransferEvent K g s).irq7_requests = s.irq7_requests + 1) ∧
    (BitField.GetValue s.m_JOY_CTRL K.CTRL_ACKINTEN = false →
      BitField.GetValue (Pad.TransferEvent K g s).m_JOY_STAT K.STAT_INTR =
        BitField.GetValue s.m_JOY_STAT K.STAT_INTR ∧
      (Pad.TransferEvent K g s).irq7_requests = s.irq7_requests) := by
  obtain ⟨ha1, ha2, ha3, ha4⟩ := hK.ackinput_ne
  obtain ⟨hi1, hi2, hi3⟩ := hK.intr_ne
  obtain ⟨hstat, hirq⟩ := Pad.DoACK_JOY_STAT K s
  rw [Pad.TransferEvent_of_waiting K g s hst, hstat, hirq]
  refine ⟨?_, ?_, ?_⟩
  · rw [Pad.UpdateJoyStat_GetValue K _ _ ha1 ha2 ha3]
    by_cases hen : BitField.GetValue s.m_JOY_CTRL K.CTRL_ACKINTEN = true
    · simp [hen, Pad.EndTransfer, BitField.GetValue_SetValue, ha4]
    · simp [hen, Pad.EndTransfer, BitField.GetValue_SetValue]
  · intro hen
    rw [Pad.UpdateJoyStat_GetValue K _ _ hi1 hi2 hi3]
    simp [hen, Pad.EndTransfer, BitField.GetValue_SetValue]
  · intro hen
    rw [Pad.UpdateJoyStat_GetValue K _ _ hi1 hi2 hi3]
    have hne : K.STAT_INTR ≠ K.STAT_ACKINPUT := fun e => ha4 e.symm
    simp [hen, Pad.EndTransfer, BitField.GetValue_SetValue, hne]

/-- Witness of C21: the sample bus waiting for the acknowledge tick with
control register 0x1003 (ACKINTEN, SELECT and TXEN): the tick sets the
ack-received bit and raises one request on interrupt line 7. -/
theorem Pad.TransferEvent_ack_flags_witness :
    Pad.Decls.sample.Valid ∧
    ({ Pad.sample with m_state := Pad.State.WaitingForACK, m_JOY_CTRL := 0x1003 }
      : Pad Unit Unit Unit).m_state = Pad.State.WaitingForACK ∧
    BitField.GetValue
      (Pad.TransferEvent Pad.Decls.sample PointerSource.onScreen
        { Pad.sample with m_state := Pad.State.WaitingForACK, m_JOY_CTRL := 0x1003 }).m_JOY_STAT
      Pad.Decls.sample.STAT_ACKINPUT = true ∧
    (Pad.TransferEvent Pad.Decls.sample PointerSource.onScreen
      { Pad.sample with m_state := Pad.State.WaitingForACK,
                        m_JOY_CTRL := 0x1003 }).irq7_requests = 1 :=
  ⟨Pad.Decls.sample_valid, rfl,
   (Pad.TransferEvent_ack_flags Pad.Decls.sample Pad.Decls.sample_valid PointerSource.onScreen
      { Pad.sample with m_state := Pad.State.WaitingForACK, m_JOY_CTRL := 0x1003 } rfl).1,
   ((Pad.TransferEvent_ack_flags Pad.Decls.sample Pad.Decls.sample_valid PointerSource.onScreen
      { Pad.sample with m_state := Pad.State.WaitingForACK, m_JOY_CTRL := 0x1003 } rfl).2.1
      (by decide)).2⟩

/-- C22: after the acknowledge tick of a bus in WaitingForACK, if the transmit
buffer was full and CTRL asserts device-select and transmit-enable, the bus
is Transmitting with the timing event scheduled after the transfer tick
count, the in-flight value equal to the byte that was in the transmit buffer
and the transmit-full flag cleared; otherwise the bus is Idle with the event
deactivated.  The tick alone decides this: no register write takes part. -/
theorem Pad.TransferEvent_ack_chain {C M T : Type} (K : Pad.Decls C M T) (g : PointerSource)
    (s : Pad C M T) (hst : s.m_state = Pad.State.WaitingForACK) :
    ((s.m_transmit_buffer_full = true ∧
        BitField.GetValue s.m_JOY_CTRL K.CTRL_SELECT = true ∧
        BitField.GetValue s.m_JOY_CTRL K.CTRL_TXEN = true) →
      (Pad.TransferEvent K g s).m_state = Pad.State.Transmitting ∧
      (Pad.TransferEvent K g s).m_transfer_event =
        { m_active := true, m_period := K.GetTransferTicks s.m_JOY_BAUD } ∧
      (Pad.TransferEvent K g s).m_transmit_value = s.m_transmit_buffer ∧
      (Pad.TransferEvent K g s).m_transmit_buffer_full = false) ∧
    (¬ (s.m_transmit_buffer_full = true ∧
        BitField.GetValue s.m_JOY_CTRL K.CTRL_SELECT = true ∧
        BitField.GetValue s.m_JOY_CTRL K.CTRL_TXEN = true) →
      (Pad.TransferEvent K g s).m_state = Pad.State.Idle ∧
      (Pad.TransferEvent K g s).m_transfer_event.m_active = false ∧
      (Pad.TransferEvent K g s).m_transmit_buffer_full = s.m_transmit_buffer_full) := by
  rw [Pad.TransferEvent_of_waiting K g s hst]
  constructor
  · rintro ⟨hf, hsel, htx⟩
    unfold Pad.DoACK
    simp only
    split_ifs with hen hc hc
    · exact ⟨rfl, rfl, rfl, rfl⟩
    · simp [Pad.CanTransfer, Pad.UpdateJoyStat, Pad.EndTransfer, hf, hsel, htx] at hc
    · exact ⟨rfl, rfl, rfl, rfl⟩
    · simp [Pad.CanTransfer, Pad.UpdateJoyStat, Pad.EndTransfer, hf, hsel, htx] at hc
  · intro hn
    unfold Pad.DoACK
    simp only
    split_ifs with hen hc hc
    · simp only [Pad.CanTransfer, Pad.UpdateJoyStat, Pad.EndTransfer, Bool.and_eq_true] at hc
      exact absurd ⟨hc.1.1, hc.1.2, hc.2⟩ hn
    · exact ⟨rfl, rfl, rfl⟩
    · simp only [Pad.CanTransfer, Pad.UpdateJoyStat, Pad.EndTransfer, Bool.and_eq_true] at hc
      exact absurd ⟨hc.1.1, hc.1.2, hc.2⟩ hn
    · exact ⟨rfl, rfl, rfl⟩

/-- Witness of C22: the waiting sample bus with the byte 0x42 queued and
control register 0x1003 starts the next transfer at the acknowledge tick. -/
theorem Pad.TransferEvent_ack_chain_witness :
    ({ Pad.sample with m_state := Pad.State.WaitingForACK, m_JOY_CTRL := 0x1003,
                       m_transmit_buffer := 0x42, m_transmit_buffer_full := true }
      : Pad Unit Unit Unit).m_state = Pad.State.WaitingForACK ∧
    (Pad.TransferEvent Pad.Decls.sample PointerSource.onScreen
      { Pad.sample with m_state := Pad.State.WaitingForACK, m_JOY_CTRL := 0x1003,
                        m_transmit_buffer := 0x42, m_transmit_buffer_full := true }).m_state
      = Pad.State.Transmitting ∧
    (Pad.TransferEvent Pad.Decls.sample PointerSource.onScreen
      { Pad.sample with m_state := Pad.State.WaitingForACK, m_JOY_CTRL := 0x1003,
                        m_transmit_buffer := 0x42,
                        m_transmit_buffer_full := true }).m_transmit_value = 0x42 :=
  ⟨rfl,
   ((Pad.TransferEvent_ack_chain Pad.Decls.sample PointerSource.onScreen
      { Pad.sample with m_state := Pad.State.WaitingForACK, m_JOY_CTRL := 0x1003,
                        m_transmit_buffer := 0x42, m_transmit_buffer_full := true } rfl).1
      ⟨rfl, by decide, by decide⟩).1,
   ((Pad.TransferEvent_ack_chain Pad.Decls.sample PointerSource.onScreen
      { Pad.sample with m_state := Pad.State.WaitingForACK, m_JOY_CTRL := 0x1003,
                        m_transmit_buffer := 0x42, m_transmit_buffer_full := true } rfl).1
      ⟨rfl, by decide, by decide⟩).2.2.1⟩

/-! ## Button register of the twist controller -/

theorem NeGcon.indices_getD_lt (b : Nat) (hb : b < 8) : NeGcon.indices.getD b 0 < 16 := by
  interval_cases b <;> decide

theorem NeGcon.indices_getD_injective (b1 b2 : Nat) (h1 : b1 < 8) (h2 : b2 < 8)
    (h : NeGcon.indices.getD b1 0 = NeGcon.indices.getD b2 0) : b1 = b2 := by
  interval_cases b1 <;> interval_cases b2 <;> first | rfl | (exact absurd h (by decide))

theorem NeGcon.SetButtonState_of_valid (d : NeGcon) (b : Nat) (hb : b < 8) (pressed : Bool) :
    NeGcon.SetButtonState d (b : Int) pressed = NeGcon.SetButtonStateOrdinal d b pressed := by
  have h1 : ¬ ((b : Int) < 0 ∨ (b : Int) ≥ (NeGcon.ButtonCount : Int)) := by
    simp only [NeGcon.ButtonCount]
    omega
  simp only [NeGcon.SetButtonState, if_neg h1, Int.toNat_ofNat]

/-- C27: for the twist controller and every button code `b` from 0 to 7, with
`table = [3, 4, 5, 6, 7, 11, 12, 13]`: `SetButtonState(b, true)` clears bit
`table[b]` of the button register and `SetButtonState(b, false)` sets it,
every other bit of the 16-bit register and every other member of the device
staying as it was; distinct button codes have distinct bits, all below 16; a
code below 0 or at least 8 leaves the device unchanged.  A released button
therefore shows as a 1 in the register, whose low and high bytes are the
button bytes `Transfer` emits. -/
theorem NeGcon.SetButtonState_bits (d : NeGcon) :
    NeGcon.indices = [3, 4, 5, 6, 7, 11, 12, 13] ∧
    (∀ b : Nat, b < 8 →
      NeGcon.indices.getD b 0 < 16 ∧
      (NeGcon.SetButtonState d (b : Int) true).m_button_state.testBit
        (NeGcon.indices.getD b 0) = false ∧
      (NeGcon.SetButtonState d (b : Int) false).m_button_state.testBit
        (NeGcon.indices.getD b 0) = true ∧
      (∀ j : Nat, j < 16 → j ≠ NeGcon.indices.getD b 0 →
        (NeGcon.SetButtonState d (b : Int) true).m_button_state.testBit j =
          d.m_button_state.testBit j ∧
        (NeGcon.SetButtonState d (b : Int) false).m_button_state.testBit j =
          d.m_button_state.testBit j) ∧
      (∀ pressed : Bool,
        (NeGcon.SetButtonState d (b : Int) pressed).m_axis_state = d.m_axis_state ∧
        (NeGcon.SetButtonState d (b : Int) pressed).m_transfer_state = d.m_transfer_state)) ∧
    (∀ b1 b2 : Nat, b1 < 8 → b2 < 8 → b1 ≠ b2 →
      NeGcon.indices.getD b1 0 ≠ NeGcon.indices.getD b2 0) ∧
    (∀ (code : Int) (pressed : Bool), code < 0 ∨ code ≥ 8 →
      NeGcon.SetButtonState d code pressed = d) ∧
    (∀ x : Nat,
      (NeGcon.Transfer { d with m_transfer_state := NeGcon.TransferState.ButtonsLSB } x).data_out
        = d.m_button_state % 256 ∧
      (NeGcon.Transfer { d with m_transfer_state := NeGcon.TransferState.ButtonsMSB } x).data_out
        = d.m_button_state / 256 % 256) := by
  refine ⟨rfl, ?_, ?_, ?_, ?_⟩
  · intro b hb
    have hlt := NeGcon.indices_getD_lt b hb
    rw [NeGcon.SetButtonState_of_valid d b hb, NeGcon.SetButtonState_of_valid d b hb]
    refine ⟨hlt, ?_, ?_, ?_, ?_⟩
    · have h := NamcoGunCon.testBit_clearButtonBit d.m_button_state
        (NeGcon.indices.getD b 0) (NeGcon.indices.getD b 0) hlt hlt
      simp only [NamcoGunCon.clearButtonBit] at h
      simp only [NeGcon.SetButtonStateOrdinal, if_true, h]
      simp
    · have h := NamcoGunCon.testBit_setButtonBit d.m_button_state
        (NeGcon.indices.getD b 0) (NeGcon.indices.getD b 0)
      simp only [NamcoGunCon.setButtonBit] at h
      simp only [NeGcon.SetButtonStateOrdinal, Bool.false_eq_true, if_false, h]
      simp
    · intro j hj hne
      constructor
      · have h := NamcoGunCon.testBit_clearButtonBit d.m_button_state
          (NeGcon.indices.getD b 0) j hlt hj
        simp only [NamcoGunCon.clearButtonBit] at h
        simp only [NeGcon.SetButtonStateOrdinal, if_true]
        rw [h, decide_eq_true hne, Bool.and_true]
      · have h := NamcoGunCon.testBit_setButtonBit d.m_button_state
          (NeGcon.indices.getD b 0) j
        simp only [NamcoGunCon.setButtonBit] at h
        simp only [NeGcon.SetButtonStateOrdinal, Bool.false_eq_true, if_false]
        rw [h, decide_eq_false hne, Bool.or_false]
    · intro pressed
      rw [NeGcon.SetButtonState_of_valid d b hb]
      cases pressed <;> exact ⟨rfl, rfl⟩
  · intro b1 b2 h1 h2 hne h
    exact hne (NeGcon.indices_getD_injective b1 b2 h1 h2 h)
  · intro code pressed hc
    have hc2 : code < 0 ∨ code ≥ (NeGcon.ButtonCount : Int) := by
      simp only [NeGcon.ButtonCount]
      omega
    simp only [NeGcon.SetButtonState, if_pos hc2]
  · intro x
    constructor
    · simp [NeGcon.Transfer, Truncate8]
    · simp [NeGcon.Transfer, Truncate8, Nat.shiftRight_eq_div_pow]

/-- Witness of C27: pressing button 5 of a fresh twist controller clears
bit 11 of its button register. -/
theorem NeGcon.SetButtonState_bits_witness :
    (5 : Nat) < 8 ∧ NeGcon.indices.getD 5 0 = 11 ∧
    (NeGcon.SetButtonState NeGcon.fresh ((5 : Nat) : Int) true).m_button_state.testBit
      (NeGcon.indices.getD 5 0) = false ∧
    (NeGcon.SetButtonState NeGcon.fresh ((5 : Nat) : Int) true).m_button_state = 0xF7FF :=
  ⟨by decide, rfl, ((NeGcon.SetButtonState_bits NeGcon.fresh).2.1 5 (by decide)).2.1,
   by decide⟩

/-! ## Position bytes of the light gun -/

/-- C29: the light gun samples the pointer only in the `Transfer` call made in
the X-low state.  The calls made in the X-high, Y-low and Y-high states leave
both position latches as they are, whatever the pointer source is at those
calls, so the four position bytes of a packet are the low and high byte of
the X and of the Y that `UpdatePosition` computed from the pointer source of
the X-low call. -/
theorem NamcoGunCon.position_sampled_once (d : NamcoGunCon)
    (g1 g2 g3 g4 : PointerSource) (b1 b2 b3 b4 : Nat)
    (hst : d.m_transfer_state = NamcoGunCon.TransferState.XLSB) :
    (∀ (e : NamcoGunCon) (g : PointerSource) (b : Nat),
      (e.m_transfer_state = NamcoGunCon.TransferState.XMSB ∨
        e.m_transfer_state = NamcoGunCon.TransferState.YLSB ∨
        e.m_transfer_state = NamcoGunCon.TransferState.YMSB) →
      (NamcoGunCon.Transfer e g b).dev.m_position_x = e.m_position_x ∧
      (NamcoGunCon.Transfer e g b).dev.m_position_y = e.m_position_y) ∧
    (NamcoGunCon.Transfers d [(g1, b1), (g2, b2), (g3, b3), (g4, b4)]).2 =
      [((NamcoGunCon.UpdatePosition d g1).m_position_x % 256, true),
       ((NamcoGunCon.UpdatePosition d g1).m_position_x / 256, true),
       ((NamcoGunCon.UpdatePosition d g1).m_position_y % 256, true),
       ((NamcoGunCon.UpdatePosition d g1).m_position_y / 256, false)] ∧
    (NamcoGunCon.Transfers d [(g1, b1), (g2, b2), (g3, b3), (g4, b4)]).1.m_position_x =
      (NamcoGunCon.UpdatePosition d g1).m_position_x ∧
    (NamcoGunCon.Transfers d [(g1, b1), (g2, b2), (g3, b3), (g4, b4)]).1.m_position_y =
      (NamcoGunCon.UpdatePosition d g1).m_position_y := by
  constructor
  · intro e g b he
    obtain ⟨ebs, epx, epy, eso, ets⟩ := e
    simp only at he
    rcases he with h | h | h <;> subst h <;> exact ⟨rfl, rfl⟩
  · have hw := NamcoGunCon.UpdatePosition_with_transfer_state d g1
    have hlt := NamcoGunCon.UpdatePosition_position_lt d g1
    generalize NamcoGunCon.UpdatePosition d g1 = u at hw hlt ⊢
    obtain ⟨bs, px, py, so, ts⟩ := d
    obtain ⟨ubs, upx, upy, uso, uts⟩ := u
    simp only at hst hlt
    subst hst
    obtain ⟨hx, hy⟩ := hlt
    have hu := hw NamcoGunCon.TransferState.XLSB
    have hxh : (upx >>> 8) % 256 = upx / 256 := by
      rw [Nat.shiftRight_eq_div_pow]; omega
    have hyh : (upy >>> 8) % 256 = upy / 256 := by
      rw [Nat.shiftRight_eq_div_pow]; omega
    simp [NamcoGunCon.Transfers, NamcoGunCon.Transfer, hu, Truncate8, hxh, hyh]

/-- Witness of C29: a light gun in the X-low state pointed at the screen,
whose pointer leaves the window before the other three bytes are read: the
bytes are those of the on-screen position. -/
theorem NamcoGunCon.position_sampled_once_witness :
    ({ NamcoGunCon.fresh with m_transfer_state := NamcoGunCon.TransferState.XLSB }
      : NamcoGunCon).m_transfer_state = NamcoGunCon.TransferState.XLSB ∧
    (NamcoGunCon.Transfers
        { NamcoGunCon.fresh with m_transfer_state := NamcoGunCon.TransferState.XLSB }
        [(PointerSource.onScreen, 0), (PointerSource.offScreen, 0),
         (PointerSource.offScreen, 0), (PointerSource.offScreen, 0)]).2 =
      [(114, true), (0, true), (66, true), (0, false)] :=
  ⟨rfl,
   ((NamcoGunCon.position_sampled_once
      { NamcoGunCon.fresh with m_transfer_state := NamcoGunCon.TransferState.XLSB }
      PointerSource.onScreen PointerSource.offScreen PointerSource.offScreen
      PointerSource.offScreen 0 0 0 0 rfl).2.1).trans (by decide)⟩

/-! ## The timing event is scheduled exactly while a transfer is in flight -/

theorem Pad.EventMatchesState_iff {C M T : Type} (s : Pad C M T) :
    s.EventMatchesState ↔
      ((s.m_state = Pad.State.Idle ∧ s.m_transfer_event.m_active = false) ∨
        (s.m_state ≠ Pad.State.Idle ∧ s.m_transfer_event.m_active = true)) := by
  unfold Pad.EventMatchesState
  cases s.m_transfer_event.m_active <;> by_cases h : s.m_state = Pad.State.Idle <;> simp [h]

theorem Pad.EndTransfer_matches {C M T : Type} (s : Pad C M T) :
    (Pad.EndTransfer s).EventMatchesState := by
  rw [Pad.EventMatchesState_iff]
  exact Or.inl ⟨rfl, rfl⟩

theorem Pad.BeginTransfer_matches {C M T : Type} (K : Pad.Decls C M T) (s : Pad C M T) :
    (Pad.BeginTransfer K s).EventMatchesState := by
  rw [Pad.EventMatchesState_iff]
  exact Or.inr ⟨by simp [Pad.BeginTransfer], rfl⟩

theorem Pad.EventMatchesState_congr {C M T : Type} {s s2 : Pad C M T}
    (h : s.EventMatchesState) (h1 : s2.m_state = s.m_state)
    (h2 : s2.m_transfer_event = s.m_transfer_event) : s2.EventMatchesState := by
  unfold Pad.EventMatchesState at h ⊢
  rw [h1, h2]
  exact h

theorem Pad.SoftReset_matches {C M T : Type} (K : Pad.Decls C M T) (s : Pad C M T)
    (h : s.EventMatchesState) :
    (Pad.SoftReset K s).EventMatchesState ∧ (Pad.SoftReset K s).m_state = Pad.State.Idle ∧
      (Pad.SoftReset K s).m_transfer_event.m_active = false := by
  rw [Pad.EventMatchesState_iff] at h ⊢
  by_cases hi : s.m_state = Pad.State.Idle
  · have ha : s.m_transfer_event.m_active = false := by
      rcases h with h | h
      · exact h.2
      · exact absurd hi h.1
    have e1 : (Pad.SoftReset K s).m_state = Pad.State.Idle := by
      simp [Pad.SoftReset, Pad.IsTransmitting, hi, Pad.UpdateJoyStat,
        Pad.ResetDeviceTransferState]
    have e2 : (Pad.SoftReset K s).m_transfer_event.m_active = false := by
      simp [Pad.SoftReset, Pad.IsTransmitting, hi, Pad.UpdateJoyStat,
        Pad.ResetDeviceTransferState, ha]
    exact ⟨Or.inl ⟨e1, e2⟩, e1, e2⟩
  · have e1 : (Pad.SoftReset K s).m_state = Pad.State.Idle := by
      simp [Pad.SoftReset, Pad.IsTransmitting, hi, Pad.UpdateJoyStat,
        Pad.ResetDeviceTransferState, Pad.EndTransfer]
    have e2 : (Pad.SoftReset K s).m_transfer_event.m_active = false := by
      simp [Pad.SoftReset, Pad.IsTransmitting, hi, Pad.UpdateJoyStat,
        Pad.ResetDeviceTransferState, Pad.EndTransfer, TimingEvent.Deactivate]
    exact ⟨Or.inl ⟨e1, e2⟩, e1, e2⟩

theorem Pad.DoTransfer_matches {C M T : Type} (K : Pad.Decls C M T) (g : PointerSource)
    (s : Pad C M T) : (Pad.DoTransfer K g s).EventMatchesState := by
  rw [Pad.EventMatchesState_iff]
  obtain ⟨_, _, _, _, _, h6, h7⟩ := Pad.DoTransfer_of_exchange K g s _ rfl
  cases ha : (Pad.DoTransfer.exchange K g s).2.2
  · exact Or.inl ⟨(h7 ha).1, (h7 ha).2.2⟩
  · refine Or.inr ⟨?_, (h6 ha).2.2⟩
    rw [(h6 ha).1]
    decide

theorem Pad.DoACK_matches {C M T : Type} (K : Pad.Decls C M T) (s : Pad C M T) :
    (Pad.DoACK K s).EventMatchesState := by
  unfold Pad.DoACK
  simp only
  split_ifs
  · exact Pad.BeginTransfer_matches K _
  · exact Pad.EventMatchesState_congr (Pad.EndTransfer_matches _) rfl rfl
  · exact Pad.BeginTransfer_matches K _
  · exact Pad.EventMatchesState_congr (Pad.EndTransfer_matches _) rfl rfl

theorem Pad.TransferEvent_matches {C M T : Type} (K : Pad.Decls C M T) (g : PointerSource)
    (s : Pad C M T) : (Pad.TransferEvent K g s).EventMatchesState := by
  unfold Pad.TransferEvent
  split_ifs
  · exact Pad.DoTransfer_matches K g s
  · exact Pad.DoACK_matches K s

theorem Pad.InvokeEarly_matches {C M T : Type} (K : Pad.Decls C M T) (g : PointerSource)
    (due : Bool) (s : Pad C M T) (h : s.EventMatchesState) :
    (Pad.InvokeEarly K g due s).EventMatchesState := by
  unfold Pad.InvokeEarly
  split_ifs
  · exact Pad.TransferEvent_matches K g s
  · exact h

theorem Pad.ReadRegister_matches {C M T : Type} (K : Pad.Decls C M T) (g : PointerSource)
    (due : Bool) (s : Pad C M T) (offset : Nat) (h : s.EventMatchesState) :
    (Pad.ReadRegister K g due s offset).1.EventMatchesState := by
  have hs1 : (if Pad.IsTransmitting s then Pad.InvokeEarly K g due s else s).EventMatchesState := by
    split_ifs
    · exact Pad.InvokeEarly_matches K g due s h
    · exact h
  by_cases h0 : offset = 0x00
  · simp only [Pad.ReadRegister, if_pos h0]
    exact Pad.EventMatchesState_congr hs1 rfl rfl
  · by_cases h4 : offset = 0x04
    · simp only [Pad.ReadRegister, if_neg h0, if_pos h4]
      exact Pad.EventMatchesState_congr hs1 rfl rfl
    · simp only [Pad.ReadRegister, if_neg h0, if_neg h4]
      split_ifs <;> exact h

theorem Pad.WriteRegister_matches {C M T : Type} (K : Pad.Decls C M T) (s : Pad C M T)
    (offset value : Nat) (h : s.EventMatchesState) :
    (Pad.WriteRegister K s offset value).EventMatchesState := by
  by_cases h0 : offset = 0x00
  · subst h0
    simp only [Pad.WriteRegister, if_true]
    split_ifs
    · exact Pad.BeginTransfer_matches K _
    · exact Pad.EventMatchesState_congr h rfl rfl
  · by_cases hA : offset = 0x0A
    · subst hA
      by_cases hreset : BitField.GetValue (Truncate16 value) K.CTRL_RESET = true
      · rw [Pad.WriteRegister_ctrl_of_reset K s value hreset]
        exact Pad.EventMatchesState_congr
          (Pad.SoftReset_matches K { s with m_JOY_CTRL := Truncate16 value }
            (Pad.EventMatchesState_congr h rfl rfl)).1 rfl rfl
      · have hreset2 : BitField.GetValue (Truncate16 value) K.CTRL_RESET = false := by
          simpa using hreset
        rw [Pad.WriteRegister_ctrl_no_reset K s value hreset2]
        have h3 : ∀ x : Pad C M T, x.m_state = s.m_state →
            x.m_transfer_event = s.m_transfer_event → x.EventMatchesState :=
          fun x e1 e2 => Pad.EventMatchesState_congr h e1 e2
        have hu : ∀ x : Pad C M T, x.EventMatchesState →
            (Pad.UpdateJoyStat K x).EventMatchesState :=
          fun x hx => Pad.EventMatchesState_congr hx rfl rfl
        apply hu
        simp only
        split_ifs <;>
          first
          | exact Pad.EndTransfer_matches _
          | exact Pad.BeginTransfer_matches K _
          | exact h3 _ rfl rfl
    · unfold Pad.WriteRegister
      simp only [if_neg h0, if_neg hA]
      split_ifs
      · exact Pad.EventMatchesState_congr h rfl rfl
      · exact Pad.EventMatchesState_congr h rfl rfl
      · exact h

theorem Pad.Initialize_matches {C M T : Type} (K : Pad.Decls C M T) (s : Pad C M T) :
    (Pad.Initialize K s).EventMatchesState ∧ (Pad.Initialize K s).m_state = Pad.State.Idle := by
  have h : (Pad.Initialize K s).m_state = Pad.State.Idle ∧
      (Pad.Initialize K s).m_transfer_event.m_active = false := by
    unfold Pad.Initialize Pad.Reset Pad.SoftReset
    by_cases hi : s.m_state = Pad.State.Idle
    · simp [Pad.UpdateJoyStat, Pad.ResetDeviceTransferState, Pad.IsTransmitting, hi]
    · simp [Pad.UpdateJoyStat, Pad.ResetDeviceTransferState, Pad.IsTransmitting, hi,
        Pad.EndTransfer, TimingEvent.Deactivate]
  rw [Pad.EventMatchesState_iff]
  exact ⟨Or.inl h, h.1⟩

theorem Pad.Op.apply_matches {C M T : Type} (K : Pad.Decls C M T) (op : Pad.Op)
    (s : Pad C M T) (h : s.EventMatchesState) : (op.apply K s).EventMatchesState := by
  cases op with
  | ReadRegister g due offset => exact Pad.ReadRegister_matches K g due s offset h
  | WriteRegister offset value => exact Pad.WriteRegister_matches K s offset value h
  | SoftReset => exact (Pad.SoftReset_matches K s h).1
  | TransferEvent g => exact Pad.TransferEvent_matches K g s

theorem Pad.run_matches {C M T : Type} (K : Pad.Decls C M T) (ops : List Pad.Op) :
    ∀ s : Pad C M T, s.EventMatchesState → (Pad.run K s ops).EventMatchesState := by
  induction ops with
  | nil => intro s h; exact h
  | cons op ops ih =>
    intro s h
    exact ih (op.apply K s) (Pad.Op.apply_matches K op s h)

/-- C30: with the timing event modelled as a scheduled flag, "the event is
scheduled if and only if the bus state is not Idle" holds on the bus after
`Initialize` and after every sequence of register reads, register writes,
soft resets and firings of the event (transfer ticks and acknowledge ticks)
that follows, and each of these operations preserves it.  The paths that
cancel a transfer leave the event deactivated with the bus Idle: a soft
reset, a control-register write that de-asserts device-select or
transmit-enable, and a transfer tick that is not acknowledged. -/
theorem Pad.event_scheduled_iff_not_idle {C M T : Type} (K : Pad.Decls C M T) :
    (∀ (s0 : Pad C M T) (ops : List Pad.Op),
      (Pad.run K (Pad.Initialize K s0) ops).EventMatchesState) ∧
    (∀ (s : Pad C M T) (op : Pad.Op), s.EventMatchesState →
      (op.apply K s).EventMatchesState) ∧
    (∀ (s : Pad C M T) (g : PointerSource),
      (Pad.DoTransfer K g s).EventMatchesState ∧ (Pad.DoACK K s).EventMatchesState) ∧
    (∀ s : Pad C M T, s.EventMatchesState →
      (Pad.SoftReset K s).m_state = Pad.State.Idle ∧
      (Pad.SoftReset K s).m_transfer_event.m_active = false) ∧
    (∀ (s : Pad C M T) (v : Nat), s.EventMatchesState →
      (BitField.GetValue (Truncate16 v) K.CTRL_SELECT = false ∨
        BitField.GetValue (Truncate16 v) K.CTRL_TXEN = false) →
      (Pad.WriteRegister K s 0x0A v).m_state = Pad.State.Idle ∧
      (Pad.WriteRegister K s 0x0A v).m_transfer_event.m_active = false) ∧
    (∀ (s : Pad C M T) (g : PointerSource), (Pad.DoTransfer.exchange K g s).2.2 = false →
      (Pad.DoTransfer K g s).m_state = Pad.State.Idle ∧
      (Pad.DoTransfer K g s).m_transfer_event.m_active = false) := by
  refine ⟨fun s0 ops => Pad.run_matches K ops _ (Pad.Initialize_matches K s0).1,
    fun s op h => Pad.Op.apply_matches K op s h,
    fun s g => ⟨Pad.DoTransfer_matches K g s, Pad.DoACK_matches K s⟩,
    fun s h => (Pad.SoftReset_matches K s h).2, ?_, ?_⟩
  · intro s v h hv
    have hm := Pad.WriteRegister_matches K s 0x0A v h
    have hidle : (Pad.WriteRegister K s 0x0A v).m_state = Pad.State.Idle := by
      by_cases hreset : BitField.GetValue (Truncate16 v) K.CTRL_RESET = true
      · exact (Pad.WriteRegister_ctrl_reset_fields K s v hreset).1
      · have hreset2 : BitField.GetValue (Truncate16 v) K.CTRL_RESET = false := by
          simpa using hreset
        rw [Pad.WriteRegister_ctrl_no_reset K s v hreset2]
        have hor : (!BitField.GetValue (Truncate16 v) K.CTRL_SELECT ||
            !BitField.GetValue (Truncate16 v) K.CTRL_TXEN) = true := by
          rcases hv with h | h <;> simp [h]
        simp only [hor, if_true, Pad.UpdateJoyStat, Pad.ResetDeviceTransferState,
          Pad.IsTransmitting, Pad.EndTransfer]
        by_cases hi : s.m_state = Pad.State.Idle
        · split_ifs <;> simp_all
        · split_ifs <;> simp_all
    rw [Pad.EventMatchesState_iff] at hm
    rcases hm with hm | hm
    · exact ⟨hidle, hm.2⟩
    · exact absurd hidle hm.1
  · intro s g ha
    obtain ⟨_, _, _, _, _, _, h7⟩ := Pad.DoTransfer_of_exchange K g s _ rfl
    exact ⟨(h7 ha).1, (h7 ha).2.2⟩

/-- Witness of C30: the sample bus is in a state where the event matches the
bus state; writing a byte with SELECT and TXEN asserted starts a transfer,
and the soft reset that follows leaves the bus Idle with the event
deactivated. -/
theorem Pad.event_scheduled_iff_not_idle_witness :
    (Pad.run Pad.Decls.sample (Pad.Initialize Pad.Decls.sample Pad.sample)
      [Pad.Op.WriteRegister 0x0A 0x03, Pad.Op.WriteRegister 0x00 0x01]).m_state
      = Pad.State.Transmitting ∧
    (Pad.run Pad.Decls.sample (Pad.Initialize Pad.Decls.sample Pad.sample)
      [Pad.Op.WriteRegister 0x0A 0x03, Pad.Op.WriteRegister 0x00 0x01]).EventMatchesState ∧
    (Pad.SoftReset Pad.Decls.sample
      (Pad.run Pad.Decls.sample (Pad.Initialize Pad.Decls.sample Pad.sample)
        [Pad.Op.WriteRegister 0x0A 0x03,
         Pad.Op.WriteRegister 0x00 0x01])).m_transfer_event.m_active = false :=
  ⟨by decide,
   (Pad.event_scheduled_iff_not_idle Pad.Decls.sample).1 Pad.sample
     [Pad.Op.WriteRegister 0x0A 0x03, Pad.Op.WriteRegister 0x00 0x01],
   ((Pad.event_scheduled_iff_not_idle Pad.Decls.sample).2.2.2.1 _
     ((Pad.event_scheduled_iff_not_idle Pad.Decls.sample).1 Pad.sample
       [Pad.Op.WriteRegister 0x0A 0x03, Pad.Op.WriteRegister 0x00 0x01])).2⟩

/-! ## Serialization of the bus -/

/-- Evaluation of C23 at a failing input: the sample bus with the class byte
0x42 in flight to the twist controller of slot 0 (state Transmitting,
activeDevice Controller) is serialized, and the data is restored into the
sample bus after `Initialize` (the same devices, in-flight value 0,
activeDevice None).  Both calls succeed and the serialized members come
back (state Transmitting, CTRL 0x1007, the event activated), but the
in-flight value of the restored bus is 0, not 0x42, and its activeDevice is
None, not Controller.  The transfer tick of the original bus is answered
with 0x23 and acknowledged; the transfer tick of the restored bus sends
0x00 and is not acknowledged. -/
theorem Pad.DoState_roundtrip_loses_in_flight :
    (Pad.DoState Pad.Decls.sample Pad.StateDecls.sample (StateWrapper.forWriting 60)
      Pad.sampleInFlight).1 = true ∧
    (Pad.DoState Pad.Decls.sample Pad.StateDecls.sample
      (StateWrapper.forReading 60
        (Pad.DoState Pad.Decls.sample Pad.StateDecls.sample (StateWrapper.forWriting 60)
          Pad.sampleInFlight).2.1.m_stream)
      (Pad.Initialize Pad.Decls.sample Pad.sample)).1 = true ∧
    (Pad.DoState Pad.Decls.sample Pad.StateDecls.sample
      (StateWrapper.forReading 60
        (Pad.DoState Pad.Decls.sample Pad.StateDecls.sample (StateWrapper.forWriting 60)
          Pad.sampleInFlight).2.1.m_stream)
      (Pad.Initialize Pad.Decls.sample Pad.sample)).2.2.m_state
        = Pad.State.Transmitting ∧
    (Pad.DoState Pad.Decls.sample Pad.StateDecls.sample
      (StateWrapper.forReading 60
        (Pad.DoState Pad.Decls.sample Pad.StateDecls.sample (StateWrapper.forWriting 60)
          Pad.sampleInFlight).2.1.m_stream)
      (Pad.Initialize Pad.Decls.sample Pad.sample)).2.2.m_JOY_CTRL = 0x1007 ∧
    (Pad.DoState Pad.Decls.sample Pad.StateDecls.sample
      (StateWrapper.forReading 60
        (Pad.DoState Pad.Decls.sample Pad.StateDecls.sample (StateWrapper.forWriting 60)
          Pad.sampleInFlight).2.1.m_stream)
      (Pad.Initialize Pad.Decls.sample Pad.sample)).2.2.m_transfer_event.m_active
        = true ∧
    Pad.sampleInFlight.m_transmit_value = 0x42 ∧
    (Pad.DoState Pad.Decls.sample Pad.StateDecls.sample
      (StateWrapper.forReading 60
        (Pad.DoState Pad.Decls.sample Pad.StateDecls.sample (StateWrapper.forWriting 60)
          Pad.sampleInFlight).2.1.m_stream)
      (Pad.Initialize Pad.Decls.sample Pad.sample)).2.2.m_transmit_value = 0 ∧
    Pad.sampleInFlight.m_active_device = Pad.ActiveDevice.Controller ∧
    (Pad.DoState Pad.Decls.sample Pad.StateDecls.sample
      (StateWrapper.forReading 60
        (Pad.DoState Pad.Decls.sample Pad.StateDecls.sample (StateWrapper.forWriting 60)
          Pad.sampleInFlight).2.1.m_stream)
      (Pad.Initialize Pad.Decls.sample Pad.sample)).2.2.m_active_device
        = Pad.ActiveDevice.None ∧
    (Pad.TransferEvent Pad.Decls.sample PointerSource.onScreen
      Pad.sampleInFlight).m_receive_buffer = 0x23 ∧
    (Pad.TransferEvent Pad.Decls.sample PointerSource.onScreen
      Pad.sampleInFlight).m_state = Pad.State.WaitingForACK ∧
    (Pad.TransferEvent Pad.Decls.sample PointerSource.onScreen
      (Pad.DoState Pad.Decls.sample Pad.StateDecls.sample
        (StateWrapper.forReading 60
          (Pad.DoState Pad.Decls.sample Pad.StateDecls.sample (StateWrapper.forWriting 60)
            Pad.sampleInFlight).2.1.m_stream)
        (Pad.Initialize Pad.Decls.sample Pad.sample)).2.2).m_receive_buffer = 0xFF ∧
    (Pad.TransferEvent Pad.Decls.sample PointerSource.onScreen
      (Pad.DoState Pad.Decls.sample Pad.StateDecls.sample
        (StateWrapper.forReading 60
          (Pad.DoState Pad.Decls.sample Pad.StateDecls.sample (StateWrapper.forWriting 60)
            Pad.sampleInFlight).2.1.m_stream)
        (Pad.Initialize Pad.Decls.sample Pad.sample)).2.2).m_state
        = Pad.State.Idle := by
  refine ⟨by decide, by decide, by decide, by decide, by decide, rfl, by decide, rfl,
    by decide, by decide, by decide, by decide, by decide⟩

/-! ### The cursor -/

theorem StateWrapper.Do_write (v : Nat) (st : List StateWrapper.Token) (n : Nat) :
    StateWrapper.Do ⟨StateWrapper.Mode.Write, v, st, false⟩ n
      = (⟨StateWrapper.Mode.Write, v, st ++ [StateWrapper.Token.value n], false⟩, n) := by
  simp [StateWrapper.Do]

theorem StateWrapper.Do_read (v : Nat) (rest : List StateWrapper.Token) (n m : Nat) :
    StateWrapper.Do ⟨StateWrapper.Mode.Read, v, StateWrapper.Token.value n :: rest, false⟩ m
      = (⟨StateWrapper.Mode.Read, v, rest, false⟩, n) := by
  simp [StateWrapper.Do]

theorem StateWrapper.DoBool_write (v : Nat) (st : List StateWrapper.Token) (b : Bool) :
    StateWrapper.DoBool ⟨StateWrapper.Mode.Write, v, st, false⟩ b
      = (⟨StateWrapper.Mode.Write, v, st ++ [StateWrapper.Token.value b.toNat], false⟩, b) := by
  cases b <;> simp [StateWrapper.DoBool, StateWrapper.Do]

theorem StateWrapper.DoBool_read (v : Nat) (rest : List StateWrapper.Token) (b c : Bool) :
    StateWrapper.DoBool
        ⟨StateWrapper.Mode.Read, v, StateWrapper.Token.value b.toNat :: rest, false⟩ c
      = (⟨StateWrapper.Mode.Read, v, rest, false⟩, b) := by
  cases b <;> cases c <;> simp [StateWrapper.DoBool, StateWrapper.Do]

theorem StateWrapper.DoMarker_write (v : Nat) (st : List StateWrapper.Token)
    (m : StateWrapper.Marker) :
    StateWrapper.DoMarker ⟨StateWrapper.Mode.Write, v, st, false⟩ m
      = (⟨StateWrapper.Mode.Write, v, st ++ [StateWrapper.Token.marker m], false⟩, true) := by
  simp [StateWrapper.DoMarker]

theorem StateWrapper.DoMarker_read (v : Nat) (rest : List StateWrapper.Token)
    (m : StateWrapper.Marker) :
    StateWrapper.DoMarker
        ⟨StateWrapper.Mode.Read, v, StateWrapper.Token.marker m :: rest, false⟩ m
      = (⟨StateWrapper.Mode.Read, v, rest, false⟩, true) := by
  simp [StateWrapper.DoMarker]

/-- What `RoundTrips` says on a cursor in write mode without error. -/
theorem StateWrapper.RoundTrips.write_law {σ : Type}
    {DoState : σ → StateWrapper → Bool × StateWrapper × σ} {same : σ → σ → Prop}
    (h : StateWrapper.RoundTrips DoState same) (x : σ) :
    ∃ payload : List StateWrapper.Token,
      (∀ (v : Nat) (st : List StateWrapper.Token),
        DoState x ⟨StateWrapper.Mode.Write, v, st, false⟩
          = (true, ⟨StateWrapper.Mode.Write, v, st ++ payload, false⟩, x)) ∧
      (∀ (y : σ) (v : Nat) (rest : List StateWrapper.Token), same x y →
        ∃ y2 : σ, DoState y ⟨StateWrapper.Mode.Read, v, payload ++ rest, false⟩
          = (true, ⟨StateWrapper.Mode.Read, v, rest, false⟩, y2)) := by
  obtain ⟨payload, hw, hr⟩ := h x
  refine ⟨payload, ?_, ?_⟩
  · intro v st
    exact hw ⟨StateWrapper.Mode.Write, v, st, false⟩ rfl rfl
  · intro y v rest hs
    exact hr y ⟨StateWrapper.Mode.Read, v, payload ++ rest, false⟩ rest hs rfl rfl rfl

theorem ControllerType.ofValue_toValue (t : ControllerType) :
    ControllerType.ofValue t.toValue = t := by
  cases t <;> rfl

theorem NeGcon.TransferState.twist_ofValue_toValue (t : NeGcon.TransferState) :
    NeGcon.TransferState.ofValue t.toValue = t := by
  cases t <;> rfl

theorem NamcoGunCon.TransferState.gun_ofValue_toValue (t : NamcoGunCon.TransferState) :
    NamcoGunCon.TransferState.ofValue t.toValue = t := by
  cases t <;> rfl

theorem Pad.State.bus_ofValue_toValue (t : Pad.State) : Pad.State.ofValue t.toValue = t := by
  cases t <;> rfl

theorem Controller.GetType_ne_None {C M T : Type} (D : Pad.StateDecls C M T)
    (c : Controller C) : Controller.GetType D c ≠ ControllerType.None := by
  cases c <;> simp [Controller.GetType]

/-- The serializers of the controllers round trip between controllers of the
same type, when the serializer of the other controllers does. -/
theorem Controller.DoState_roundTrips_same_type {C M T : Type} (D : Pad.StateDecls C M T)
    (hC : StateWrapper.RoundTrips (fun c sw => D.controller_DoState c sw false)
      (fun x y => D.controller_GetType x = D.controller_GetType y))
    (x : Controller C) :
    ∃ payload : List StateWrapper.Token,
      (∀ (v : Nat) (st : List StateWrapper.Token),
        Controller.DoState D x ⟨StateWrapper.Mode.Write, v, st, false⟩ false
          = (true, ⟨StateWrapper.Mode.Write, v, st ++ payload, false⟩, x)) ∧
      (∀ (y : Controller C) (v : Nat) (rest : List StateWrapper.Token),
        Controller.GetType D x = Controller.GetType D y →
        ∃ y2 : Controller C,
          Controller.DoState D y ⟨StateWrapper.Mode.Read, v, payload ++ rest, false⟩ false
            = (true, ⟨StateWrapper.Mode.Read, v, rest, false⟩, y2)) := by
  cases x with
  | NeGcon d =>
    refine ⟨[StateWrapper.Token.value d.m_button_state,
      StateWrapper.Token.value d.m_transfer_state.toValue], ?_, ?_⟩
    · intro v st
      simp [Controller.DoState, NeGcon.DoState, Controller.DoStateBase, StateWrapper.HasError,
        StateWrapper.Do_write, NeGcon.TransferState.twist_ofValue_toValue]
    · intro y v rest hy
      cases y with
      | NeGcon e =>
        refine ⟨Controller.NeGcon { e with m_transfer_state := d.m_transfer_state }, ?_⟩
        simp [Controller.DoState, NeGcon.DoState, Controller.DoStateBase,
          StateWrapper.HasError, StateWrapper.Do_read, NeGcon.TransferState.twist_ofValue_toValue]
      | NamcoGunCon e => simp [Controller.GetType] at hy
      | Other e => simp [Controller.GetType] at hy
  | NamcoGunCon d =>
    refine ⟨[StateWrapper.Token.value d.m_button_state,
      StateWrapper.Token.value d.m_position_x, StateWrapper.Token.value d.m_position_y,
      StateWrapper.Token.value d.m_transfer_state.toValue], ?_, ?_⟩
    · intro v st
      simp [Controller.DoState, NamcoGunCon.DoState, Controller.DoStateBase,
        StateWrapper.HasError, StateWrapper.Do_write, NamcoGunCon.TransferState.gun_ofValue_toValue]
    · intro y v rest hy
      cases y with
      | NeGcon e => simp [Controller.GetType] at hy
      | NamcoGunCon e =>
        refine ⟨Controller.NamcoGunCon { e with m_transfer_state := d.m_transfer_state }, ?_⟩
        simp [Controller.DoState, NamcoGunCon.DoState, Controller.DoStateBase,
          StateWrapper.HasError, StateWrapper.Do_read,
          NamcoGunCon.TransferState.gun_ofValue_toValue]
      | Other e => simp [Controller.GetType] at hy
  | Other d =>
    obtain ⟨payload, hw, hr⟩ := StateWrapper.RoundTrips.write_law hC d
    refine ⟨payload, ?_, ?_⟩
    · intro v st
      simp [Controller.DoState, hw, StateWrapper.resume]
    · intro y v rest hy
      cases y with
      | NeGcon e => simp [Controller.GetType] at hy
      | NamcoGunCon e => simp [Controller.GetType] at hy
      | Other e =>
        have hk : D.controller_GetType d = D.controller_GetType e := by
          simpa [Controller.GetType] using hy
        obtain ⟨y2, h2⟩ := hr e v rest hk
        refine ⟨Controller.Other y2, ?_⟩
        simp only [Controller.DoState, h2, StateWrapper.resume]

/-! ### One slot -/

theorem Pad.controllerTypeOf_eq_None_iff {C M T : Type} (D : Pad.StateDecls C M T)
    (c : Option (Controller C)) :
    Pad.controllerTypeOf D c = ControllerType.None ↔ c = none := by
  cases c with
  | none => simp [Pad.controllerTypeOf]
  | some x => simp [Pad.controllerTypeOf, Controller.GetType_ne_None]

/-- Serializing the controller of a slot and restoring it into a slot with a
controller of the same type: the write leaves the bus as it is, the read
takes what was written and changes the controller of that slot only. -/
theorem Pad.DoStateController_roundTrips {C M T : Type} (K : Pad.Decls C M T)
    (D : Pad.StateDecls C M T)
    (hC : StateWrapper.RoundTrips (fun c sw => D.controller_DoState c sw false)
      (fun x y => D.controller_GetType x = D.controller_GetType y))
    (s : Pad C M T) (i : Nat) :
    ∃ payload : List StateWrapper.Token,
      (∀ (v : Nat) (st : List StateWrapper.Token),
        Pad.DoStateController K D ⟨StateWrapper.Mode.Write, v, st, false⟩ s i
          = (true, ⟨StateWrapper.Mode.Write, v, st ++ payload, false⟩, s)) ∧
      (∀ (t : Pad C M T) (v : Nat) (rest : List StateWrapper.Token),
        Pad.controllerTypeOf D (s.m_controllers i) = Pad.controllerTypeOf D (t.m_controllers i) →
        ∃ c2 : Option (Controller C),
          Pad.DoStateController K D ⟨StateWrapper.Mode.Read, v, payload ++ rest, false⟩ t i
            = (true, ⟨StateWrapper.Mode.Read, v, rest, false⟩,
                { t with m_controllers := Function.update t.m_controllers i c2 })) := by
  cases hs : s.m_controllers i with
  | none =>
    refine ⟨[StateWrapper.Token.value 0], ?_, ?_⟩
    · intro v st
      simp [Pad.DoStateController, hs, Pad.controllerTypeOf, ControllerType.toValue,
        StateWrapper.Do_write, ControllerType.ofValue]
    · intro t v rest ht
      have htn : t.m_controllers i = none :=
        (Pad.controllerTypeOf_eq_None_iff D _).1 (by rw [← ht]; rfl)
      refine ⟨none, ?_⟩
      simp [Pad.DoStateController, htn, Pad.controllerTypeOf, ControllerType.toValue,
        StateWrapper.Do_read, ControllerType.ofValue]
      rw [← htn, Function.update_eq_self]
  | some x =>
    obtain ⟨payload, hw, hr⟩ := Controller.DoState_roundTrips_same_type D hC x
    have hx : Controller.GetType D x ≠ ControllerType.None := Controller.GetType_ne_None D x
    refine ⟨StateWrapper.Token.value (Controller.GetType D x).toValue ::
      StateWrapper.Token.marker StateWrapper.Marker.Controller :: payload, ?_, ?_⟩
    · intro v st
      have hu : Function.update s.m_controllers i (some x) = s.m_controllers := by
        rw [← hs, Function.update_eq_self]
      simp [Pad.DoStateController, hs, Pad.controllerTypeOf, StateWrapper.Do_write,
        ControllerType.ofValue_toValue, hx, StateWrapper.DoMarker_write, hw, hu]
    · intro t v rest ht
      cases htc : t.m_controllers i with
      | none =>
        rw [htc] at ht
        exact absurd ht hx
      | some y =>
        rw [htc] at ht
        have hxy : Controller.GetType D x = Controller.GetType D y := ht
        obtain ⟨y2, hy2⟩ := hr y v rest hxy
        have hy : Controller.GetType D y ≠ ControllerType.None := Controller.GetType_ne_None D y
        refine ⟨some y2, ?_⟩
        simp [Pad.DoStateController, htc, Pad.controllerTypeOf, StateWrapper.Do_read,
          ControllerType.ofValue_toValue, hy, StateWrapper.DoMarker_read, hy2, hxy]

/-- Serializing the memory card of a slot and restoring it: the write leaves
the bus as it is, the read takes what was written and changes the memory card
of that slot only. -/
theorem Pad.DoStateMemcard_roundTrips {C M T : Type} (D : Pad.StateDecls C M T)
    (hM : StateWrapper.RoundTrips D.memory_card_DoState (fun _ _ => True))
    (s : Pad C M T) (i : Nat) :
    ∃ payload : List StateWrapper.Token,
      (∀ (v : Nat) (st : List StateWrapper.Token),
        Pad.DoStateMemcard D ⟨StateWrapper.Mode.Write, v, st, false⟩ s i
          = (true, ⟨StateWrapper.Mode.Write, v, st ++ payload, false⟩, s)) ∧
      (∀ (t : Pad C M T) (v : Nat) (rest : List StateWrapper.Token),
        ∃ m2 : Option M,
          Pad.DoStateMemcard D ⟨StateWrapper.Mode.Read, v, payload ++ rest, false⟩ t i
            = (true, ⟨StateWrapper.Mode.Read, v, rest, false⟩,
                { t with m_memory_cards := Function.update t.m_memory_cards i m2 })) := by
  cases hs : s.m_memory_cards i with
  | none =>
    refine ⟨[StateWrapper.Token.value false.toNat], ?_, ?_⟩
    · intro v st
      simp [Pad.DoStateMemcard, hs, StateWrapper.DoBool_write, StateWrapper.IsWriting]
    · intro t v rest
      refine ⟨none, ?_⟩
      simp only [Pad.DoStateMemcard, List.singleton_append, StateWrapper.DoBool_read]
      cases htc : t.m_memory_cards i with
      | none =>
        simp [StateWrapper.IsWriting, htc]
        rw [← htc, Function.update_eq_self]
      | some y =>
        simp [StateWrapper.IsWriting, htc]
  | some x =>
    obtain ⟨payload, hw, hr⟩ := StateWrapper.RoundTrips.write_law hM x
    refine ⟨StateWrapper.Token.value true.toNat ::
      StateWrapper.Token.marker StateWrapper.Marker.MemoryCard :: payload, ?_, ?_⟩
    · intro v st
      have hu : Function.update s.m_memory_cards i (some x) = s.m_memory_cards := by
        rw [← hs, Function.update_eq_self]
      simp only [Pad.DoStateMemcard, hs, Option.isSome_some, StateWrapper.DoBool_write,
        StateWrapper.DoMarker_write]
      simp [hs, StateWrapper.IsWriting, hw, StateWrapper.resume, hu]
    · intro t v rest
      cases htc : t.m_memory_cards i with
      | none =>
        obtain ⟨y2, hy2⟩ := hr D.MemoryCard_Create v rest trivial
        refine ⟨some y2, ?_⟩
        simp only [Pad.DoStateMemcard, List.cons_append, StateWrapper.DoBool_read,
          StateWrapper.DoMarker_read]
        simp [htc, StateWrapper.IsWriting, hy2, StateWrapper.resume]
      | some y =>
        obtain ⟨y2, hy2⟩ := hr y v rest trivial
        refine ⟨some y2, ?_⟩
        simp only [Pad.DoStateMemcard, List.cons_append, StateWrapper.DoBool_read,
          StateWrapper.DoMarker_read]
        simp [htc, StateWrapper.IsWriting, hy2, StateWrapper.resume]

/-! ### The loops and the registers -/

/-- Serializing `n` slots from slot `i` and restoring them into a bus whose
controllers in those slots have the same types: the write changes no member
but the devices, the read takes what was written and changes no member but
the devices. -/
theorem Pad.DoState.slots_roundTrips {C M T : Type} (K : Pad.Decls C M T)
    (D : Pad.StateDecls C M T)
    (hC : StateWrapper.RoundTrips (fun c sw => D.controller_DoState c sw false)
      (fun x y => D.controller_GetType x = D.controller_GetType y))
    (hM : StateWrapper.RoundTrips D.memory_card_DoState (fun _ _ => True)) (v : Nat) :
    ∀ (n i : Nat) (s : Pad C M T),
      ∃ (payload : List StateWrapper.Token) (cs : Nat → Option (Controller C))
        (ms : Nat → Option M),
        (∀ st : List StateWrapper.Token,
          Pad.DoState.slots K D i n ⟨StateWrapper.Mode.Write, v, st, false⟩ s
            = (true, ⟨StateWrapper.Mode.Write, v, st ++ payload, false⟩,
                { s with m_controllers := cs, m_memory_cards := ms })) ∧
        (∀ (t : Pad C M T) (rest : List StateWrapper.Token),
          (∀ j, i ≤ j → j < i + n →
            Pad.controllerTypeOf D (s.m_controllers j)
              = Pad.controllerTypeOf D (t.m_controllers j)) →
          ∃ (cs2 : Nat → Option (Controller C)) (ms2 : Nat → Option M),
            Pad.DoState.slots K D i n ⟨StateWrapper.Mode.Read, v, payload ++ rest, false⟩ t
              = (true, ⟨StateWrapper.Mode.Read, v, rest, false⟩,
                  { t with m_controllers := cs2, m_memory_cards := ms2 })) := by
  intro n
  induction n with
  | zero =>
    intro i s
    refine ⟨[], s.m_controllers, s.m_memory_cards, ?_, ?_⟩
    · intro st
      simp [Pad.DoState.slots]
    · intro t rest _
      exact ⟨t.m_controllers, t.m_memory_cards, by simp [Pad.DoState.slots]⟩
  | succ n ih =>
    intro i s
    by_cases hskip : v < 50 ∧ i ≥ 2
    · obtain ⟨P, cs, ms, hw, hr⟩ := ih (i + 1)
        { s with
          m_controllers := Function.update s.m_controllers i
            ((s.m_controllers i).map (Controller.Reset K.controller))
          m_memory_cards := Function.update s.m_memory_cards i none }
      refine ⟨P, cs, ms, ?_, ?_⟩
      · intro st
        simp only [Pad.DoState.slots, StateWrapper.GetVersion, if_pos hskip]
        exact hw st
      · intro t rest hcfg
        obtain ⟨cs2, ms2, h⟩ := hr
          { t with
            m_controllers := Function.update t.m_controllers i
              ((t.m_controllers i).map (Controller.Reset K.controller))
            m_memory_cards := Function.update t.m_memory_cards i none } rest
          (by
            intro j hj1 hj2
            have hji : j ≠ i := by omega
            simp only [Function.update_noteq hji]
            exact hcfg j (by omega) (by omega))
        refine ⟨cs2, ms2, ?_⟩
        simp only [Pad.DoState.slots, StateWrapper.GetVersion, if_pos hskip]
        exact h
    · obtain ⟨Pc, hcw, hcr⟩ := Pad.DoStateController_roundTrips K D hC s i
      obtain ⟨Pm, hmw, hmr⟩ := Pad.DoStateMemcard_roundTrips D hM s i
      obtain ⟨P, cs, ms, hw, hr⟩ := ih (i + 1) s
      refine ⟨Pc ++ (Pm ++ P), cs, ms, ?_, ?_⟩
      · intro st
        simp only [Pad.DoState.slots, StateWrapper.GetVersion, if_neg hskip, hcw, hmw,
          Bool.not_true, Bool.false_eq_true, if_false]
        rw [hw, List.append_assoc, List.append_assoc]
      · intro t rest hcfg
        obtain ⟨c2, hc2⟩ := hcr t v (Pm ++ (P ++ rest)) (hcfg i (le_refl i) (by omega))
        obtain ⟨m2, hm2⟩ := hmr { t with m_controllers := Function.update t.m_controllers i c2 }
          v (P ++ rest)
        obtain ⟨cs2, ms2, h⟩ := hr
          { t with
            m_controllers := Function.update t.m_controllers i c2
            m_memory_cards := Function.update t.m_memory_cards i m2 } rest
          (by
            intro j hj1 hj2
            have hji : j ≠ i := by omega
            simp only [Function.update_noteq hji]
            exact hcfg j (by omega) (by omega))
        refine ⟨cs2, ms2, ?_⟩
        simp only [Pad.DoState.slots, StateWrapper.GetVersion, if_neg hskip,
          List.append_assoc, hc2, hm2, Bool.not_true, Bool.false_eq_true, if_false]
        exact h

/-- Serializing `n` multitaps from multitap `i` and restoring them: the write
leaves the bus as it is, the read takes what was written and changes no
member but the multitaps. -/
theorem Pad.DoState.multitaps_roundTrips {C M T : Type} (D : Pad.StateDecls C M T)
    (hT : StateWrapper.RoundTrips D.multitap_DoState (fun _ _ => True)) :
    ∀ (n i : Nat) (s : Pad C M T),
      ∃ payload : List StateWrapper.Token,
        (∀ (v : Nat) (st : List StateWrapper.Token),
          Pad.DoState.multitaps D i n ⟨StateWrapper.Mode.Write, v, st, false⟩ s
            = (true, ⟨StateWrapper.Mode.Write, v, st ++ payload, false⟩, s)) ∧
        (∀ (t : Pad C M T) (v : Nat) (rest : List StateWrapper.Token),
          ∃ ts : Nat → T,
            Pad.DoState.multitaps D i n ⟨StateWrapper.Mode.Read, v, payload ++ rest, false⟩ t
              = (true, ⟨StateWrapper.Mode.Read, v, rest, false⟩,
                  { t with m_multitaps := ts })) := by
  intro n
  induction n with
  | zero =>
    intro i s
    refine ⟨[], ?_, ?_⟩
    · intro v st
      simp [Pad.DoState.multitaps]
    · intro t v rest
      exact ⟨t.m_multitaps, by simp [Pad.DoState.multitaps]⟩
  | succ n ih =>
    intro i s
    obtain ⟨Pt, htw, htr⟩ := StateWrapper.RoundTrips.write_law hT (s.m_multitaps i)
    obtain ⟨P, hw, hr⟩ := ih (i + 1) s
    refine ⟨Pt ++ P, ?_, ?_⟩
    · intro v st
      simp only [Pad.DoState.multitaps, htw, StateWrapper.resume, Function.update_eq_self,
        Bool.not_true, Bool.false_eq_true, if_false]
      rw [hw, List.append_assoc]
    · intro t v rest
      obtain ⟨y2, hy2⟩ := htr (t.m_multitaps i) v (P ++ rest) trivial
      obtain ⟨ts, h⟩ := hr { t with m_multitaps := Function.update t.m_multitaps i y2 } v rest
      refine ⟨ts, ?_⟩
      simp only [Pad.DoState.multitaps, List.append_assoc, hy2, StateWrapper.resume,
        Bool.not_true, Bool.false_eq_true, if_false]
      exact h

/-- Serializing the registers and restoring them: the write leaves the bus as
it is, the read takes the nine values written and stores them. -/
theorem Pad.DoState.registers_roundTrips {C M T : Type} (s : Pad C M T) :
    ∃ payload : List StateWrapper.Token,
      (∀ (v : Nat) (st : List StateWrapper.Token),
        Pad.DoState.registers ⟨StateWrapper.Mode.Write, v, st, false⟩ s
          = (⟨StateWrapper.Mode.Write, v, st ++ payload, false⟩, s)) ∧
      (∀ (t : Pad C M T) (v : Nat) (rest : List StateWrapper.Token),
        Pad.DoState.registers ⟨StateWrapper.Mode.Read, v, payload ++ rest, false⟩ t
          = (⟨StateWrapper.Mode.Read, v, rest, false⟩,
              { t with
                m_state := s.m_state
                m_JOY_CTRL := s.m_JOY_CTRL
                m_JOY_STAT := s.m_JOY_STAT
                m_JOY_MODE := s.m_JOY_MODE
                m_JOY_BAUD := s.m_JOY_BAUD
                m_receive_buffer := s.m_receive_buffer
                m_transmit_buffer := s.m_transmit_buffer
                m_receive_buffer_full := s.m_receive_buffer_full
                m_transmit_buffer_full := s.m_transmit_buffer_full })) := by
  refine ⟨[StateWrapper.Token.value s.m_state.toValue, StateWrapper.Token.value s.m_JOY_CTRL,
    StateWrapper.Token.value s.m_JOY_STAT, StateWrapper.Token.value s.m_JOY_MODE,
    StateWrapper.Token.value s.m_JOY_BAUD, StateWrapper.Token.value s.m_receive_buffer,
    StateWrapper.Token.value s.m_transmit_buffer,
    StateWrapper.Token.value s.m_receive_buffer_full.toNat,
    StateWrapper.Token.value s.m_transmit_buffer_full.toNat], ?_, ?_⟩
  · intro v st
    simp [Pad.DoState.registers, StateWrapper.Do_write, StateWrapper.DoBool_write,
      Pad.State.bus_ofValue_toValue]
  · intro t v rest
    simp only [Pad.DoState.registers, List.cons_append, List.nil_append, StateWrapper.Do_read,
      StateWrapper.DoBool_read, Pad.State.bus_ofValue_toValue]

/-! ### The whole bus -/

/-- Serializing the bus and restoring the data into a bus whose controllers
have the same types, slot by slot: both calls return true, the read takes
exactly what was written, the members passed to `sw.Do` come back, the event
of a restored bus that is not Idle is activated, and the in-flight value and
the active device of the restored bus are those it had before. -/
theorem Pad.DoState_roundTrips {C M T : Type} (K : Pad.Decls C M T)
    (D : Pad.StateDecls C M T)
    (hC : StateWrapper.RoundTrips (fun c sw => D.controller_DoState c sw false)
      (fun x y => D.controller_GetType x = D.controller_GetType y))
    (hM : StateWrapper.RoundTrips D.memory_card_DoState (fun _ _ => True))
    (hT : StateWrapper.RoundTrips D.multitap_DoState (fun _ _ => True))
    (v : Nat) (s : Pad C M T) :
    ∃ payload : List StateWrapper.Token,
      (∀ st : List StateWrapper.Token,
        (Pad.DoState K D ⟨StateWrapper.Mode.Write, v, st, false⟩ s).1 = true ∧
        (Pad.DoState K D ⟨StateWrapper.Mode.Write, v, st, false⟩ s).2.1
          = ⟨StateWrapper.Mode.Write, v, st ++ payload, false⟩) ∧
      (∀ (t : Pad C M T) (rest : List StateWrapper.Token),
        (∀ j, j < Pad.NUM_CONTROLLER_AND_CARD_PORTS →
          Pad.controllerTypeOf D (s.m_controllers j)
            = Pad.controllerTypeOf D (t.m_controllers j)) →
        (Pad.DoState K D ⟨StateWrapper.Mode.Read, v, payload ++ rest, false⟩ t).1 = true ∧
        (Pad.DoState K D ⟨StateWrapper.Mode.Read, v, payload ++ rest, false⟩ t).2.1
          = ⟨StateWrapper.Mode.Read, v, rest, false⟩ ∧
        Pad.SameRegisters s
          (Pad.DoState K D ⟨StateWrapper.Mode.Read, v, payload ++ rest, false⟩ t).2.2 ∧
        (s.m_state ≠ Pad.State.Idle →
          (Pad.DoState K D ⟨StateWrapper.Mode.Read, v, payload ++ rest, false⟩
            t).2.2.m_transfer_event.m_active = true) ∧
        (Pad.DoState K D ⟨StateWrapper.Mode.Read, v, payload ++ rest, false⟩
            t).2.2.m_transmit_value = t.m_transmit_value ∧
        (Pad.DoState K D ⟨StateWrapper.Mode.Read, v, payload ++ rest, false⟩
            t).2.2.m_active_device = t.m_active_device) := by
  obtain ⟨Ps, cs, ms, hsw, hsr⟩ :=
    Pad.DoState.slots_roundTrips K D hC hM v Pad.NUM_CONTROLLER_AND_CARD_PORTS 0 s
  by_cases hv : 50 ≤ v
  · obtain ⟨Pt, htw, htr⟩ := Pad.DoState.multitaps_roundTrips D hT Pad.NUM_MULTITAPS 0
      { s with m_controllers := cs, m_memory_cards := ms }
    obtain ⟨Pr, hrw, hrr⟩ := Pad.DoState.registers_roundTrips
      { s with m_controllers := cs, m_memory_cards := ms }
    refine ⟨Ps ++ (Pt ++ Pr), ?_, ?_⟩
    · intro st
      simp [Pad.DoState, hsw, StateWrapper.GetVersion, hv, htw, hrw, StateWrapper.IsReading,
        StateWrapper.HasError]
    · intro t rest hcfg
      obtain ⟨cs2, ms2, h1⟩ := hsr t (Pt ++ (Pr ++ rest))
        (fun j _ hj => hcfg j (by simpa using hj))
      obtain ⟨ts, h2⟩ := htr { t with m_controllers := cs2, m_memory_cards := ms2 } v
        (Pr ++ rest)
      have h3 := hrr { t with m_controllers := cs2, m_memory_cards := ms2, m_multitaps := ts }
        v rest
      by_cases hi : s.m_state = Pad.State.Idle <;>
        simp [Pad.DoState, List.append_assoc, h1, StateWrapper.GetVersion, hv, h2, h3,
          StateWrapper.IsReading, StateWrapper.HasError, Pad.IsTransmitting, hi,
          Pad.SameRegisters, TimingEvent.Activate]
  · obtain ⟨Pr, hrw, hrr⟩ := Pad.DoState.registers_roundTrips
      { s with m_controllers := cs, m_memory_cards := ms }
    refine ⟨Ps ++ Pr, ?_, ?_⟩
    · intro st
      simp [Pad.DoState, hsw, StateWrapper.GetVersion, hv, hrw, StateWrapper.IsReading,
        StateWrapper.HasError]
    · intro t rest hcfg
      obtain ⟨cs2, ms2, h1⟩ := hsr t (Pr ++ rest)
        (fun j _ hj => hcfg j (by simpa using hj))
      have h3 := hrr { t with m_controllers := cs2, m_memory_cards := ms2 } v rest
      by_cases hi : s.m_state = Pad.State.Idle <;>
        simp [Pad.DoState, List.append_assoc, h1, StateWrapper.GetVersion, hv, h3,
          StateWrapper.IsReading, StateWrapper.HasError, Pad.IsTransmitting, hi,
          Pad.SameRegisters, TimingEvent.Activate]

/-- The acknowledge tick reads and writes, of the members that are
serialized, only serialized members. -/
theorem Pad.DoACK_sameRegisters {C M T : Type} (K : Pad.Decls C M T) (s t : Pad C M T)
    (h : Pad.SameRegisters s t) : Pad.SameRegisters (Pad.DoACK K s) (Pad.DoACK K t) := by
  obtain ⟨h1, h2, h3, h4, h5, h6, h7, h8, h9⟩ := h
  unfold Pad.SameRegisters Pad.DoACK
  simp only [Pad.CanTransfer, Pad.UpdateJoyStat, Pad.EndTransfer, h1, h2, h3, h4, h5, h6, h7,
    h8, h9]
  split_ifs <;> simp [Pad.BeginTransfer, h1, h2, h3, h4, h5, h6, h7, h8, h9]

/-- A register read at which no event is due returns a value that depends
on the serialized members only. -/
theorem Pad.ReadRegister_sameRegisters {C M T : Type} (K : Pad.Decls C M T)
    (g g2 : PointerSource) (s t : Pad C M T) (h : Pad.SameRegisters s t) (offset : Nat) :
    (Pad.ReadRegister K g false s offset).2 = (Pad.ReadRegister K g2 false t offset).2 := by
  obtain ⟨h1, h2, h3, h4, h5, h6, h7, h8, h9⟩ := h
  unfold Pad.ReadRegister
  simp only [Pad.InvokeEarly, Bool.and_false, Bool.false_eq_true, if_false, ite_self, h2, h3,
    h4, h5, h6, h8]
  split_ifs <;> rfl

/-- Claim C24: a bus in WaitingForACK is serialized with `DoState` (write mode,
any format version) and the data is restored with `DoState` (read mode, same
version) into a bus whose controllers have the same types slot by slot, the
serializers of the devices that are parameters round tripping.  Then both
calls return true, the timing event of the restored bus is activated, and
after the pending event has fired on the original bus and on the restored
bus, the serialized members of the two are equal and every register read
(data, status, mode, control, baud, or any other offset) returns the same
value on both. -/
theorem Pad.DoState_restore_waiting_for_ack {C M T : Type} (K : Pad.Decls C M T)
    (D : Pad.StateDecls C M T)
    (hC : StateWrapper.RoundTrips (fun c sw => D.controller_DoState c sw false)
      (fun x y => D.controller_GetType x = D.controller_GetType y))
    (hM : StateWrapper.RoundTrips D.memory_card_DoState (fun _ _ => True))
    (hT : StateWrapper.RoundTrips D.multitap_DoState (fun _ _ => True))
    (v : Nat) (s t : Pad C M T) (g g2 : PointerSource)
    (hst : s.m_state = Pad.State.WaitingForACK)
    (hcfg : ∀ j, j < Pad.NUM_CONTROLLER_AND_CARD_PORTS →
      Pad.controllerTypeOf D (s.m_controllers j) = Pad.controllerTypeOf D (t.m_controllers j)) :
    (Pad.DoState K D (StateWrapper.forWriting v) s).1 = true ∧
    (Pad.DoState K D
      (StateWrapper.forReading v (Pad.DoState K D (StateWrapper.forWriting v) s).2.1.m_stream)
      t).1 = true ∧
    (Pad.DoState K D
      (StateWrapper.forReading v (Pad.DoState K D (StateWrapper.forWriting v) s).2.1.m_stream)
      t).2.2.m_transfer_event.m_active = true ∧
    Pad.SameRegisters (Pad.TransferEvent K g s)
      (Pad.TransferEvent K g2 (Pad.DoState K D
        (StateWrapper.forReading v (Pad.DoState K D (StateWrapper.forWriting v) s).2.1.m_stream)
        t).2.2) ∧
    ∀ offset : Nat,
      (Pad.ReadRegister K g false (Pad.TransferEvent K g s) offset).2 =
      (Pad.ReadRegister K g2 false
        (Pad.TransferEvent K g2 (Pad.DoState K D
          (StateWrapper.forReading v
            (Pad.DoState K D (StateWrapper.forWriting v) s).2.1.m_stream)
          t).2.2) offset).2 := by
  obtain ⟨P, hw, hr⟩ := Pad.DoState_roundTrips K D hC hM hT v s
  obtain ⟨hw1, hw2⟩ := hw []
  obtain ⟨hr1, _, hr3, hr4, _, _⟩ := hr t [] hcfg
  have hdata : (Pad.DoState K D (StateWrapper.forWriting v) s).2.1.m_stream = P := by
    unfold StateWrapper.forWriting
    rw [hw2]
    simp
  rw [List.append_nil] at hr1 hr3 hr4
  unfold StateWrapper.forReading
  rw [hdata]
  have hne : s.m_state ≠ Pad.State.Idle := by rw [hst]; decide
  have hst2 : (Pad.DoState K D ⟨StateWrapper.Mode.Read, v, P, false⟩ t).2.2.m_state
      = Pad.State.WaitingForACK := by rw [hr3.1, hst]
  have hack : Pad.SameRegisters (Pad.TransferEvent K g s)
      (Pad.TransferEvent K g2 (Pad.DoState K D ⟨StateWrapper.Mode.Read, v, P, false⟩ t).2.2) := by
    rw [Pad.TransferEvent_of_waiting K g s hst, Pad.TransferEvent_of_waiting K g2 _ hst2]
    exact Pad.DoACK_sameRegisters K _ _ hr3
  exact ⟨hw1, hr1, hr4 hne, hack,
    fun offset => Pad.ReadRegister_sameRegisters K g g2 _ _ hack offset⟩

/-- The serializers of the sample devices, which have no state, round trip
with an empty payload. -/
theorem Pad.StateDecls.sample_roundTrips :
    StateWrapper.RoundTrips
      (fun c sw => Pad.StateDecls.sample.controller_DoState c sw false)
      (fun x y => Pad.StateDecls.sample.controller_GetType x
        = Pad.StateDecls.sample.controller_GetType y) ∧
    StateWrapper.RoundTrips Pad.StateDecls.sample.memory_card_DoState (fun _ _ => True) ∧
    StateWrapper.RoundTrips Pad.StateDecls.sample.multitap_DoState (fun _ _ => True) := by
  refine ⟨fun x => ⟨[], ?_, ?_⟩, fun x => ⟨[], ?_, ?_⟩, fun x => ⟨[], ?_, ?_⟩⟩
  all_goals first
    | (intro sw _ he
       obtain ⟨m, v, st, e⟩ := sw
       simp only at he
       simp [Pad.StateDecls.sample, StateWrapper.HasError, he])
    | (intro y sw rest _ _ he hs
       obtain ⟨m, v, st, e⟩ := sw
       simp only [List.nil_append] at he hs
       refine ⟨y, ?_⟩
       simp [Pad.StateDecls.sample, StateWrapper.HasError, he, hs])

/-- Witness of C24: the sample bus after the class byte 0x42 has been
answered by the twist controller of slot 0 is in WaitingForACK; it is
serialized at version 60 and restored into the sample bus after
`Initialize`. -/
theorem Pad.DoState_restore_waiting_for_ack_witness :
    (Pad.TransferEvent Pad.Decls.sample PointerSource.onScreen Pad.sampleInFlight).m_state
      = Pad.State.WaitingForACK ∧
    (Pad.DoState Pad.Decls.sample Pad.StateDecls.sample
      (StateWrapper.forReading 60
        (Pad.DoState Pad.Decls.sample Pad.StateDecls.sample (StateWrapper.forWriting 60)
          (Pad.TransferEvent Pad.Decls.sample PointerSource.onScreen
            Pad.sampleInFlight)).2.1.m_stream)
      (Pad.Initialize Pad.Decls.sample Pad.sample)).2.2.m_transfer_event.m_active = true ∧
    (Pad.ReadRegister Pad.Decls.sample PointerSource.onScreen false
      (Pad.TransferEvent Pad.Decls.sample PointerSource.onScreen
        (Pad.TransferEvent Pad.Decls.sample PointerSource.onScreen Pad.sampleInFlight))
      0x04).2 =
    (Pad.ReadRegister Pad.Decls.sample PointerSource.offScreen false
      (Pad.TransferEvent Pad.Decls.sample PointerSource.offScreen
        (Pad.DoState Pad.Decls.sample Pad.StateDecls.sample
          (StateWrapper.forReading 60
            (Pad.DoState Pad.Decls.sample Pad.StateDecls.sample (StateWrapper.forWriting 60)
              (Pad.TransferEvent Pad.Decls.sample PointerSource.onScreen
                Pad.sampleInFlight)).2.1.m_stream)
          (Pad.Initialize Pad.Decls.sample Pad.sample)).2.2) 0x04).2 :=
  ⟨by decide,
   (Pad.DoState_restore_waiting_for_ack Pad.Decls.sample Pad.StateDecls.sample
      Pad.StateDecls.sample_roundTrips.1 Pad.StateDecls.sample_roundTrips.2.1
      Pad.StateDecls.sample_roundTrips.2.2 60
      (Pad.TransferEvent Pad.Decls.sample PointerSource.onScreen Pad.sampleInFlight)
      (Pad.Initialize Pad.Decls.sample Pad.sample) PointerSource.onScreen
      PointerSource.offScreen (by decide) (by decide)).2.2.1,
   (Pad.DoState_restore_waiting_for_ack Pad.Decls.sample Pad.StateDecls.sample
      Pad.StateDecls.sample_roundTrips.1 Pad.StateDecls.sample_roundTrips.2.1
      Pad.StateDecls.sample_roundTrips.2.2 60
      (Pad.TransferEvent Pad.Decls.sample PointerSource.onScreen Pad.sampleInFlight)
      (Pad.Initialize Pad.Decls.sample Pad.sample) PointerSource.onScreen
      PointerSource.offScreen (by decide) (by decide)).2.2.2.2 0x04⟩

/-! ### Restoring a slot whose controller is of another type -/

theorem Controller.GetType_Reset {C M T : Type} (K : Pad.Decls C M T)
    (D : Pad.StateDecls C M T)
    (hReset : ∀ d : C, D.controller_GetType (K.controller.Reset d) = D.controller_GetType d)
    (c : Controller C) :
    Controller.GetType D (Controller.Reset K.controller c) = Controller.GetType D c := by
  cases c <;> simp [Controller.GetType, Controller.Reset, hReset]

/-- Claim C25: restoring slot `i` from data whose controller type is not the
type of the configured controller, the serializer of the other controllers
round tripping and `Reset` keeping a controller's type.  When the persisted
type is None and a controller is configured, `DoStateController` reads the
type tag only, resets the configured controller and returns true.  When the
data are the tag, the marker and the payload of a controller `x` of another
type than the configured one (or the slot is empty), and `Controller::Create`
gives a dummy of the type of `x`: `DoStateController` returns true, the cursor
is after the payload, and the bus is as before but for the configured
controller, which has been reset and nothing else. -/
theorem Pad.DoStateController_type_mismatch {C M T : Type} (K : Pad.Decls C M T)
    (D : Pad.StateDecls C M T)
    (hC : StateWrapper.RoundTrips (fun c sw => D.controller_DoState c sw false)
      (fun x y => D.controller_GetType x = D.controller_GetType y))
    (hReset : ∀ d : C, D.controller_GetType (K.controller.Reset d) = D.controller_GetType d)
    (s : Pad C M T) (i v : Nat) (rest : List StateWrapper.Token) :
    (∀ c : Controller C, s.m_controllers i = some c →
      Pad.DoStateController K D
          (StateWrapper.forReading v
            (StateWrapper.Token.value ControllerType.None.toValue :: rest)) s i
        = (true, StateWrapper.forReading v rest,
            { s with
              m_controllers := Function.update s.m_controllers i
                (some (Controller.Reset K.controller c)) })) ∧
    (∀ x dummy : Controller C,
      Pad.controllerTypeOf D (s.m_controllers i) ≠ Controller.GetType D x →
      D.Controller_Create (Controller.GetType D x) i = some dummy →
      Controller.GetType D dummy = Controller.GetType D x →
      Pad.DoStateController K D
          (StateWrapper.forReading v
            (StateWrapper.Token.value (Controller.GetType D x).toValue ::
              StateWrapper.Token.marker StateWrapper.Marker.Controller ::
              ((Controller.DoState D x (StateWrapper.forWriting v) false).2.1.m_stream ++ rest)))
          s i
        = (true, StateWrapper.forReading v rest,
            { s with
              m_controllers := Function.update s.m_controllers i
                ((s.m_controllers i).map (Controller.Reset K.controller)) })) := by
  constructor
  · intro c hc
    have hne : Controller.GetType D c ≠ ControllerType.None := Controller.GetType_ne_None D c
    simp [Pad.DoStateController, StateWrapper.forReading, hc, Pad.controllerTypeOf,
      ControllerType.toValue, StateWrapper.Do_read, ControllerType.ofValue, hne]
  · intro x dummy hne hcreate hty
    obtain ⟨P, hw, hr⟩ := Controller.DoState_roundTrips_same_type D hC x
    have hdata : (Controller.DoState D x (StateWrapper.forWriting v) false).2.1.m_stream = P := by
      unfold StateWrapper.forWriting
      rw [hw]
      simp
    obtain ⟨y2, hy2⟩ := hr dummy v rest hty.symm
    have hx : Controller.GetType D x ≠ ControllerType.None := Controller.GetType_ne_None D x
    rw [hdata]
    cases hc : s.m_controllers i with
    | none =>
      rw [hc] at hne
      simp [Pad.DoStateController, StateWrapper.forReading, hc, StateWrapper.Do_read,
        ControllerType.ofValue_toValue, hne, hx, StateWrapper.DoMarker_read,
        Pad.DoStateController.dummy, hcreate, hy2]
    | some c =>
      rw [hc] at hne
      have hne2 : Controller.GetType D c ≠ Controller.GetType D x := hne
      have hne3 : Controller.GetType D (Controller.Reset K.controller c)
          ≠ Controller.GetType D x := by
        rw [Controller.GetType_Reset K D hReset]
        exact hne2
      simp [Pad.DoStateController, StateWrapper.forReading, hc, StateWrapper.Do_read,
        ControllerType.ofValue_toValue, hne, hne2, hne3, hx, StateWrapper.DoMarker_read,
        Pad.DoStateController.dummy, hcreate, hy2, Pad.controllerTypeOf]

/-- Witness of C25: slot 0 of the sample bus holds a twist controller; the
data hold a light gun that has accepted the select byte. -/
theorem Pad.DoStateController_type_mismatch_witness :
    Pad.controllerTypeOf Pad.StateDecls.sample (Pad.sample.m_controllers 0)
      ≠ Controller.GetType Pad.StateDecls.sample (Controller.NamcoGunCon NamcoGunCon.selected) ∧
    Pad.DoStateController Pad.Decls.sample Pad.StateDecls.sample
        (StateWrapper.forReading 60
          (StateWrapper.Token.value 2 ::
            StateWrapper.Token.marker StateWrapper.Marker.Controller ::
            ([StateWrapper.Token.value 0xFFFF, StateWrapper.Token.value 0,
              StateWrapper.Token.value 0, StateWrapper.Token.value 1] ++
              [StateWrapper.Token.value 0])))
        Pad.sample 0
      = (true, StateWrapper.forReading 60 [StateWrapper.Token.value 0],
          { Pad.sample with
            m_controllers := Function.update Pad.sample.m_controllers 0
              ((Pad.sample.m_controllers 0).map
                (Controller.Reset Pad.Decls.sample.controller)) }) :=
  ⟨by decide,
   (Pad.DoStateController_type_mismatch Pad.Decls.sample Pad.StateDecls.sample
      Pad.StateDecls.sample_roundTrips.1 (fun _ => rfl) Pad.sample 0 60
      [StateWrapper.Token.value 0]).2
      (Controller.NamcoGunCon NamcoGunCon.selected) (Controller.NamcoGunCon NamcoGunCon.fresh)
      (by decide) rfl rfl⟩

/-! ### Data of a format version below 50 -/

theorem StateWrapper.Do_version (sw : StateWrapper) (n : Nat) :
    (sw.Do n).1.m_version = sw.m_version := by
  unfold StateWrapper.Do
  split
  · split <;> rfl
  · split
    · rfl
    · split <;> rfl

theorem StateWrapper.DoMarker_version (sw : StateWrapper) (m : StateWrapper.Marker) :
    (sw.DoMarker m).1.m_version = sw.m_version := by
  unfold StateWrapper.DoMarker
  split
  · rfl
  · split
    · rfl
    · split
      · split <;> rfl
      · rfl

theorem Controller.DoState_version {C M T : Type} (D : Pad.StateDecls C M T)
    (c : Controller C) (sw : StateWrapper) (a : Bool) :
    (Controller.DoState D c sw a).2.1.m_version = sw.m_version := by
  cases c with
  | NeGcon d =>
    simp only [Controller.DoState, NeGcon.DoState]
    split
    · rfl
    · simp only [StateWrapper.Do_version]
  | NamcoGunCon d =>
    simp only [Controller.DoState, NamcoGunCon.DoState]
    split
    · rfl
    · simp only [StateWrapper.Do_version]
  | Other d => rfl

theorem Pad.DoStateController_version {C M T : Type} (K : Pad.Decls C M T)
    (D : Pad.StateDecls C M T) (sw : StateWrapper) (s : Pad C M T) (i : Nat) :
    (Pad.DoStateController K D sw s i).2.1.m_version = sw.m_version := by
  simp only [Pad.DoStateController, Pad.DoStateController.dummy]
  repeat (any_goals split)
  all_goals simp only [StateWrapper.Do_version, StateWrapper.DoMarker_version,
    Controller.DoState_version]

theorem Pad.DoStateMemcard_version {C M T : Type} (D : Pad.StateDecls C M T)
    (sw : StateWrapper) (s : Pad C M T) (i : Nat) :
    (Pad.DoStateMemcard D sw s i).2.1.m_version = sw.m_version := by
  simp only [Pad.DoStateMemcard, StateWrapper.DoBool]
  repeat (any_goals split)
  all_goals simp only [StateWrapper.Do_version, StateWrapper.DoMarker_version,
    StateWrapper.resume]

theorem Pad.DoState.slots_version {C M T : Type} (K : Pad.Decls C M T)
    (D : Pad.StateDecls C M T) :
    ∀ (n i : Nat) (sw : StateWrapper) (s : Pad C M T),
      (Pad.DoState.slots K D i n sw s).2.1.m_version = sw.m_version := by
  intro n
  induction n with
  | zero =>
    intro i sw s
    rfl
  | succ n ih =>
    intro i sw s
    simp only [Pad.DoState.slots]
    split
    · exact ih _ _ _
    · split
      · exact Pad.DoStateController_version K D sw s i
      · split
        · rw [Pad.DoStateMemcard_version, Pad.DoStateController_version]
        · rw [ih, Pad.DoStateMemcard_version, Pad.DoStateController_version]

/-- The first loop run for `n + m` slots is the loop run for `n` slots and,
when that has not returned false, for the `m` slots that follow. -/
theorem Pad.DoState.slots_add {C M T : Type} (K : Pad.Decls C M T)
    (D : Pad.StateDecls C M T) (m : Nat) :
    ∀ (n i : Nat) (sw : StateWrapper) (s : Pad C M T),
      Pad.DoState.slots K D i (n + m) sw s =
        if !(Pad.DoState.slots K D i n sw s).1 then Pad.DoState.slots K D i n sw s
        else Pad.DoState.slots K D (i + n) m (Pad.DoState.slots K D i n sw s).2.1
          (Pad.DoState.slots K D i n sw s).2.2 := by
  intro n
  induction n with
  | zero =>
    intro i sw s
    simp [Pad.DoState.slots]
  | succ n ih =>
    intro i sw s
    have hnm : n + 1 + m = (n + m) + 1 := by omega
    have hin : i + (n + 1) = i + 1 + n := by omega
    rw [hnm, hin]
    simp only [Pad.DoState.slots]
    split
    · exact ih _ _ _
    · split
      · rename_i hc
        simp [hc]
      · split
        · rename_i hm
          simp [hm]
        · exact ih _ _ _

/-- For data of a version below 50 the first loop, from a slot 2 or greater,
leaves the cursor as it is, resets the controllers and removes the memory
cards. -/
theorem Pad.DoState.slots_skipped {C M T : Type} (K : Pad.Decls C M T)
    (D : Pad.StateDecls C M T) :
    ∀ (n i : Nat) (sw : StateWrapper) (s : Pad C M T), sw.GetVersion < 50 → 2 ≤ i →
      Pad.DoState.slots K D i n sw s = (true, sw,
        { s with
          m_controllers := fun j =>
            if i ≤ j ∧ j < i + n then (s.m_controllers j).map (Controller.Reset K.controller)
            else s.m_controllers j
          m_memory_cards := fun j =>
            if i ≤ j ∧ j < i + n then none else s.m_memory_cards j }) := by
  intro n
  induction n with
  | zero =>
    intro i sw s _ _
    have h : ∀ j, ¬(i ≤ j ∧ j < i) := by intro j; omega
    simp [Pad.DoState.slots, h]
  | succ n ih =>
    intro i sw s hv hi
    have hskip : sw.GetVersion < 50 ∧ i ≥ 2 := ⟨hv, hi⟩
    simp only [Pad.DoState.slots, if_pos hskip]
    rw [ih (i + 1) sw _ hv (by omega)]
    congr 2
    simp only
    congr 1
    · funext j
      by_cases hji : j = i
      · subst hji
        have h1 : ¬(j + 1 ≤ j ∧ j < j + 1 + n) := by omega
        have h2 : j ≤ j ∧ j < j + (n + 1) := by omega
        simp [h1, h2]
      · have h3 : (i + 1 ≤ j ∧ j < i + 1 + n) ↔ (i ≤ j ∧ j < i + (n + 1)) := by omega
        simp [Function.update_noteq hji, h3]
    · funext j
      by_cases hji : j = i
      · subst hji
        have h1 : ¬(j + 1 ≤ j ∧ j < j + 1 + n) := by omega
        have h2 : j ≤ j ∧ j < j + (n + 1) := by omega
        simp [h1, h2]
      · have h3 : (i + 1 ≤ j ∧ j < i + 1 + n) ↔ (i ≤ j ∧ j < i + (n + 1)) := by omega
        simp [Function.update_noteq hji, h3]

/-- Claim C26: `DoState` on a cursor whose format version is below 50.  From
every slot 2 or greater the first loop returns the cursor as it is (nothing
is read or written), with the controllers of those slots reset and their
memory cards removed.  When the loop has handled slots 0 and 1 and left the
cursor `sw2` and the bus `s2`, `DoState` passes the registers of the bus,
with the controllers of slots 2 to 7 reset and their memory cards removed,
to that same cursor `sw2`: no multitap state comes between. -/
theorem Pad.DoState_skips_below_version_50 {C M T : Type} (K : Pad.Decls C M T)
    (D : Pad.StateDecls C M T) (sw : StateWrapper) (s : Pad C M T)
    (hv : sw.GetVersion < 50) :
    (∀ i n : Nat, 2 ≤ i →
      Pad.DoState.slots K D i n sw s = (true, sw,
        { s with
          m_controllers := fun j =>
            if i ≤ j ∧ j < i + n then (s.m_controllers j).map (Controller.Reset K.controller)
            else s.m_controllers j
          m_memory_cards := fun j =>
            if i ≤ j ∧ j < i + n then none else s.m_memory_cards j })) ∧
    (∀ (sw2 : StateWrapper) (s2 s3 : Pad C M T),
      Pad.DoState.slots K D 0 2 sw s = (true, sw2, s2) →
      s3 =
        { s2 with
          m_controllers := fun j =>
            if 2 ≤ j ∧ j < Pad.NUM_CONTROLLER_AND_CARD_PORTS then
              (s2.m_controllers j).map (Controller.Reset K.controller)
            else s2.m_controllers j
          m_memory_cards := fun j =>
            if 2 ≤ j ∧ j < Pad.NUM_CONTROLLER_AND_CARD_PORTS then none
            else s2.m_memory_cards j } →
      Pad.DoState K D sw s =
        (!(Pad.DoState.registers sw2 s3).1.HasError, (Pad.DoState.registers sw2 s3).1,
          if (Pad.DoState.registers sw2 s3).1.IsReading
              && Pad.IsTransmitting (Pad.DoState.registers sw2 s3).2 then
            { (Pad.DoState.registers sw2 s3).2 with
              m_transfer_event := (Pad.DoState.registers sw2 s3).2.m_transfer_event.Activate }
          else (Pad.DoState.registers sw2 s3).2)) := by
  refine ⟨fun i n hi => Pad.DoState.slots_skipped K D n i sw s hv hi, ?_⟩
  intro sw2 s2 s3 h01 hs3
  have hv2 : sw2.GetVersion < 50 := by
    have h := Pad.DoState.slots_version K D 2 0 sw s
    rw [h01] at h
    simp only [StateWrapper.GetVersion] at hv ⊢
    rw [h]
    exact hv
  have h8 : Pad.DoState.slots K D 0 Pad.NUM_CONTROLLER_AND_CARD_PORTS sw s = (true, sw2, s3) := by
    have h := Pad.DoState.slots_add K D 6 2 0 sw s
    rw [h01] at h
    simp only [Bool.not_true, Bool.false_eq_true, if_false, Nat.zero_add] at h
    rw [Pad.DoState.slots_skipped K D 6 2 sw2 s2 hv2 (le_refl 2)] at h
    rw [hs3]
    exact h
  have hnot : ¬ sw2.GetVersion ≥ 50 := by omega
  simp only [Pad.DoState, h8, Bool.not_true, Bool.false_eq_true, if_false, if_neg hnot]

/-- Witness of C26: the sample bus is restored from data of version 49 that
hold slots 0 and 1 and then the nine register values: from slot 2 the loop
leaves the cursor where it is, and `DoState` has read all the data, the last
nine values into the registers. -/
theorem Pad.DoState_skips_below_version_50_witness :
    (StateWrapper.forReading 49 Pad.sampleOldData).GetVersion < 50 ∧
    (Pad.DoState.slots Pad.Decls.sample Pad.StateDecls.sample 2 6
      (StateWrapper.forReading 49 Pad.sampleOldData) Pad.sample).2.1
      = StateWrapper.forReading 49 Pad.sampleOldData ∧
    (Pad.DoState Pad.Decls.sample Pad.StateDecls.sample
      (StateWrapper.forReading 49 Pad.sampleOldData) Pad.sample).2.1
      = StateWrapper.forReading 49 [] ∧
    (Pad.DoState Pad.Decls.sample Pad.StateDecls.sample
      (StateWrapper.forReading 49 Pad.sampleOldData) Pad.sample).2.2.m_JOY_CTRL = 0x1007 :=
  ⟨by decide,
   congrArg (fun r => r.2.1)
     ((Pad.DoState_skips_below_version_50 Pad.Decls.sample Pad.StateDecls.sample
        (StateWrapper.forReading 49 Pad.sampleOldData) Pad.sample (by decide)).1 2 6
        (by decide)),
   (congrArg (fun r => r.2.1)
     ((Pad.DoState_skips_below_version_50 Pad.Decls.sample Pad.StateDecls.sample
        (StateWrapper.forReading 49 Pad.sampleOldData) Pad.sample (by decide)).2
        (Pad.DoState.slots Pad.Decls.sample Pad.StateDecls.sample 0 2
          (StateWrapper.forReading 49 Pad.sampleOldData) Pad.sample).2.1
        (Pad.DoState.slots Pad.Decls.sample Pad.StateDecls.sample 0 2
          (StateWrapper.forReading 49 Pad.sampleOldData) Pad.sample).2.2
        _ (Prod.ext (by decide) rfl) rfl)).trans (by decide),
   (congrArg (fun r => r.2.2.m_JOY_CTRL)
     ((Pad.DoState_skips_below_version_50 Pad.Decls.sample Pad.StateDecls.sample
        (StateWrapper.forReading 49 Pad.sampleOldData) Pad.sample (by decide)).2
        (Pad.DoState.slots Pad.Decls.sample Pad.StateDecls.sample 0 2
          (StateWrapper.forReading 49 Pad.sampleOldData) Pad.sample).2.1
        (Pad.DoState.slots Pad.Decls.sample Pad.StateDecls.sample 0 2
          (StateWrapper.forReading 49 Pad.sampleOldData) Pad.sample).2.2
        _ (Prod.ext (by decide) rfl) rfl)).trans (by decide)⟩

/-! ## The derived status flags -/

/-- Evaluation of C31 at failing inputs, on the sample bus after `Initialize`,
where the derived flags agree with the latches.  A write of 0x01 to the data
register (offset 0x00) with the control register zero sets the transmit-full
flag and leaves TXRDY set: the flags no longer agree; the control write that
follows calls `UpdateJoyStat` and they agree again.  With device-select and
transmit-enable set, the data write starts a transfer and leaves TXDONE set
while the bus is Transmitting.  And an acknowledge tick that starts the next
transfer (a byte was queued during WaitingForACK and the flags were brought
to agree by a data read) leaves TXRDY clear although the transmit buffer is
empty again. -/
theorem Pad.WriteRegister_data_stale_stat :
    Pad.StatMatchesLatches Pad.Decls.sample (Pad.Initialize Pad.Decls.sample Pad.sample) ∧
    (Pad.run Pad.Decls.sample (Pad.Initialize Pad.Decls.sample Pad.sample)
      [Pad.Op.WriteRegister 0x00 0x01]).m_transmit_buffer_full = true ∧
    BitField.GetValue
      (Pad.run Pad.Decls.sample (Pad.Initialize Pad.Decls.sample Pad.sample)
        [Pad.Op.WriteRegister 0x00 0x01]).m_JOY_STAT Pad.Decls.sample.STAT_TXRDY = true ∧
    ¬ Pad.StatMatchesLatches Pad.Decls.sample
      (Pad.run Pad.Decls.sample (Pad.Initialize Pad.Decls.sample Pad.sample)
        [Pad.Op.WriteRegister 0x00 0x01]) ∧
    Pad.StatMatchesLatches Pad.Decls.sample
      (Pad.run Pad.Decls.sample (Pad.Initialize Pad.Decls.sample Pad.sample)
        [Pad.Op.WriteRegister 0x00 0x01, Pad.Op.WriteRegister 0x0A 0x0000]) ∧
    Pad.StatMatchesLatches Pad.Decls.sample
      (Pad.run Pad.Decls.sample (Pad.Initialize Pad.Decls.sample Pad.sample)
        [Pad.Op.WriteRegister 0x0A 0x0003]) ∧
    (Pad.run Pad.Decls.sample (Pad.Initialize Pad.Decls.sample Pad.sample)
      [Pad.Op.WriteRegister 0x0A 0x0003, Pad.Op.WriteRegister 0x00 0x01]).m_state
      = Pad.State.Transmitting ∧
    BitField.GetValue
      (Pad.run Pad.Decls.sample (Pad.Initialize Pad.Decls.sample Pad.sample)
        [Pad.Op.WriteRegister 0x0A 0x0003, Pad.Op.WriteRegister 0x00 0x01]).m_JOY_STAT
      Pad.Decls.sample.STAT_TXDONE = true ∧
    ¬ Pad.StatMatchesLatches Pad.Decls.sample
      (Pad.run Pad.Decls.sample (Pad.Initialize Pad.Decls.sample Pad.sample)
        [Pad.Op.WriteRegister 0x0A 0x0003, Pad.Op.WriteRegister 0x00 0x01]) ∧
    (Pad.run Pad.Decls.sample (Pad.Initialize Pad.Decls.sample Pad.sample)
      [Pad.Op.WriteRegister 0x0A 0x0003, Pad.Op.WriteRegister 0x00 0x01,
       Pad.Op.TransferEvent PointerSource.onScreen, Pad.Op.WriteRegister 0x00 0x42,
       Pad.Op.ReadRegister PointerSource.onScreen false 0x00]).m_state
      = Pad.State.WaitingForACK ∧
    Pad.StatMatchesLatches Pad.Decls.sample
      (Pad.run Pad.Decls.sample (Pad.Initialize Pad.Decls.sample Pad.sample)
        [Pad.Op.WriteRegister 0x0A 0x0003, Pad.Op.WriteRegister 0x00 0x01,
         Pad.Op.TransferEvent PointerSource.onScreen, Pad.Op.WriteRegister 0x00 0x42,
         Pad.Op.ReadRegister PointerSource.onScreen false 0x00]) ∧
    (Pad.run Pad.Decls.sample (Pad.Initialize Pad.Decls.sample Pad.sample)
      [Pad.Op.WriteRegister 0x0A 0x0003, Pad.Op.WriteRegister 0x00 0x01,
       Pad.Op.TransferEvent PointerSource.onScreen, Pad.Op.WriteRegister 0x00 0x42,
       Pad.Op.ReadRegister PointerSource.onScreen false 0x00,
       Pad.Op.TransferEvent PointerSource.onScreen]).m_transmit_buffer_full = false ∧
    BitField.GetValue
      (Pad.run Pad.Decls.sample (Pad.Initialize Pad.Decls.sample Pad.sample)
        [Pad.Op.WriteRegister 0x0A 0x0003, Pad.Op.WriteRegister 0x00 0x01,
         Pad.Op.TransferEvent PointerSource.onScreen, Pad.Op.WriteRegister 0x00 0x42,
         Pad.Op.ReadRegister PointerSource.onScreen false 0x00,
         Pad.Op.TransferEvent PointerSource.onScreen]).m_JOY_STAT
      Pad.Decls.sample.STAT_TXRDY = false ∧
    ¬ Pad.StatMatchesLatches Pad.Decls.sample
      (Pad.run Pad.Decls.sample (Pad.Initialize Pad.Decls.sample Pad.sample)
        [Pad.Op.WriteRegister 0x0A 0x0003, Pad.Op.WriteRegister 0x00 0x01,
         Pad.Op.TransferEvent PointerSource.onScreen, Pad.Op.WriteRegister 0x00 0x42,
         Pad.Op.ReadRegister PointerSource.onScreen false 0x00,
         Pad.Op.TransferEvent PointerSource.onScreen]) := by
  refine ⟨by decide, by decide, by decide, by decide, by decide, by decide, by decide,
    by decide, by decide, by decide, by decide, by decide, by decide, by decide⟩

/-! ## Input independence of the twist controller after the class byte -/

/-- C32: for the twist controller in a transfer state after Ready (neither
Idle nor Ready: identifier-high to the last analog state), `Transfer` gives
the same output byte, the same acknowledgement and the same device for any
two input bytes; and in every transfer state and for every input byte
`Transfer` leaves the button register and the four axis latches as they
are. -/
theorem NeGcon.Transfer_ignores_input (d : NeGcon) (x y : Nat) :
    (d.m_transfer_state ≠ NeGcon.TransferState.Idle →
      d.m_transfer_state ≠ NeGcon.TransferState.Ready →
      (NeGcon.Transfer d x).data_out = (NeGcon.Transfer d y).data_out ∧
      (NeGcon.Transfer d x).ack = (NeGcon.Transfer d y).ack ∧
      (NeGcon.Transfer d x).dev.m_transfer_state = (NeGcon.Transfer d y).dev.m_transfer_state ∧
      NeGcon.Transfer d x = NeGcon.Transfer d y) ∧
    (NeGcon.Transfer d x).dev.m_button_state = d.m_button_state ∧
    (NeGcon.Transfer d x).dev.m_axis_state = d.m_axis_state := by
  obtain ⟨axes, buttons, st⟩ := d
  refine ⟨?_, ?_, ?_⟩
  · intro h1 h2
    cases st
    · exact absurd rfl h1
    · exact absurd rfl h2
    all_goals exact ⟨rfl, rfl, rfl, rfl⟩
  · cases st <;> simp only [NeGcon.Transfer] <;> split_ifs <;> rfl
  · cases st <;> simp only [NeGcon.Transfer] <;> split_ifs <;> rfl

/-- Witness of C32: the fresh twist controller about to send the low button
byte answers the input bytes 0x00 and 0xFF alike, with 0xFF acknowledged. -/
theorem NeGcon.Transfer_ignores_input_witness :
    ({ NeGcon.fresh with m_transfer_state := NeGcon.TransferState.ButtonsLSB }
        : NeGcon).m_transfer_state ≠ NeGcon.TransferState.Idle ∧
    ({ NeGcon.fresh with m_transfer_state := NeGcon.TransferState.ButtonsLSB }
        : NeGcon).m_transfer_state ≠ NeGcon.TransferState.Ready ∧
    (NeGcon.Transfer
        { NeGcon.fresh with m_transfer_state := NeGcon.TransferState.ButtonsLSB } 0x00).data_out
      = (NeGcon.Transfer
        { NeGcon.fresh with m_transfer_state := NeGcon.TransferState.ButtonsLSB } 0xFF).data_out ∧
    (NeGcon.Transfer
        { NeGcon.fresh with m_transfer_state := NeGcon.TransferState.ButtonsLSB } 0x00).data_out
      = 0xFF :=
  ⟨by decide, by decide,
   ((NeGcon.Transfer_ignores_input
      { NeGcon.fresh with m_transfer_state := NeGcon.TransferState.ButtonsLSB } 0x00 0xFF).1
      (by decide) (by decide)).1,
   by decide⟩

/-! ## Alignment helpers -/

/-- Masking a value below `2 ^ n` with the complement of `2 ^ k - 1` in `n`
bits rounds it down to a multiple of `2 ^ k`. -/
theorem Common.and_complement_eq_div_mul (n k x : Nat) (hx : x < 2 ^ n) (hk : k ≤ n) :
    x &&& (2 ^ n - 1 - (2 ^ k - 1)) = x / 2 ^ k * 2 ^ k := by
  have hpos : 0 < 2 ^ k := Nat.two_pow_pos k
  have hlt : 2 ^ k - 1 < 2 ^ n :=
    lt_of_lt_of_le (Nat.sub_lt hpos Nat.one_pos) (Nat.pow_le_pow_right (by decide) hk)
  have hmask : 2 ^ n - 1 - (2 ^ k - 1) = 2 ^ n - ((2 ^ k - 1) + 1) := by omega
  rw [hmask, ← Nat.shiftRight_eq_div_pow, ← Nat.shiftLeft_eq]
  apply Nat.eq_of_testBit_eq
  intro i
  rw [Nat.testBit_and, Nat.testBit_two_pow_sub_succ hlt, Nat.testBit_two_pow_sub_one,
    Nat.testBit_shiftLeft, Nat.testBit_shiftRight]
  by_cases hik : i < k
  · have h1 : ¬ i ≥ k := by omega
    simp [hik, h1]
  · have h1 : i ≥ k := by omega
    have h2 : k + (i - k) = i := by omega
    by_cases hin : i < n
    · simp [hik, h1, hin, h2]
    · have hxi : x.testBit i = false :=
        Nat.testBit_lt_two_pow
          (lt_of_lt_of_le hx (Nat.pow_le_pow_right (by decide) (by omega)))
      simp [hik, h1, hin, h2, hxi]

/-- The conversion to `T` and the arithmetic of `T` leave a value below
`2 ^ bits` as it is. -/
theorem Common.UnsignedType.cast_arith_of_lt (T : Common.UnsignedType) (x : Nat)
    (hx : x < 2 ^ T.bits) : T.cast x = x ∧ T.arith x = x := by
  refine ⟨Nat.mod_eq_of_lt hx, ?_⟩
  cases T
  · rfl
  · rfl
  · exact Nat.mod_eq_of_lt hx
  · exact Nat.mod_eq_of_lt hx

theorem Common.alignmentMinusOne_of_pos (a : Nat) (ha : 0 < a) (ha32 : a < 2 ^ 32) :
    Common.alignmentMinusOne a = a - 1 := by
  unfold Common.alignmentMinusOne
  omega

/-- The value of `AlignUp` for an alignment that is positive and
representable in `T`, when `v + a - 1` does not overflow. -/
theorem Common.AlignUp_eq (T : Common.UnsignedType) (v a : Nat) (ha : 0 < a)
    (ha32 : a < 2 ^ 32) (hrep : a < 2 ^ T.bits) (hsum : v + a - 1 < 2 ^ T.bits) :
    Common.AlignUp T v a = some ((v + (a - 1)) / a * a) := by
  have hs : v + (a - 1) < 2 ^ T.bits := by omega
  have hq : (v + (a - 1)) / a * a < 2 ^ T.bits :=
    lt_of_le_of_lt (Nat.div_mul_le_self _ _) hs
  have ha0 : T.cast a ≠ 0 := by
    rw [(T.cast_arith_of_lt a hrep).1]
    omega
  unfold Common.AlignUp
  rw [if_neg ha0, Common.alignmentMinusOne_of_pos a ha ha32, (T.cast_arith_of_lt a hrep).1,
    (T.cast_arith_of_lt (a - 1) (by omega)).1, (T.cast_arith_of_lt _ hs).2,
    (T.cast_arith_of_lt _ hq).2, (T.cast_arith_of_lt _ hq).1]

/-- Counterexample to C33 as stated: for `T = u8`, `v = 0` and `a = 256` the
alignment is positive and `v + a - 1 = 255` does not overflow `u8`, but
`static_cast<T>(alignment)` is 0 and `AlignUp` divides by zero: it returns no
value, where the claim says it returns 0, the smallest multiple of 256 that
is at least 0. -/
theorem Common.AlignUp_counterexample :
    (0 : Nat) < 256 ∧ 256 < 2 ^ 32 ∧
    0 + 256 - 1 < 2 ^ Common.UnsignedType.u8.bits ∧
    Common.UnsignedType.u8.cast 256 = 0 ∧
    Common.AlignUp Common.UnsignedType.u8 0 256 = none ∧
    Common.AlignUp Common.UnsignedType.u8 0 256 ≠ some 0 := by
  refine ⟨by decide, by decide, by decide, by decide, by decide, by decide⟩

/-- C33 (amended): for every unsigned type `T`, every value `v` of `T` and
every alignment `a > 0` (an `unsigned int`, below `2 ^ 32`) that is
representable in `T`, such that `v + a - 1` does not overflow `T`: `AlignUp(v, a)` is the smallest multiple of `a` that
is greater than or equal to `v`; and when `a` is a power of two,
`AlignUpPow2(v, a)` is equal to it and `IsAlignedPow2` of that result and `a`
is true. -/
theorem Common.AlignUp_least_multiple (T : Common.UnsignedType) (v a : Nat) (ha : 0 < a)
    (ha32 : a < 2 ^ 32) (hrep : a < 2 ^ T.bits) (hsum : v + a - 1 < 2 ^ T.bits) :
    ∃ r : Nat, Common.AlignUp T v a = some r ∧ r < 2 ^ T.bits ∧
      a ∣ r ∧ v ≤ r ∧ (∀ m : Nat, a ∣ m → v ≤ m → r ≤ m) ∧
      (∀ k : Nat, a = 2 ^ k →
        Common.AlignUpPow2 T v a = r ∧ Common.IsAlignedPow2 T r a = true) := by
  have hs : v + (a - 1) < 2 ^ T.bits := by omega
  have hq : (v + (a - 1)) / a * a < 2 ^ T.bits :=
    lt_of_le_of_lt (Nat.div_mul_le_self _ _) hs
  refine ⟨(v + (a - 1)) / a * a, Common.AlignUp_eq T v a ha ha32 hrep hsum, hq,
    Dvd.intro_left _ rfl, ?_, ?_, ?_⟩
  · have h1 := Nat.div_add_mod (v + (a - 1)) a
    have h2 := Nat.mod_lt (v + (a - 1)) ha
    rw [Nat.mul_comm] at h1
    omega
  · rintro m ⟨j, rfl⟩ hvm
    have hlt : (v + (a - 1)) / a < j + 1 := by
      apply Nat.div_lt_of_lt_mul
      rw [Nat.mul_add, Nat.mul_one]
      omega
    rw [Nat.mul_comm a j]
    exact Nat.mul_le_mul_right a (by omega)
  · intro k hk
    have hkn : k < T.bits := by
      rw [hk] at hrep
      exact (Nat.pow_lt_pow_iff_right (by decide)).1 hrep
    constructor
    · unfold Common.AlignUpPow2 Common.UnsignedType.complement
      rw [Common.alignmentMinusOne_of_pos a ha ha32, (T.cast_arith_of_lt (a - 1) (by omega)).1,
        (T.cast_arith_of_lt _ hs).2, hk,
        Common.and_complement_eq_div_mul T.bits k _ (by rw [← hk]; exact hs) (le_of_lt hkn)]
      rw [← hk]
      exact (T.cast_arith_of_lt _ hq).1
    · unfold Common.IsAlignedPow2
      rw [Common.alignmentMinusOne_of_pos a ha ha32, (T.cast_arith_of_lt (a - 1) (by omega)).1,
        hk, Nat.and_pow_two_sub_one_eq_mod, Nat.mul_mod_left]
      rfl

/-- Witness of C33 (amended): the value 13 of type `u8` aligned to 8 is 16. -/
theorem Common.AlignUp_least_multiple_witness :
    (0 : Nat) < 8 ∧ 8 < 2 ^ 32 ∧ 8 < 2 ^ Common.UnsignedType.u8.bits ∧
    13 + 8 - 1 < 2 ^ Common.UnsignedType.u8.bits ∧
    Common.AlignUp Common.UnsignedType.u8 13 8 = some 16 ∧
    Common.AlignUpPow2 Common.UnsignedType.u8 13 8 = 16 ∧
    ∃ r : Nat, Common.AlignUp Common.UnsignedType.u8 13 8 = some r ∧
      r < 2 ^ Common.UnsignedType.u8.bits ∧
      8 ∣ r ∧ 13 ≤ r ∧ (∀ m : Nat, 8 ∣ m → 13 ≤ m → r ≤ m) ∧
      (∀ k : Nat, 8 = 2 ^ k →
        Common.AlignUpPow2 Common.UnsignedType.u8 13 8 = r ∧
        Common.IsAlignedPow2 Common.UnsignedType.u8 r 8 = true) :=
  ⟨by decide, by decide, by decide, by decide, by decide, by decide,
   Common.AlignUp_least_multiple Common.UnsignedType.u8 13 8 (by decide) (by decide)
     (by decide) (by decide)⟩
